import Mathlib

/-!
# End-point scaling points of opm-material

A shallow embedding of
`opm/material/fluidmatrixinteractions/EclEpsScalingPoints.hpp`:

* `EclEpsGridProperties`: the optional per-cell override arrays,
* `EclEpsScalingPointsInfo` with `extractUnscaled` and `extractScaled`,
* `EclEpsScalingPoints` with `init`, the point setters and the getters.

Conventions of the embedding.

* The template parameter `Scalar` and `double` are both the exact rationals:
  rounding of floating-point arithmetic is outside the model.
* A member function that mutates `*this` takes the object as its first
  argument `self` and returns the new object.
* A `std::vector` is a `List`.  Element access outside the vector (`v[i]`,
  `front()`, `back()`), which C++ leaves undefined, is the failure
  `undefinedBehaviour`.  A null pointer to a vector is `none`.
* `assert` is active: an assertion that does not hold is the failure
  `assertionFailure`.  `throw std::domain_error` is `domainError`.
* Row counts are taken to fit the `int` and `unsigned` loop counters, so the
  counters are unbounded naturals.
-/

namespace Opm

/-- The scalar type of the template classes, taken as the exact rationals.
Rounding is not modelled, so the statements below are kept to what rounding
cannot change: which value is assigned to which field, comparisons of
tabulated values, and orders between values that are each one operation away
from the inputs. -/
abbrev Scalar := ℚ

/-- The three ways in which a member function fails to produce an object. -/
inductive Failure where
  | domainError
  | assertionFailure
  | undefinedBehaviour
  deriving DecidableEq, Repr

/-- The element access `v[idx]` of a `std::vector` with an `int` index. -/
def vectorAt {α : Type} (v : List α) (idx : Int) : Except Failure α :=
  if 0 ≤ idx then
    match v[idx.toNat]? with
    | some x => .ok x
    | none => .error .undefinedBehaviour
  else
    .error .undefinedBehaviour

/-- The member `front()` of a `std::vector`. -/
def front {α : Type} (v : List α) : Except Failure α :=
  match v.head? with
  | some x => .ok x
  | none => .error .undefinedBehaviour

/-- The member `back()` of a `std::vector`. -/
def back {α : Type} (v : List α) : Except Failure α :=
  match v.getLast? with
  | some x => .ok x
  | none => .error .undefinedBehaviour

/-! ## Saturation tables -/

/-- Modelled from the spec: one row of the oil-water table of family 1 (the
table classes belong to the deck reader and are not part of this file): the
water saturation with the relative permeabilities and the capillary pressure
tabulated against it. -/
structure SwofRow where
  Sw : Scalar
  Krw : Scalar
  Krow : Scalar
  Pcow : Scalar
  deriving DecidableEq, Repr

/-- Modelled from the spec: the oil-water table of family 1, a sequence of rows;
every column has `numRows` entries. -/
structure SwofTable where
  rows : List SwofRow
  deriving DecidableEq, Repr

/-- Modelled from the spec: one row of the gas-oil table of family 1. -/
structure SgofRow where
  Sg : Scalar
  Krg : Scalar
  Krog : Scalar
  Pcog : Scalar
  deriving DecidableEq, Repr

/-- Modelled from the spec: the gas-oil table of family 1. -/
structure SgofTable where
  rows : List SgofRow
  deriving DecidableEq, Repr

/-- Modelled from the spec: one row of the water table of family 2. -/
structure SwfnRow where
  Sw : Scalar
  Krw : Scalar
  Pcow : Scalar
  deriving DecidableEq, Repr

/-- Modelled from the spec: the water table of family 2. -/
structure SwfnTable where
  rows : List SwfnRow
  deriving DecidableEq, Repr

/-- Modelled from the spec: one row of the gas table of family 2. -/
structure SgfnRow where
  Sg : Scalar
  Krg : Scalar
  Pcog : Scalar
  deriving DecidableEq, Repr

/-- Modelled from the spec: the gas table of family 2. -/
structure SgfnTable where
  rows : List SgfnRow
  deriving DecidableEq, Repr

/-- Modelled from the spec: one row of the three-phase oil table of family 2,
indexed by the oil saturation. -/
structure Sof3Row where
  So : Scalar
  Krow : Scalar
  Krog : Scalar
  deriving DecidableEq, Repr

/-- Modelled from the spec: the three-phase oil table of family 2. -/
structure Sof3Table where
  rows : List Sof3Row
  deriving DecidableEq, Repr

def SwofTable.numRows (t : SwofTable) : Nat := t.rows.length
def SwofTable.getSwColumn (t : SwofTable) : List Scalar := t.rows.map SwofRow.Sw
def SwofTable.getKrwColumn (t : SwofTable) : List Scalar := t.rows.map SwofRow.Krw
def SwofTable.getKrowColumn (t : SwofTable) : List Scalar := t.rows.map SwofRow.Krow
def SwofTable.getPcowColumn (t : SwofTable) : List Scalar := t.rows.map SwofRow.Pcow

def SgofTable.numRows (t : SgofTable) : Nat := t.rows.length
def SgofTable.getSgColumn (t : SgofTable) : List Scalar := t.rows.map SgofRow.Sg
def SgofTable.getKrgColumn (t : SgofTable) : List Scalar := t.rows.map SgofRow.Krg
def SgofTable.getKrogColumn (t : SgofTable) : List Scalar := t.rows.map SgofRow.Krog
def SgofTable.getPcogColumn (t : SgofTable) : List Scalar := t.rows.map SgofRow.Pcog

def SwfnTable.numRows (t : SwfnTable) : Nat := t.rows.length
def SwfnTable.getSwColumn (t : SwfnTable) : List Scalar := t.rows.map SwfnRow.Sw
def SwfnTable.getKrwColumn (t : SwfnTable) : List Scalar := t.rows.map SwfnRow.Krw
def SwfnTable.getPcowColumn (t : SwfnTable) : List Scalar := t.rows.map SwfnRow.Pcow

def SgfnTable.numRows (t : SgfnTable) : Nat := t.rows.length
def SgfnTable.getSgColumn (t : SgfnTable) : List Scalar := t.rows.map SgfnRow.Sg
def SgfnTable.getKrgColumn (t : SgfnTable) : List Scalar := t.rows.map SgfnRow.Krg
def SgfnTable.getPcogColumn (t : SgfnTable) : List Scalar := t.rows.map SgfnRow.Pcog

def Sof3Table.numRows (t : Sof3Table) : Nat := t.rows.length
def Sof3Table.getSoColumn (t : Sof3Table) : List Scalar := t.rows.map Sof3Row.So
def Sof3Table.getKrowColumn (t : Sof3Table) : List Scalar := t.rows.map Sof3Row.Krow
def Sof3Table.getKrogColumn (t : Sof3Table) : List Scalar := t.rows.map Sof3Row.Krog

/-- Modelled from the spec: the part of the deck reader state that
`extractUnscaled` queries, the five table collections, one table per
saturation region in each. -/
structure EclipseState where
  getSwofTables : List SwofTable
  getSgofTables : List SgofTable
  getSwfnTables : List SwfnTable
  getSgfnTables : List SgfnTable
  getSof3Tables : List Sof3Table
  deriving DecidableEq, Repr

/-! ## Grid properties -/

/-- The class `EclEpsGridProperties`: pointers to the per-cell arrays, null
when the keyword is absent from the deck. -/
structure EclEpsGridProperties where
  satnum : Option (List Int)
  swl : Option (List Scalar)
  sgl : Option (List Scalar)
  swcr : Option (List Scalar)
  sgcr : Option (List Scalar)
  sowcr : Option (List Scalar)
  sogcr : Option (List Scalar)
  swu : Option (List Scalar)
  sgu : Option (List Scalar)
  pcw : Option (List Scalar)
  pcg : Option (List Scalar)
  krw : Option (List Scalar)
  kro : Option (List Scalar)
  krg : Option (List Scalar)

/-! ## EclEpsScalingPointsInfo -/

/-- The struct `EclEpsScalingPointsInfo`. -/
structure EclEpsScalingPointsInfo where
  Swl : Scalar
  Sgl : Scalar
  Sowl : Scalar
  Sogl : Scalar
  Swcr : Scalar
  Sgcr : Scalar
  Sowcr : Scalar
  Sogcr : Scalar
  Swu : Scalar
  Sgu : Scalar
  Sowu : Scalar
  Sogu : Scalar
  maxPcow : Scalar
  maxPcgo : Scalar
  maxKrw : Scalar
  maxKrow : Scalar
  maxKrog : Scalar
  maxKrg : Scalar

/-- The forward critical-saturation loops of `extractUnscaled`
(`for (rowIdx = 0; rowIdx < numRows; ++rowIdx)`), entered at `rowIdx`: at the
first row whose relative permeability is positive, assert `rowIdx > 0`, assign
the saturation of the row before to the target and break.  The result is the
value of the target after the loop; `target` is its value before.  -/
def criticalSaturationForward (krColumn satColumn : List Scalar) (numRows : Nat)
    (target : Scalar) (rowIdx : Nat) : Except Failure Scalar :=
  if rowIdx < numRows then
    match krColumn[rowIdx]? with
    | none => .error .undefinedBehaviour
    | some kr =>
      if kr > 0 then
        if rowIdx > 0 then
          match satColumn[rowIdx - 1]? with
          | none => .error .undefinedBehaviour
          | some sat => .ok sat
        else
          .error .assertionFailure
      else
        criticalSaturationForward krColumn satColumn numRows target (rowIdx + 1)
  else
    .ok target
termination_by numRows - rowIdx

/-- The backward critical-saturation loops of family 1
(`for (int rowIdx = numRows - 1; rowIdx >= 0; --rowIdx)`).  The last argument
is `rowIdx + 1`, so `0` is the exit `rowIdx = -1`: at the first row met whose
relative permeability is positive, assert `rowIdx < numRows - 1`, assign
`1.0 -` the saturation of the row after to the target and break. -/
def criticalSaturationBackward (krColumn satColumn : List Scalar) (numRows : Nat)
    (target : Scalar) : Nat → Except Failure Scalar
  | 0 => .ok target
  | rowIdx + 1 =>
    match krColumn[rowIdx]? with
    | none => .error .undefinedBehaviour
    | some kr =>
      if kr > 0 then
        if (rowIdx : Int) < (numRows : Int) - 1 then
          match satColumn[rowIdx + 1]? with
          | none => .error .undefinedBehaviour
          | some sat => .ok (1 - sat)
        else
          .error .assertionFailure
      else
        criticalSaturationBackward krColumn satColumn numRows target rowIdx

/-- The statement `assert(cond)`. -/
def assert (cond : Bool) : Except Failure Unit :=
  if cond then .ok () else .error .assertionFailure

/-- The member `extractUnscaled` (the deck argument is not used by the body).
Fields that no statement assigns keep the value they have in `self`. -/
def extractUnscaled (self : EclEpsScalingPointsInfo) (eclState : EclipseState)
    (satRegionIdx : Int) : Except Failure EclEpsScalingPointsInfo :=
  let swofTables := eclState.getSwofTables
  let sgofTables := eclState.getSgofTables
  let swfnTables := eclState.getSwfnTables
  let sgfnTables := eclState.getSgfnTables
  let sof3Tables := eclState.getSof3Tables
  let family1 := !sgofTables.isEmpty && !swofTables.isEmpty
  let family2 := !swfnTables.isEmpty && !sgfnTables.isEmpty && !sof3Tables.isEmpty
  if family1 then do
    let swofTable ← vectorAt swofTables satRegionIdx
    let sgofTable ← vectorAt sgofTables satRegionIdx
    -- connate saturations
    let v ← front swofTable.getSwColumn
    let self : EclEpsScalingPointsInfo := { self with Swl := v }
    let v ← back swofTable.getSwColumn
    let self : EclEpsScalingPointsInfo := { self with Sowl := 1 - v }
    let v ← front sgofTable.getSgColumn
    let self : EclEpsScalingPointsInfo := { self with Sgl := v }
    let v ← back sgofTable.getSgColumn
    let self : EclEpsScalingPointsInfo := { self with Sogl := 1 - v }
    -- critical water saturation
    let v ← criticalSaturationForward swofTable.getKrwColumn swofTable.getSwColumn
      swofTable.numRows self.Swcr 0
    let self : EclEpsScalingPointsInfo := { self with Swcr := v }
    -- critical oil saturation of oil-water system
    let v ← criticalSaturationBackward swofTable.getKrowColumn swofTable.getSwColumn
      swofTable.numRows self.Sowcr swofTable.numRows
    let self : EclEpsScalingPointsInfo := { self with Sowcr := v }
    -- critical gas saturation
    let v ← criticalSaturationForward sgofTable.getKrgColumn sgofTable.getSgColumn
      sgofTable.numRows self.Sgcr 0
    let self : EclEpsScalingPointsInfo := { self with Sgcr := v }
    -- critical oil saturation of gas-oil system
    let v ← criticalSaturationBackward sgofTable.getKrogColumn sgofTable.getSgColumn
      sgofTable.numRows self.Sogcr sgofTable.numRows
    let self : EclEpsScalingPointsInfo := { self with Sogcr := v }
    -- maximum saturations
    let v ← back swofTable.getSwColumn
    let self : EclEpsScalingPointsInfo := { self with Swu := v }
    let v ← front swofTable.getSwColumn
    let self : EclEpsScalingPointsInfo := { self with Sowu := 1 - v }
    let v ← back sgofTable.getSgColumn
    let self : EclEpsScalingPointsInfo := { self with Sgu := v }
    let v ← front sgofTable.getSgColumn
    let self : EclEpsScalingPointsInfo := { self with Sogu := 1 - v }
    -- maximum capillary pressures
    let v ← front swofTable.getPcowColumn
    let self : EclEpsScalingPointsInfo := { self with maxPcow := v }
    let v ← back sgofTable.getPcogColumn
    let self : EclEpsScalingPointsInfo := { self with maxPcgo := v }
    -- maximum relative permeabilities
    let v ← back swofTable.getKrwColumn
    let self : EclEpsScalingPointsInfo := { self with maxKrw := v }
    let v ← front swofTable.getKrowColumn
    let self : EclEpsScalingPointsInfo := { self with maxKrow := v }
    let v ← back sgofTable.getKrgColumn
    let self : EclEpsScalingPointsInfo := { self with maxKrg := v }
    let v ← front sgofTable.getKrogColumn
    let self : EclEpsScalingPointsInfo := { self with maxKrog := v }
    pure self
  else if family2 then do
    let swfnTable ← vectorAt swfnTables satRegionIdx
    let sof3Table ← vectorAt sof3Tables satRegionIdx
    let sgfnTable ← vectorAt sgfnTables satRegionIdx
    -- connate saturations
    let v ← front swfnTable.getSwColumn
    let self : EclEpsScalingPointsInfo := { self with Swl := v }
    let v ← front sof3Table.getSoColumn
    let self : EclEpsScalingPointsInfo := { self with Sowl := v + self.Sgl }
    let v ← front sgfnTable.getSgColumn
    let self : EclEpsScalingPointsInfo := { self with Sgl := v }
    let v ← front sof3Table.getSoColumn
    let self : EclEpsScalingPointsInfo := { self with Sogl := v + self.Swl }
    -- critical water saturation
    let v ← criticalSaturationForward swfnTable.getKrwColumn swfnTable.getSwColumn
      swfnTable.numRows self.Swcr 0
    let self : EclEpsScalingPointsInfo := { self with Swcr := v }
    -- critical oil saturation of oil-water system
    let v ← criticalSaturationForward sof3Table.getKrowColumn sof3Table.getSoColumn
      sof3Table.numRows self.Sowcr 0
    let self : EclEpsScalingPointsInfo := { self with Sowcr := v }
    -- critical oil saturation of gas-oil system
    let v ← criticalSaturationForward sof3Table.getKrogColumn sof3Table.getSoColumn
      sof3Table.numRows self.Sogcr 0
    let self : EclEpsScalingPointsInfo := { self with Sogcr := v }
    -- critical gas saturation
    let v ← criticalSaturationForward sgfnTable.getKrgColumn sgfnTable.getSgColumn
      sgfnTable.numRows self.Sgcr 0
    let self : EclEpsScalingPointsInfo := { self with Sgcr := v }
    -- maximum saturations
    let v ← back swfnTable.getSwColumn
    let self : EclEpsScalingPointsInfo := { self with Swu := v }
    let v ← back sof3Table.getSoColumn
    let self : EclEpsScalingPointsInfo := { self with Sowu := v }
    let v ← front swfnTable.getSwColumn
    assert (decide (self.Sowu = 1 - v))
    let v ← back sgfnTable.getSgColumn
    let self : EclEpsScalingPointsInfo := { self with Sgu := v }
    let v ← front sgfnTable.getSgColumn
    let self : EclEpsScalingPointsInfo := { self with Sogu := 1 - v }
    -- maximum capillary pressures
    let v ← front swfnTable.getPcowColumn
    let self : EclEpsScalingPointsInfo := { self with maxPcow := v }
    let v ← back sgfnTable.getPcogColumn
    let self : EclEpsScalingPointsInfo := { self with maxPcgo := v }
    -- maximum relative permeabilities
    let v ← back swfnTable.getKrwColumn
    let self : EclEpsScalingPointsInfo := { self with maxKrw := v }
    let v ← back sof3Table.getKrowColumn
    let self : EclEpsScalingPointsInfo := { self with maxKrow := v }
    let v ← back sgfnTable.getKrgColumn
    let self : EclEpsScalingPointsInfo := { self with maxKrg := v }
    let v ← back sof3Table.getKrogColumn
    let self : EclEpsScalingPointsInfo := { self with maxKrog := v }
    assert (decide (self.maxKrw = self.maxKrg))
    pure self
  else
    .error .domainError

/-- The private member `extractGridPropertyValue_`; the result is the value of
`targetValue` after the call. -/
def extractGridPropertyValue_ (targetValue : Scalar) (propData : Option (List Scalar))
    (cartesianCellIdx : Int) : Except Failure Scalar :=
  match propData with
  | none => .ok targetValue
  | some data => vectorAt data cartesianCellIdx

/-- The member `extractScaled`. -/
def extractScaled (self : EclEpsScalingPointsInfo) (epsProperties : EclEpsGridProperties)
    (cartesianCellIdx : Int) : Except Failure EclEpsScalingPointsInfo := do
  let v ← extractGridPropertyValue_ self.Swl epsProperties.swl cartesianCellIdx
  let self : EclEpsScalingPointsInfo := { self with Swl := v }
  let v ← extractGridPropertyValue_ self.Sgl epsProperties.sgl cartesianCellIdx
  let self : EclEpsScalingPointsInfo := { self with Sgl := v }
  let v ← extractGridPropertyValue_ self.Swcr epsProperties.swcr cartesianCellIdx
  let self : EclEpsScalingPointsInfo := { self with Swcr := v }
  let v ← extractGridPropertyValue_ self.Sgcr epsProperties.sgcr cartesianCellIdx
  let self : EclEpsScalingPointsInfo := { self with Sgcr := v }
  let v ← extractGridPropertyValue_ self.Sowcr epsProperties.sowcr cartesianCellIdx
  let self : EclEpsScalingPointsInfo := { self with Sowcr := v }
  let v ← extractGridPropertyValue_ self.Sogcr epsProperties.sogcr cartesianCellIdx
  let self : EclEpsScalingPointsInfo := { self with Sogcr := v }
  let v ← extractGridPropertyValue_ self.Swu epsProperties.swu cartesianCellIdx
  let self : EclEpsScalingPointsInfo := { self with Swu := v }
  let v ← extractGridPropertyValue_ self.Sgu epsProperties.sgu cartesianCellIdx
  let self : EclEpsScalingPointsInfo := { self with Sgu := v }
  let v ← extractGridPropertyValue_ self.maxPcow epsProperties.pcw cartesianCellIdx
  let self : EclEpsScalingPointsInfo := { self with maxPcow := v }
  let v ← extractGridPropertyValue_ self.maxPcgo epsProperties.pcg cartesianCellIdx
  let self : EclEpsScalingPointsInfo := { self with maxPcgo := v }
  let v ← extractGridPropertyValue_ self.maxKrw epsProperties.krw cartesianCellIdx
  let self : EclEpsScalingPointsInfo := { self with maxKrw := v }
  let v ← extractGridPropertyValue_ self.maxKrg epsProperties.krg cartesianCellIdx
  let self : EclEpsScalingPointsInfo := { self with maxKrg := v }
  -- quite likely that is wrong!
  let v ← extractGridPropertyValue_ self.maxKrow epsProperties.kro cartesianCellIdx
  let self : EclEpsScalingPointsInfo := { self with maxKrow := v }
  let v ← extractGridPropertyValue_ self.maxKrog epsProperties.kro cartesianCellIdx
  let self : EclEpsScalingPointsInfo := { self with maxKrog := v }
  pure self

/-! ## EclEpsScalingPoints -/

/-- Modelled from the spec: the configuration object of `EclEpsConfig.hpp`, of
which `init` reads the flag for three-point saturation scaling of the
relative permeabilities. -/
structure EclEpsConfig where
  enableThreePointKrSatScaling : Bool
  deriving DecidableEq, Repr

/-- Modelled from the spec: the subsystem selector of `EclEpsConfig.hpp`, with
exactly two variants. -/
inductive EclTwoPhaseSystemType where
  | EclGasOilSystem
  | EclOilWaterSystem
  deriving DecidableEq, Repr

/-- The class `EclEpsScalingPoints`; a `std::array<Scalar, n>` is a function on
`Fin n`. -/
structure EclEpsScalingPoints where
  maxPcnw_ : Scalar
  maxKrw_ : Scalar
  maxKrn_ : Scalar
  saturationPcPoints_ : Fin 2 → Scalar
  saturationKrwPoints_ : Fin 3 → Scalar
  saturationKrnPoints_ : Fin 3 → Scalar

namespace EclEpsScalingPoints

/-- The assignment `saturationPcPoints_[i] = value` at an index inside the array. -/
def assignPc (self : EclEpsScalingPoints) (i : Fin 2) (value : Scalar) : EclEpsScalingPoints :=
  { self with saturationPcPoints_ := Function.update self.saturationPcPoints_ i value }

/-- The assignment `saturationKrwPoints_[i] = value` at an index inside the array. -/
def assignKrw (self : EclEpsScalingPoints) (i : Fin 3) (value : Scalar) : EclEpsScalingPoints :=
  { self with saturationKrwPoints_ := Function.update self.saturationKrwPoints_ i value }

/-- The assignment `saturationKrnPoints_[i] = value` at an index inside the array. -/
def assignKrn (self : EclEpsScalingPoints) (i : Fin 3) (value : Scalar) : EclEpsScalingPoints :=
  { self with saturationKrnPoints_ := Function.update self.saturationKrnPoints_ i value }

/-- The member `init`.  The assertion of the else branch holds for both
variants of the selector, so `init` never fails. -/
def init (self : EclEpsScalingPoints) (epsInfo : EclEpsScalingPointsInfo)
    (config : EclEpsConfig) (epsSystemType : EclTwoPhaseSystemType) : EclEpsScalingPoints :=
  if epsSystemType = .EclOilWaterSystem then
    -- saturation scaling for capillary pressure
    let self := self.assignPc 0 epsInfo.Swl
    let self := self.assignPc 1 epsInfo.Swu
    -- krw saturation scaling endpoints
    let self :=
      if config.enableThreePointKrSatScaling then
        let self := self.assignKrw 0 epsInfo.Swcr
        let self := self.assignKrw 1 (1 - epsInfo.Sowcr - epsInfo.Sgl)
        self.assignKrw 2 epsInfo.Swu
      else
        let self := self.assignKrw 0 epsInfo.Swcr
        self.assignKrw 1 epsInfo.Swu
    -- krn saturation scaling endpoints (the non-wetting phase being oil)
    let self :=
      if config.enableThreePointKrSatScaling then
        let self := self.assignKrn 2 (1 - epsInfo.Sowcr)
        let self := self.assignKrn 1 (epsInfo.Swcr + epsInfo.Sgl)
        self.assignKrn 0 (epsInfo.Swl + epsInfo.Sgl)
      else
        let self := self.assignKrn 1 (1 - epsInfo.Sowcr)
        self.assignKrn 0 (epsInfo.Swl + epsInfo.Sgl)
    let self : EclEpsScalingPoints := { self with maxPcnw_ := epsInfo.maxPcow }
    let self : EclEpsScalingPoints := { self with maxKrw_ := epsInfo.maxKrw }
    { self with maxKrn_ := epsInfo.maxKrow }
  else
    -- saturation scaling for capillary pressure
    let self := self.assignPc 0 (1 - epsInfo.Sgu)
    let self := self.assignPc 1 (1 - epsInfo.Sgl)
    -- krw saturation scaling endpoints
    let self :=
      if config.enableThreePointKrSatScaling then
        let self := self.assignKrw 0 epsInfo.Sogcr
        let self := self.assignKrw 1 (1 - epsInfo.Sgcr - epsInfo.Swl)
        self.assignKrw 2 (1 - epsInfo.Swl - epsInfo.Sgl)
      else
        let self := self.assignKrw 0 epsInfo.Sogcr
        self.assignKrw 1 (1 - epsInfo.Swl - epsInfo.Sgl)
    -- krn saturation scaling endpoints (the non-wetting phase being gas)
    let self :=
      if config.enableThreePointKrSatScaling then
        let self := self.assignKrn 2 (1 - epsInfo.Sgcr)
        let self := self.assignKrn 1 (epsInfo.Sogcr + epsInfo.Swl)
        self.assignKrn 0 (1 - epsInfo.Sgu)
      else
        let self := self.assignKrn 1 (1 - epsInfo.Sgcr)
        self.assignKrn 0 (1 - epsInfo.Sgu)
    let self : EclEpsScalingPoints := { self with maxPcnw_ := epsInfo.maxPcgo }
    let self : EclEpsScalingPoints := { self with maxKrw_ := epsInfo.maxKrog }
    { self with maxKrn_ := epsInfo.maxKrg }

/-- The setter `setSaturationPcPoint`; an index outside the array is undefined
in C++. -/
def setSaturationPcPoint (self : EclEpsScalingPoints) (pointIdx : Int) (value : Scalar) :
    Except Failure EclEpsScalingPoints :=
  if h : 0 ≤ pointIdx ∧ pointIdx < 2 then
    .ok (self.assignPc ⟨pointIdx.toNat, by omega⟩ value)
  else
    .error .undefinedBehaviour

/-- The getter `saturationPcPoints`. -/
def saturationPcPoints (self : EclEpsScalingPoints) : Fin 2 → Scalar :=
  self.saturationPcPoints_

/-- The setter `setSaturationKrwPoint`. -/
def setSaturationKrwPoint (self : EclEpsScalingPoints) (pointIdx : Int) (value : Scalar) :
    Except Failure EclEpsScalingPoints :=
  if h : 0 ≤ pointIdx ∧ pointIdx < 3 then
    .ok (self.assignKrw ⟨pointIdx.toNat, by omega⟩ value)
  else
    .error .undefinedBehaviour

/-- The getter `saturationKrwPoints`. -/
def saturationKrwPoints (self : EclEpsScalingPoints) : Fin 3 → Scalar :=
  self.saturationKrwPoints_

/-- The setter `setSaturationKrnPoint`. -/
def setSaturationKrnPoint (self : EclEpsScalingPoints) (pointIdx : Int) (value : Scalar) :
    Except Failure EclEpsScalingPoints :=
  if h : 0 ≤ pointIdx ∧ pointIdx < 3 then
    .ok (self.assignKrn ⟨pointIdx.toNat, by omega⟩ value)
  else
    .error .undefinedBehaviour

/-- The getter `saturationKrnPoints`. -/
def saturationKrnPoints (self : EclEpsScalingPoints) : Fin 3 → Scalar :=
  self.saturationKrnPoints_

/-- The setter `setMaxPcnw`. -/
def setMaxPcnw (self : EclEpsScalingPoints) (value : Scalar) : EclEpsScalingPoints :=
  { self with maxPcnw_ := value }

/-- The getter `maxPcnw`. -/
def maxPcnw (self : EclEpsScalingPoints) : Scalar := self.maxPcnw_

/-- The setter `setMaxKrw`. -/
def setMaxKrw (self : EclEpsScalingPoints) (value : Scalar) : EclEpsScalingPoints :=
  { self with maxKrw_ := value }

/-- The getter `maxKrw`. -/
def maxKrw (self : EclEpsScalingPoints) : Scalar := self.maxKrw_

/-- The setter `setMaxKrn`. -/
def setMaxKrn (self : EclEpsScalingPoints) (value : Scalar) : EclEpsScalingPoints :=
  { self with maxKrn_ := value }

/-- The getter `maxKrn`. -/
def maxKrn (self : EclEpsScalingPoints) : Scalar := self.maxKrn_

end EclEpsScalingPoints

/-! ## Predicates and sample data used by the statements -/

/-- The validity invariant of the data model, as the specification words it:
each of the four chains connate, critical, maximum lies ordered inside the
unit interval. -/
def validEndpoints (e : EclEpsScalingPointsInfo) : Prop :=
  (0 ≤ e.Swl ∧ e.Swl ≤ e.Swcr ∧ e.Swcr ≤ e.Swu ∧ e.Swu ≤ 1) ∧
  (0 ≤ e.Sgl ∧ e.Sgl ≤ e.Sgcr ∧ e.Sgcr ≤ e.Sgu ∧ e.Sgu ≤ 1) ∧
  (0 ≤ e.Sowl ∧ e.Sowl ≤ e.Sowcr ∧ e.Sowcr ≤ e.Sowu ∧ e.Sowu ≤ 1) ∧
  (0 ≤ e.Sogl ∧ e.Sogl ≤ e.Sogcr ∧ e.Sogcr ≤ e.Sogu ∧ e.Sogu ≤ 1)

instance (e : EclEpsScalingPointsInfo) : Decidable (validEndpoints e) := by
  unfold validEndpoints; infer_instance

/-- A breakpoint array is non-decreasing over the points that the mode uses:
all three in three-point mode, the first two in two-point mode. -/
def nonDecreasingPoints (config : EclEpsConfig) (p : Fin 3 → Scalar) : Prop :=
  if config.enableThreePointKrSatScaling then p 0 ≤ p 1 ∧ p 1 ≤ p 2 else p 0 ≤ p 1

instance (config : EclEpsConfig) (p : Fin 3 → Scalar) : Decidable (nonDecreasingPoints config p) := by
  unfold nonDecreasingPoints; infer_instance

/-- A scaling-point object with every stored value zero. -/
def zeroPoints : EclEpsScalingPoints :=
  { maxPcnw_ := 0, maxKrw_ := 0, maxKrn_ := 0,
    saturationPcPoints_ := fun _ => 0,
    saturationKrwPoints_ := fun _ => 0,
    saturationKrnPoints_ := fun _ => 0 }

/-- The end points of the scenario of the specification: Swcr = 0.3,
Sowcr = 0.25, Sgl = 0, Swl = 0.15, Swu = 0.9. -/
def scenarioInfo : EclEpsScalingPointsInfo :=
  { Swl := 15/100, Sgl := 0, Sowl := 1/10, Sogl := 1/10,
    Swcr := 3/10, Sgcr := 5/100, Sowcr := 25/100, Sogcr := 2/10,
    Swu := 9/10, Sgu := 85/100, Sowu := 85/100, Sogu := 1,
    maxPcow := 4, maxPcgo := 2,
    maxKrw := 6/10, maxKrow := 9/10, maxKrog := 9/10, maxKrg := 8/10 }

/-- End points that satisfy every chain of the validity invariant while the
critical water and critical oil saturations overlap: Swcr = 0.6 and
Sowcr = 0.9. -/
def overlappingInfo : EclEpsScalingPointsInfo :=
  { Swl := 2/10, Sgl := 0, Sowl := 0, Sogl := 0,
    Swcr := 6/10, Sgcr := 0, Sowcr := 9/10, Sogcr := 2/10,
    Swu := 1, Sgu := 8/10, Sowu := 1, Sogu := 1,
    maxPcow := 4, maxPcgo := 2,
    maxKrw := 1, maxKrow := 1, maxKrog := 1, maxKrg := 1 }

/-- End points that satisfy every chain of the validity invariant while the
critical oil saturation of the gas-oil system overlaps the water and gas
saturations: Sogcr = 0.9 with Swl = 0.2 and Sgcr = 0.1. -/
def overlappingGasOilInfo : EclEpsScalingPointsInfo :=
  { Swl := 2/10, Sgl := 0, Sowl := 0, Sogl := 0,
    Swcr := 3/10, Sgcr := 1/10, Sowcr := 2/10, Sogcr := 9/10,
    Swu := 1, Sgu := 8/10, Sowu := 8/10, Sogu := 1,
    maxPcow := 4, maxPcgo := 2,
    maxKrw := 1, maxKrow := 1, maxKrog := 1, maxKrg := 1 }

/-- The cell index lies inside the override array, when the array is present. -/
def arrayCovers (propData : Option (List Scalar)) (cartesianCellIdx : Int) : Prop :=
  match propData with
  | none => True
  | some data => 0 ≤ cartesianCellIdx ∧ cartesianCellIdx < data.length

instance (propData : Option (List Scalar)) (c : Int) : Decidable (arrayCovers propData c) := by
  unfold arrayCovers; split <;> infer_instance

/-- The cell index is in range: it lies inside every override array that is
present. -/
def cellInRange (p : EclEpsGridProperties) (c : Int) : Prop :=
  arrayCovers p.swl c ∧ arrayCovers p.sgl c ∧ arrayCovers p.swcr c ∧ arrayCovers p.sgcr c ∧
  arrayCovers p.sowcr c ∧ arrayCovers p.sogcr c ∧ arrayCovers p.swu c ∧ arrayCovers p.sgu c ∧
  arrayCovers p.pcw c ∧ arrayCovers p.pcg c ∧ arrayCovers p.krw c ∧ arrayCovers p.kro c ∧
  arrayCovers p.krg c

instance (p : EclEpsGridProperties) (c : Int) : Decidable (cellInRange p c) := by
  unfold cellInRange; infer_instance

/-- The override rule of the specification for one quantity: the entry of the
array at the cell when the array is present, the default when it is absent. -/
def overrideValue (default : Scalar) (propData : Option (List Scalar)) (c : Int) : Scalar :=
  match propData with
  | none => default
  | some data => data.getD c.toNat default

/-- The relation of the override rule between the value `old` before and the
value `new` after: with the array present `new` is the entry of the array at
the cell, with the array absent `new` is `old`. -/
def overridden (propData : Option (List Scalar)) (c : Int) (old new : Scalar) : Prop :=
  match propData with
  | none => new = old
  | some data => data[c.toNat]? = some new

/-- Row `i` holds the first strictly positive entry of the column: the entry
at `i` is positive and every entry before it is not. -/
def firstPositiveAt (column : List Scalar) (i : Nat) : Prop :=
  (∃ k, column[i]? = some k ∧ 0 < k) ∧
  ∀ j, j < i → ∀ k, column[j]? = some k → k ≤ 0

/-- An oil-water table with the water columns of the specification:
Sw = [0.2, 0.4, 0.6, 0.8, 1.0] and Krw = [0, 0, 0.1, 0.3, 0.6]. -/
def sampleSwof : SwofTable :=
  ⟨[⟨2/10, 0, 9/10, 4⟩, ⟨4/10, 0, 5/10, 2⟩, ⟨6/10, 1/10, 2/10, 1⟩, ⟨8/10, 3/10, 0, 1/2⟩,
    ⟨1, 6/10, 0, 0⟩]⟩

/-- A gas-oil table: Sg = [0, 0.1, 0.4, 0.8] and Krg = [0, 0, 0.3, 0.9]. -/
def sampleSgof : SgofTable :=
  ⟨[⟨0, 0, 9/10, 0⟩, ⟨1/10, 0, 6/10, 1/10⟩, ⟨4/10, 3/10, 1/10, 1/2⟩, ⟨8/10, 9/10, 0, 1⟩]⟩

/-- A deck with family 1 tables only, one saturation region. -/
def sampleFamily1 : EclipseState :=
  ⟨[sampleSwof], [sampleSgof], [], [], []⟩

/-- A water table of family 2 with the water columns of the specification. -/
def sampleSwfn : SwfnTable :=
  ⟨[⟨2/10, 0, 4⟩, ⟨4/10, 0, 2⟩, ⟨6/10, 1/10, 1⟩, ⟨8/10, 3/10, 1/2⟩, ⟨1, 6/10, 0⟩]⟩

/-- A gas table of family 2: Sg = [0, 0.1, 0.4, 0.8] and Krg = [0, 0, 0.3, 0.6]. -/
def sampleSgfn : SgfnTable :=
  ⟨[⟨0, 0, 0⟩, ⟨1/10, 0, 1/10⟩, ⟨4/10, 3/10, 1/2⟩, ⟨8/10, 6/10, 1⟩]⟩

/-- A three-phase oil table of family 2: So = [0, 0.2, 0.5, 0.8]. -/
def sampleSof3 : Sof3Table :=
  ⟨[⟨0, 0, 0⟩, ⟨2/10, 0, 0⟩, ⟨5/10, 4/10, 3/10⟩, ⟨8/10, 9/10, 9/10⟩]⟩

/-- A deck with family 2 tables only, one saturation region. -/
def sampleFamily2 : EclipseState :=
  ⟨[], [], [sampleSwfn], [sampleSgfn], [sampleSof3]⟩

/-- A deck in which both families are populated. -/
def sampleBothFamilies : EclipseState :=
  ⟨[sampleSwof], [sampleSgof], [sampleSwfn], [sampleSgfn], [sampleSof3]⟩

/-- An oil-water table whose water relative permeability is positive in the
first row already. -/
def firstRowSwof : SwofTable :=
  ⟨[⟨2/10, 1/10, 9/10, 4⟩, ⟨6/10, 3/10, 2/10, 1⟩, ⟨1, 6/10, 0, 0⟩]⟩

/-- A family 1 deck with `firstRowSwof` as its oil-water table. -/
def firstRowFamily1 : EclipseState :=
  ⟨[firstRowSwof], [sampleSgof], [], [], []⟩

/-- A three-phase oil table whose oil relative permeability in water is
positive in the first row already. -/
def firstRowSof3 : Sof3Table :=
  ⟨[⟨0, 1/10, 0⟩, ⟨2/10, 2/10, 0⟩, ⟨5/10, 4/10, 3/10⟩, ⟨8/10, 9/10, 9/10⟩]⟩

/-- A family 2 deck with `firstRowSof3` as its oil table. -/
def firstRowFamily2 : EclipseState :=
  ⟨[], [], [sampleSwfn], [sampleSgfn], [firstRowSof3]⟩

/-- A deck without any saturation table. -/
def emptyDeck : EclipseState :=
  ⟨[], [], [], [], []⟩

/-- No override array is present. -/
def allAbsent (p : EclEpsGridProperties) : Prop :=
  p.swl = none ∧ p.sgl = none ∧ p.swcr = none ∧ p.sgcr = none ∧ p.sowcr = none ∧
  p.sogcr = none ∧ p.swu = none ∧ p.sgu = none ∧ p.pcw = none ∧ p.pcg = none ∧
  p.krw = none ∧ p.kro = none ∧ p.krg = none

/-- Grid properties without any override array. -/
def noOverrides : EclEpsGridProperties :=
  { satnum := none, swl := none, sgl := none, swcr := none, sgcr := none, sowcr := none,
    sogcr := none, swu := none, sgu := none, pcw := none, pcg := none, krw := none,
    kro := none, krg := none }

/-- Grid properties of a model with three cells in which the keywords SWCR
and KRO are present. -/
def sampleOverrides : EclEpsGridProperties :=
  { noOverrides with
    swcr := some [2/10, 35/100, 4/10],
    kro := some [1, 7/10, 8/10] }

/-- Row `j` holds the last strictly positive entry of the column: the entry at
`j` is positive and every entry after it is not. -/
def lastPositiveAt (column : List Scalar) (j : Nat) : Prop :=
  (∃ k, column[j]? = some k ∧ 0 < k) ∧
  ∀ m, j < m → ∀ k, column[m]? = some k → k ≤ 0

/-- The column contains no strictly positive value. -/
def noPositive (column : List Scalar) : Prop :=
  ∀ k ∈ column, k ≤ 0

/-- The forward search selects a row: the column has a first strictly
positive entry and it is not in the first row. -/
def forwardSearchSelects (column : List Scalar) : Prop :=
  ∃ i, 0 < i ∧ firstPositiveAt column i

/-- The backward search selects a row: the column has a last strictly
positive entry and it is not in the last row. -/
def backwardSearchSelects (column : List Scalar) : Prop :=
  ∃ j, j + 1 < column.length ∧ lastPositiveAt column j

/-- The forward search does not fail: it selects a row or finds no positive
entry. -/
def forwardSearchPasses (column : List Scalar) : Prop :=
  noPositive column ∨ forwardSearchSelects column

/-- The backward search does not fail: it selects a row or finds no positive
entry. -/
def backwardSearchPasses (column : List Scalar) : Prop :=
  noPositive column ∨ backwardSearchSelects column

/-- The column is non-decreasing along the rows. -/
def nonDecreasing (column : List Scalar) : Prop :=
  column.Pairwise (fun a b => a ≤ b)

/-- The column is non-increasing along the rows. -/
def nonIncreasing (column : List Scalar) : Prop :=
  column.Pairwise (fun a b => b ≤ a)

/-- The ordering of the data model on a record: each of the four chains
connate, critical, maximum is ordered. -/
def orderedEndpoints (e : EclEpsScalingPointsInfo) : Prop :=
  (e.Swl ≤ e.Swcr ∧ e.Swcr ≤ e.Swu) ∧ (e.Sgl ≤ e.Sgcr ∧ e.Sgcr ≤ e.Sgu) ∧
  (e.Sowl ≤ e.Sowcr ∧ e.Sowcr ≤ e.Sowu) ∧ (e.Sogl ≤ e.Sogcr ∧ e.Sogcr ≤ e.Sogu)

/-- The scenario record after an earlier use that left Sgl = 0.3 in it. -/
def staleInfo : EclEpsScalingPointsInfo :=
  { scenarioInfo with Sgl := 3/10 }

/-- An oil-water table in which water never becomes mobile: Krw = [0, 0, 0]. -/
def immobileWaterSwof : SwofTable :=
  ⟨[⟨2/10, 0, 9/10, 4⟩, ⟨6/10, 0, 2/10, 1⟩, ⟨1, 0, 0, 0⟩]⟩

/-- A family 1 deck with `immobileWaterSwof` as its oil-water table. -/
def immobileWaterFamily1 : EclipseState :=
  ⟨[immobileWaterSwof], [sampleSgof], [], [], []⟩

/-- An oil-water table in which oil is mobile in the last row still:
Krow = [0.9, 0.5, 0.2]. -/
def lastRowSwof : SwofTable :=
  ⟨[⟨2/10, 0, 9/10, 4⟩, ⟨6/10, 1/10, 5/10, 1⟩, ⟨1, 6/10, 2/10, 0⟩]⟩

/-- A family 1 deck with `lastRowSwof` as its oil-water table. -/
def lastRowFamily1 : EclipseState :=
  ⟨[lastRowSwof], [sampleSgof], [], [], []⟩

/-- A gas table of family 2 whose last Krg is 0.9, unlike the last Krw 0.6 of
`sampleSwfn`. -/
def unequalSgfn : SgfnTable :=
  ⟨[⟨0, 0, 0⟩, ⟨1/10, 0, 1/10⟩, ⟨4/10, 3/10, 1/2⟩, ⟨8/10, 9/10, 1⟩]⟩

/-- A family 2 deck with `unequalSgfn` as its gas table. -/
def unequalFamily2 : EclipseState :=
  ⟨[], [], [sampleSwfn], [unequalSgfn], [sampleSof3]⟩

/-- A scaling-point object left by an earlier use: entry 2 of the wetting
points is 7 and entry 2 of the non-wetting points is 9. -/
def priorPoints : EclEpsScalingPoints :=
  { maxPcnw_ := 1, maxKrw_ := 2, maxKrn_ := 3,
    saturationPcPoints_ := ![4, 5],
    saturationKrwPoints_ := ![5, 6, 7],
    saturationKrnPoints_ := ![7, 8, 9] }

/-! ## The scaling point assembler -/

open EclEpsScalingPoints

/-- Closed form of `init` for the oil-water system in two-point mode. -/
theorem init_oilWater_twoPoint_eq (self : EclEpsScalingPoints) (e : EclEpsScalingPointsInfo) :
    init self e ⟨false⟩ .EclOilWaterSystem =
      { maxPcnw_ := e.maxPcow, maxKrw_ := e.maxKrw, maxKrn_ := e.maxKrow,
        saturationPcPoints_ :=
          Function.update (Function.update self.saturationPcPoints_ 0 e.Swl) 1 e.Swu,
        saturationKrwPoints_ :=
          Function.update (Function.update self.saturationKrwPoints_ 0 e.Swcr) 1 e.Swu,
        saturationKrnPoints_ :=
          Function.update (Function.update self.saturationKrnPoints_ 1 (1 - e.Sowcr)) 0
            (e.Swl + e.Sgl) } := by
  simp [init, assignPc, assignKrw, assignKrn]

/-- Closed form of `init` for the oil-water system in three-point mode. -/
theorem init_oilWater_threePoint_eq (self : EclEpsScalingPoints) (e : EclEpsScalingPointsInfo) :
    init self e ⟨true⟩ .EclOilWaterSystem =
      { maxPcnw_ := e.maxPcow, maxKrw_ := e.maxKrw, maxKrn_ := e.maxKrow,
        saturationPcPoints_ :=
          Function.update (Function.update self.saturationPcPoints_ 0 e.Swl) 1 e.Swu,
        saturationKrwPoints_ :=
          Function.update (Function.update (Function.update self.saturationKrwPoints_ 0 e.Swcr)
            1 (1 - e.Sowcr - e.Sgl)) 2 e.Swu,
        saturationKrnPoints_ :=
          Function.update (Function.update (Function.update self.saturationKrnPoints_
            2 (1 - e.Sowcr)) 1 (e.Swcr + e.Sgl)) 0 (e.Swl + e.Sgl) } := by
  simp [init, assignPc, assignKrw, assignKrn]

/-- Closed form of `init` for the gas-oil system in two-point mode. -/
theorem init_gasOil_twoPoint_eq (self : EclEpsScalingPoints) (e : EclEpsScalingPointsInfo) :
    init self e ⟨false⟩ .EclGasOilSystem =
      { maxPcnw_ := e.maxPcgo, maxKrw_ := e.maxKrog, maxKrn_ := e.maxKrg,
        saturationPcPoints_ :=
          Function.update (Function.update self.saturationPcPoints_ 0 (1 - e.Sgu)) 1 (1 - e.Sgl),
        saturationKrwPoints_ :=
          Function.update (Function.update self.saturationKrwPoints_ 0 e.Sogcr) 1
            (1 - e.Swl - e.Sgl),
        saturationKrnPoints_ :=
          Function.update (Function.update self.saturationKrnPoints_ 1 (1 - e.Sgcr)) 0
            (1 - e.Sgu) } := by
  simp [init, assignPc, assignKrw, assignKrn]

/-- Closed form of `init` for the gas-oil system in three-point mode. -/
theorem init_gasOil_threePoint_eq (self : EclEpsScalingPoints) (e : EclEpsScalingPointsInfo) :
    init self e ⟨true⟩ .EclGasOilSystem =
      { maxPcnw_ := e.maxPcgo, maxKrw_ := e.maxKrog, maxKrn_ := e.maxKrg,
        saturationPcPoints_ :=
          Function.update (Function.update self.saturationPcPoints_ 0 (1 - e.Sgu)) 1 (1 - e.Sgl),
        saturationKrwPoints_ :=
          Function.update (Function.update (Function.update self.saturationKrwPoints_ 0 e.Sogcr)
            1 (1 - e.Sgcr - e.Swl)) 2 (1 - e.Swl - e.Sgl),
        saturationKrnPoints_ :=
          Function.update (Function.update (Function.update self.saturationKrnPoints_
            2 (1 - e.Sgcr)) 1 (e.Sogcr + e.Swl)) 0 (1 - e.Sgu) } := by
  simp [init, assignPc, assignKrw, assignKrn]

/-- Every configuration is one of the two modes. -/
theorem config_cases (config : EclEpsConfig) :
    config = ⟨false⟩ ∨ config = ⟨true⟩ := by
  obtain ⟨b⟩ := config
  cases b <;> simp

/-- C1: for the oil-water system `init` stores the capillary-pressure points
[Swl, Swu] and the maxima maxPcow, maxKrw, maxKrow in both modes; in two-point
mode the first two wetting points are [Swcr, Swu] and the first two non-wetting
points are [Swl + Sgl, 1 - Sowcr]; in three-point mode the wetting points are
[Swcr, 1 - Sowcr - Sgl, Swu] and the non-wetting points are
[Swl + Sgl, Swcr + Sgl, 1 - Sowcr]. -/
theorem oilWater_scaling_points (self : EclEpsScalingPoints) (e : EclEpsScalingPointsInfo) :
    (∀ config : EclEpsConfig,
      (init self e config .EclOilWaterSystem).saturationPcPoints = ![e.Swl, e.Swu] ∧
      (init self e config .EclOilWaterSystem).maxPcnw = e.maxPcow ∧
      (init self e config .EclOilWaterSystem).maxKrw = e.maxKrw ∧
      (init self e config .EclOilWaterSystem).maxKrn = e.maxKrow) ∧
    ((init self e ⟨false⟩ .EclOilWaterSystem).saturationKrwPoints 0 = e.Swcr ∧
      (init self e ⟨false⟩ .EclOilWaterSystem).saturationKrwPoints 1 = e.Swu ∧
      (init self e ⟨false⟩ .EclOilWaterSystem).saturationKrnPoints 0 = e.Swl + e.Sgl ∧
      (init self e ⟨false⟩ .EclOilWaterSystem).saturationKrnPoints 1 = 1 - e.Sowcr) ∧
    ((init self e ⟨true⟩ .EclOilWaterSystem).saturationKrwPoints
        = ![e.Swcr, 1 - e.Sowcr - e.Sgl, e.Swu] ∧
      (init self e ⟨true⟩ .EclOilWaterSystem).saturationKrnPoints
        = ![e.Swl + e.Sgl, e.Swcr + e.Sgl, 1 - e.Sowcr]) := by
  refine ⟨fun config => ?_, ⟨?_, ?_, ?_, ?_⟩, ⟨?_, ?_⟩⟩
  · rcases config_cases config with h | h <;> subst h
    · rw [init_oilWater_twoPoint_eq]
      refine ⟨?_, rfl, rfl, rfl⟩
      funext i
      fin_cases i <;> simp [saturationPcPoints]
    · rw [init_oilWater_threePoint_eq]
      refine ⟨?_, rfl, rfl, rfl⟩
      funext i
      fin_cases i <;> simp [saturationPcPoints]
  · simp [init_oilWater_twoPoint_eq, saturationKrwPoints]
  · simp [init_oilWater_twoPoint_eq, saturationKrwPoints]
  · simp [init_oilWater_twoPoint_eq, saturationKrnPoints]
  · simp [init_oilWater_twoPoint_eq, saturationKrnPoints]
  · funext i
    fin_cases i <;> simp [init_oilWater_threePoint_eq, saturationKrwPoints]
  · funext i
    fin_cases i <;> simp [init_oilWater_threePoint_eq, saturationKrnPoints]

/-- C1, the scenario of the specification: Swcr = 0.3, Sowcr = 0.25, Sgl = 0,
Swl = 0.15, Swu = 0.9 give the points [0.3, 0.9], [0.15, 0.75] and [0.15, 0.9]
in two-point mode and [0.3, 0.75, 0.9], [0.15, 0.3, 0.75] in three-point mode. -/
theorem oilWater_scaling_points_scenario :
    ((init zeroPoints scenarioInfo ⟨false⟩ .EclOilWaterSystem).saturationKrwPoints 0 = 3/10 ∧
      (init zeroPoints scenarioInfo ⟨false⟩ .EclOilWaterSystem).saturationKrwPoints 1 = 9/10 ∧
      (init zeroPoints scenarioInfo ⟨false⟩ .EclOilWaterSystem).saturationKrnPoints 0 = 15/100 ∧
      (init zeroPoints scenarioInfo ⟨false⟩ .EclOilWaterSystem).saturationKrnPoints 1 = 75/100 ∧
      (init zeroPoints scenarioInfo ⟨false⟩ .EclOilWaterSystem).saturationPcPoints
        = ![15/100, 9/10]) ∧
    ((init zeroPoints scenarioInfo ⟨true⟩ .EclOilWaterSystem).saturationKrwPoints
        = ![3/10, 75/100, 9/10] ∧
      (init zeroPoints scenarioInfo ⟨true⟩ .EclOilWaterSystem).saturationKrnPoints
        = ![15/100, 3/10, 75/100]) := by
  obtain ⟨hall, ⟨h1, h2, h3, h4⟩, ⟨h5, h6⟩⟩ := oilWater_scaling_points zeroPoints scenarioInfo
  obtain ⟨hpc, -⟩ := hall ⟨false⟩
  rw [h1, h2, h3, h4, hpc, h5, h6]
  norm_num [scenarioInfo]

/-- C2: for the gas-oil system `init` stores the capillary-pressure points
[1 - Sgu, 1 - Sgl] and the maxima maxPcgo, maxKrog, maxKrg in both modes; in
two-point mode the first two wetting points are [Sogcr, 1 - Swl - Sgl] and the
first two non-wetting points are [1 - Sgu, 1 - Sgcr]; in three-point mode the
wetting points are [Sogcr, 1 - Sgcr - Swl, 1 - Swl - Sgl] and the non-wetting
points are [1 - Sgu, Sogcr + Swl, 1 - Sgcr]. -/
theorem gasOil_scaling_points (self : EclEpsScalingPoints) (e : EclEpsScalingPointsInfo) :
    (∀ config : EclEpsConfig,
      (init self e config .EclGasOilSystem).saturationPcPoints = ![1 - e.Sgu, 1 - e.Sgl] ∧
      (init self e config .EclGasOilSystem).maxPcnw = e.maxPcgo ∧
      (init self e config .EclGasOilSystem).maxKrw = e.maxKrog ∧
      (init self e config .EclGasOilSystem).maxKrn = e.maxKrg) ∧
    ((init self e ⟨false⟩ .EclGasOilSystem).saturationKrwPoints 0 = e.Sogcr ∧
      (init self e ⟨false⟩ .EclGasOilSystem).saturationKrwPoints 1 = 1 - e.Swl - e.Sgl ∧
      (init self e ⟨false⟩ .EclGasOilSystem).saturationKrnPoints 0 = 1 - e.Sgu ∧
      (init self e ⟨false⟩ .EclGasOilSystem).saturationKrnPoints 1 = 1 - e.Sgcr) ∧
    ((init self e ⟨true⟩ .EclGasOilSystem).saturationKrwPoints
        = ![e.Sogcr, 1 - e.Sgcr - e.Swl, 1 - e.Swl - e.Sgl] ∧
      (init self e ⟨true⟩ .EclGasOilSystem).saturationKrnPoints
        = ![1 - e.Sgu, e.Sogcr + e.Swl, 1 - e.Sgcr]) := by
  refine ⟨fun config => ?_, ⟨?_, ?_, ?_, ?_⟩, ⟨?_, ?_⟩⟩
  · rcases config_cases config with h | h <;> subst h
    · rw [init_gasOil_twoPoint_eq]
      refine ⟨?_, rfl, rfl, rfl⟩
      funext i
      fin_cases i <;> simp [saturationPcPoints]
    · rw [init_gasOil_threePoint_eq]
      refine ⟨?_, rfl, rfl, rfl⟩
      funext i
      fin_cases i <;> simp [saturationPcPoints]
  · simp [init_gasOil_twoPoint_eq, saturationKrwPoints]
  · simp [init_gasOil_twoPoint_eq, saturationKrwPoints]
  · simp [init_gasOil_twoPoint_eq, saturationKrnPoints]
  · simp [init_gasOil_twoPoint_eq, saturationKrnPoints]
  · funext i
    fin_cases i <;> simp [init_gasOil_threePoint_eq, saturationKrwPoints]
  · funext i
    fin_cases i <;> simp [init_gasOil_threePoint_eq, saturationKrnPoints]

/-- C3 fails as stated: `overlappingInfo` satisfies the validity invariant, yet
for the oil-water system the three-point wetting points are [0.6, 0.1, 1] and
the two-point non-wetting points start [0.2, 0.1]; neither is non-decreasing. -/
theorem init_not_monotone_of_valid :
    validEndpoints overlappingInfo ∧
    ¬ nonDecreasingPoints ⟨true⟩
        (init zeroPoints overlappingInfo ⟨true⟩ .EclOilWaterSystem).saturationKrwPoints ∧
    ¬ nonDecreasingPoints ⟨false⟩
        (init zeroPoints overlappingInfo ⟨false⟩ .EclOilWaterSystem).saturationKrnPoints := by
  refine ⟨?_, ?_, ?_⟩
  · norm_num [validEndpoints, overlappingInfo]
  · simp [nonDecreasingPoints, init_oilWater_threePoint_eq, saturationKrwPoints,
      overlappingInfo]
    norm_num
  · simp [nonDecreasingPoints, init_oilWater_twoPoint_eq, saturationKrnPoints,
      overlappingInfo]
    norm_num

/-- The invariant does not order the remaining sequences either:
`overlappingGasOilInfo` satisfies the validity invariant, yet for the gas-oil
system the two-point wetting points start [0.9, 0.8], the three-point wetting
points are [0.9, 0.7, 0.8] and the three-point non-wetting points are
[0.2, 1.1, 0.9]; for the oil-water system the three-point non-wetting points of
`overlappingInfo` are [0.2, 0.6, 0.1]. -/
theorem init_remaining_not_monotone_of_valid :
    validEndpoints overlappingGasOilInfo ∧
    ¬ nonDecreasingPoints ⟨false⟩
        (init zeroPoints overlappingGasOilInfo ⟨false⟩ .EclGasOilSystem).saturationKrwPoints ∧
    ¬ nonDecreasingPoints ⟨true⟩
        (init zeroPoints overlappingGasOilInfo ⟨true⟩ .EclGasOilSystem).saturationKrwPoints ∧
    ¬ nonDecreasingPoints ⟨true⟩
        (init zeroPoints overlappingGasOilInfo ⟨true⟩ .EclGasOilSystem).saturationKrnPoints ∧
    ¬ nonDecreasingPoints ⟨true⟩
        (init zeroPoints overlappingInfo ⟨true⟩ .EclOilWaterSystem).saturationKrnPoints := by
  refine ⟨?_, ?_, ?_, ?_, ?_⟩
  · norm_num [validEndpoints, overlappingGasOilInfo]
  · simp [nonDecreasingPoints, init_gasOil_twoPoint_eq, saturationKrwPoints,
      overlappingGasOilInfo]
    norm_num
  · simp [nonDecreasingPoints, init_gasOil_threePoint_eq, saturationKrwPoints,
      overlappingGasOilInfo]
    norm_num
  · simp [nonDecreasingPoints, init_gasOil_threePoint_eq, saturationKrnPoints,
      overlappingGasOilInfo]
    norm_num
  · simp [nonDecreasingPoints, init_oilWater_threePoint_eq, saturationKrnPoints,
      overlappingInfo]
    norm_num

/-- C3, amended: when the end points satisfy the validity invariant, the
two-point wetting points [Swcr, Swu] of the oil-water system and the two-point
non-wetting points [1 - Sgu, 1 - Sgcr] of the gas-oil system, as `init`
assembles them, are non-decreasing over the two points used.  Each entry is an
end point or one subtraction from 1, so the order does not depend on how the
subtraction is rounded. -/
theorem init_twoPoint_monotone_of_valid (self : EclEpsScalingPoints)
    (e : EclEpsScalingPointsInfo) (hvalid : validEndpoints e) :
    nonDecreasingPoints ⟨false⟩
      (init self e ⟨false⟩ .EclOilWaterSystem).saturationKrwPoints ∧
    nonDecreasingPoints ⟨false⟩
      (init self e ⟨false⟩ .EclGasOilSystem).saturationKrnPoints := by
  obtain ⟨⟨-, -, hw2, -⟩, ⟨-, -, hg2, -⟩, -, -⟩ := hvalid
  constructor
  · simp only [init_oilWater_twoPoint_eq, nonDecreasingPoints, saturationKrwPoints]
    simp
    exact hw2
  · simp only [init_gasOil_twoPoint_eq, nonDecreasingPoints, saturationKrnPoints]
    simp
    linarith

/-- C3, amended, at the end points of the scenario: the invariant holds, the
oil-water wetting points are [0.3, 0.9] and the gas-oil non-wetting points are
[0.15, 0.95], both non-decreasing. -/
theorem init_twoPoint_monotone_of_valid_witness :
    validEndpoints scenarioInfo ∧
    (init zeroPoints scenarioInfo ⟨false⟩ .EclOilWaterSystem).saturationKrwPoints 0 = 3/10 ∧
    (init zeroPoints scenarioInfo ⟨false⟩ .EclOilWaterSystem).saturationKrwPoints 1 = 9/10 ∧
    (init zeroPoints scenarioInfo ⟨false⟩ .EclGasOilSystem).saturationKrnPoints 0 = 15/100 ∧
    (init zeroPoints scenarioInfo ⟨false⟩ .EclGasOilSystem).saturationKrnPoints 1 = 95/100 ∧
    nonDecreasingPoints ⟨false⟩
      (init zeroPoints scenarioInfo ⟨false⟩ .EclOilWaterSystem).saturationKrwPoints ∧
    nonDecreasingPoints ⟨false⟩
      (init zeroPoints scenarioInfo ⟨false⟩ .EclGasOilSystem).saturationKrnPoints := by
  have hvalid : validEndpoints scenarioInfo := by norm_num [validEndpoints, scenarioInfo]
  refine ⟨hvalid, ?_, ?_, ?_, ?_,
    init_twoPoint_monotone_of_valid zeroPoints scenarioInfo hvalid⟩
  · simp [init_oilWater_twoPoint_eq, saturationKrwPoints, scenarioInfo]
  · simp [init_oilWater_twoPoint_eq, saturationKrwPoints, scenarioInfo]
  · simp [init_gasOil_twoPoint_eq, saturationKrnPoints, scenarioInfo]
    norm_num
  · simp [init_gasOil_twoPoint_eq, saturationKrnPoints, scenarioInfo]
    norm_num

/-! ## Setters and getters -/

/-- C10: a point setter called with a valid index and a value succeeds; the
matching getter then returns the value at that index and the old value at every
other index, and both other breakpoint arrays and the three maxima are
unchanged.  Each setter of a maximum followed by its getter returns the value
set and changes nothing else. -/
theorem setter_getter_roundtrip (s : EclEpsScalingPoints) (v : Scalar) :
    (∀ i : Fin 2, ∃ t, s.setSaturationPcPoint ((i : Nat) : Int) v = .ok t ∧
      (∀ j, t.saturationPcPoints j = if j = i then v else s.saturationPcPoints j) ∧
      t.saturationKrwPoints = s.saturationKrwPoints ∧
      t.saturationKrnPoints = s.saturationKrnPoints ∧
      t.maxPcnw = s.maxPcnw ∧ t.maxKrw = s.maxKrw ∧ t.maxKrn = s.maxKrn) ∧
    (∀ i : Fin 3, ∃ t, s.setSaturationKrwPoint ((i : Nat) : Int) v = .ok t ∧
      (∀ j, t.saturationKrwPoints j = if j = i then v else s.saturationKrwPoints j) ∧
      t.saturationPcPoints = s.saturationPcPoints ∧
      t.saturationKrnPoints = s.saturationKrnPoints ∧
      t.maxPcnw = s.maxPcnw ∧ t.maxKrw = s.maxKrw ∧ t.maxKrn = s.maxKrn) ∧
    (∀ i : Fin 3, ∃ t, s.setSaturationKrnPoint ((i : Nat) : Int) v = .ok t ∧
      (∀ j, t.saturationKrnPoints j = if j = i then v else s.saturationKrnPoints j) ∧
      t.saturationPcPoints = s.saturationPcPoints ∧
      t.saturationKrwPoints = s.saturationKrwPoints ∧
      t.maxPcnw = s.maxPcnw ∧ t.maxKrw = s.maxKrw ∧ t.maxKrn = s.maxKrn) ∧
    ((s.setMaxPcnw v).maxPcnw = v ∧
      (s.setMaxPcnw v).maxKrw = s.maxKrw ∧ (s.setMaxPcnw v).maxKrn = s.maxKrn ∧
      (s.setMaxPcnw v).saturationPcPoints = s.saturationPcPoints ∧
      (s.setMaxPcnw v).saturationKrwPoints = s.saturationKrwPoints ∧
      (s.setMaxPcnw v).saturationKrnPoints = s.saturationKrnPoints) ∧
    ((s.setMaxKrw v).maxKrw = v ∧
      (s.setMaxKrw v).maxPcnw = s.maxPcnw ∧ (s.setMaxKrw v).maxKrn = s.maxKrn ∧
      (s.setMaxKrw v).saturationPcPoints = s.saturationPcPoints ∧
      (s.setMaxKrw v).saturationKrwPoints = s.saturationKrwPoints ∧
      (s.setMaxKrw v).saturationKrnPoints = s.saturationKrnPoints) ∧
    ((s.setMaxKrn v).maxKrn = v ∧
      (s.setMaxKrn v).maxPcnw = s.maxPcnw ∧ (s.setMaxKrn v).maxKrw = s.maxKrw ∧
      (s.setMaxKrn v).saturationPcPoints = s.saturationPcPoints ∧
      (s.setMaxKrn v).saturationKrwPoints = s.saturationKrwPoints ∧
      (s.setMaxKrn v).saturationKrnPoints = s.saturationKrnPoints) := by
  refine ⟨fun i => ?_, fun i => ?_, fun i => ?_, ?_, ?_, ?_⟩
  · have hi : (0 : Int) ≤ ((i : Nat) : Int) ∧ ((i : Nat) : Int) < 2 := by
      have := i.isLt
      omega
    refine ⟨s.assignPc i v, ?_, ?_, rfl, rfl, rfl, rfl, rfl⟩
    · simp [setSaturationPcPoint, hi]
    · intro j
      simp [saturationPcPoints, assignPc, Function.update_apply]
  · have hi : (0 : Int) ≤ ((i : Nat) : Int) ∧ ((i : Nat) : Int) < 3 := by
      have := i.isLt
      omega
    refine ⟨s.assignKrw i v, ?_, ?_, rfl, rfl, rfl, rfl, rfl⟩
    · simp [setSaturationKrwPoint, hi]
    · intro j
      simp [saturationKrwPoints, assignKrw, Function.update_apply]
  · have hi : (0 : Int) ≤ ((i : Nat) : Int) ∧ ((i : Nat) : Int) < 3 := by
      have := i.isLt
      omega
    refine ⟨s.assignKrn i v, ?_, ?_, rfl, rfl, rfl, rfl, rfl⟩
    · simp [setSaturationKrnPoint, hi]
    · intro j
      simp [saturationKrnPoints, assignKrn, Function.update_apply]
  · exact ⟨rfl, rfl, rfl, rfl, rfl, rfl⟩
  · exact ⟨rfl, rfl, rfl, rfl, rfl, rfl⟩
  · exact ⟨rfl, rfl, rfl, rfl, rfl, rfl⟩

/-! ## The cell override applier -/

/-- One call of `extractGridPropertyValue_` with the cell inside the array
yields the override value. -/
theorem extractGridPropertyValue_eq (t : Scalar) (propData : Option (List Scalar)) (c : Int)
    (h : arrayCovers propData c) :
    extractGridPropertyValue_ t propData c = .ok (overrideValue t propData c) := by
  cases propData with
  | none => rfl
  | some data =>
    obtain ⟨h0, h1⟩ := h
    have hlt : c.toNat < data.length := by omega
    simp [extractGridPropertyValue_, vectorAt, overrideValue, h0, List.getD,
      List.getElem?_eq_getElem hlt]

/-- Closed form of `extractScaled` at a cell index in range. -/
theorem extractScaled_eq (e : EclEpsScalingPointsInfo) (p : EclEpsGridProperties) (c : Int)
    (h : cellInRange p c) :
    extractScaled e p c = .ok
      { Swl := overrideValue e.Swl p.swl c, Sgl := overrideValue e.Sgl p.sgl c,
        Sowl := e.Sowl, Sogl := e.Sogl,
        Swcr := overrideValue e.Swcr p.swcr c, Sgcr := overrideValue e.Sgcr p.sgcr c,
        Sowcr := overrideValue e.Sowcr p.sowcr c, Sogcr := overrideValue e.Sogcr p.sogcr c,
        Swu := overrideValue e.Swu p.swu c, Sgu := overrideValue e.Sgu p.sgu c,
        Sowu := e.Sowu, Sogu := e.Sogu,
        maxPcow := overrideValue e.maxPcow p.pcw c, maxPcgo := overrideValue e.maxPcgo p.pcg c,
        maxKrw := overrideValue e.maxKrw p.krw c,
        maxKrow := overrideValue e.maxKrow p.kro c,
        maxKrog := overrideValue e.maxKrog p.kro c,
        maxKrg := overrideValue e.maxKrg p.krg c } := by
  obtain ⟨h1, h2, h3, h4, h5, h6, h7, h8, h9, h10, h11, h12, h13⟩ := h
  simp only [extractScaled, extractGridPropertyValue_eq _ _ _ h1,
    extractGridPropertyValue_eq _ _ _ h2, extractGridPropertyValue_eq _ _ _ h3,
    extractGridPropertyValue_eq _ _ _ h4, extractGridPropertyValue_eq _ _ _ h5,
    extractGridPropertyValue_eq _ _ _ h6, extractGridPropertyValue_eq _ _ _ h7,
    extractGridPropertyValue_eq _ _ _ h8, extractGridPropertyValue_eq _ _ _ h9,
    extractGridPropertyValue_eq _ _ _ h10, extractGridPropertyValue_eq _ _ _ h11,
    extractGridPropertyValue_eq _ _ _ h12, extractGridPropertyValue_eq _ _ _ h13,
    bind, Except.bind, pure, Except.pure]

/-- The override value satisfies the override rule when the cell is inside the
array. -/
theorem overridden_overrideValue (t : Scalar) (propData : Option (List Scalar)) (c : Int)
    (h : arrayCovers propData c) :
    overridden propData c t (overrideValue t propData c) := by
  cases propData with
  | none => rfl
  | some data =>
    obtain ⟨h0, h1⟩ := h
    have hlt : c.toNat < data.length := by omega
    simp [overridden, overrideValue, List.getD, List.getElem?_eq_getElem hlt]

/-- Without override arrays every cell index is in range. -/
theorem cellInRange_of_allAbsent (p : EclEpsGridProperties) (c : Int) (h : allAbsent p) :
    cellInRange p c := by
  obtain ⟨h1, h2, h3, h4, h5, h6, h7, h8, h9, h10, h11, h12, h13⟩ := h
  simp [cellInRange, arrayCovers, h1, h2, h3, h4, h5, h6, h7, h8, h9, h10, h11, h12, h13]

/-- C6: at a cell index in range `extractScaled` returns the record in which
each of Swl, Sgl, Swcr, Sgcr, Sowcr, Sogcr, Swu, Sgu, maxPcow, maxPcgo, maxKrw,
maxKrg is the entry of its array at the cell when the array is present and the
value of the input record when it is absent, maxKrow and maxKrog both follow
the array kro in this way, and Sowl, Sogl, Sowu, Sogu are the values of the
input record; with every array absent the result is the input record. -/
theorem extractScaled_override (e : EclEpsScalingPointsInfo) (p : EclEpsGridProperties)
    (c : Int) :
    (cellInRange p c → ∃ r, extractScaled e p c = .ok r ∧
      overridden p.swl c e.Swl r.Swl ∧ overridden p.sgl c e.Sgl r.Sgl ∧
      overridden p.swcr c e.Swcr r.Swcr ∧ overridden p.sgcr c e.Sgcr r.Sgcr ∧
      overridden p.sowcr c e.Sowcr r.Sowcr ∧ overridden p.sogcr c e.Sogcr r.Sogcr ∧
      overridden p.swu c e.Swu r.Swu ∧ overridden p.sgu c e.Sgu r.Sgu ∧
      overridden p.pcw c e.maxPcow r.maxPcow ∧ overridden p.pcg c e.maxPcgo r.maxPcgo ∧
      overridden p.krw c e.maxKrw r.maxKrw ∧ overridden p.krg c e.maxKrg r.maxKrg ∧
      overridden p.kro c e.maxKrow r.maxKrow ∧ overridden p.kro c e.maxKrog r.maxKrog ∧
      r.Sowl = e.Sowl ∧ r.Sogl = e.Sogl ∧ r.Sowu = e.Sowu ∧ r.Sogu = e.Sogu) ∧
    (allAbsent p → extractScaled e p c = .ok e) := by
  constructor
  · intro h
    refine ⟨_, extractScaled_eq e p c h, ?_⟩
    obtain ⟨h1, h2, h3, h4, h5, h6, h7, h8, h9, h10, h11, h12, h13⟩ := h
    exact ⟨overridden_overrideValue _ _ _ h1, overridden_overrideValue _ _ _ h2,
      overridden_overrideValue _ _ _ h3, overridden_overrideValue _ _ _ h4,
      overridden_overrideValue _ _ _ h5, overridden_overrideValue _ _ _ h6,
      overridden_overrideValue _ _ _ h7, overridden_overrideValue _ _ _ h8,
      overridden_overrideValue _ _ _ h9, overridden_overrideValue _ _ _ h10,
      overridden_overrideValue _ _ _ h11, overridden_overrideValue _ _ _ h13,
      overridden_overrideValue _ _ _ h12, overridden_overrideValue _ _ _ h12,
      rfl, rfl, rfl, rfl⟩
  · intro h
    rw [extractScaled_eq e p c (cellInRange_of_allAbsent p c h)]
    obtain ⟨h1, h2, h3, h4, h5, h6, h7, h8, h9, h10, h11, h12, h13⟩ := h
    simp [overrideValue, h1, h2, h3, h4, h5, h6, h7, h8, h9, h10, h11, h12, h13]

/-- C6 at the scenario record with the SWCR and KRO arrays present, cell 1: the
cell is in range, Swcr becomes 0.35, maxKrow and maxKrog become 0.7 and Swl
keeps its value 0.15; without arrays the record is returned unchanged. -/
theorem extractScaled_override_witness :
    cellInRange sampleOverrides 1 ∧
    (∃ r, extractScaled scenarioInfo sampleOverrides 1 = .ok r ∧
      r.Swcr = 35/100 ∧ r.maxKrow = 7/10 ∧ r.maxKrog = 7/10 ∧ r.Swl = 15/100) ∧
    allAbsent noOverrides ∧
    extractScaled scenarioInfo noOverrides 1 = .ok scenarioInfo := by
  have hin : cellInRange sampleOverrides 1 := by
    simp [cellInRange, arrayCovers, sampleOverrides, noOverrides]
  have habs : allAbsent noOverrides := by simp [allAbsent, noOverrides]
  obtain ⟨r, hr, -, -, h3, -, -, -, -, -, -, -, -, -, h13, h14, -⟩ :=
    (extractScaled_override scenarioInfo sampleOverrides 1).1 hin
  have h1 : r.Swl = 15/100 := by
    rw [extractScaled_eq _ _ _ hin] at hr
    cases hr
    simp [overrideValue, sampleOverrides, noOverrides, scenarioInfo]
  refine ⟨hin, ⟨r, hr, ?_, ?_, ?_, h1⟩, habs,
    (extractScaled_override scenarioInfo noOverrides 1).2 habs⟩
  · simpa [overridden, sampleOverrides, eq_comm] using h3
  · simpa [overridden, sampleOverrides, eq_comm] using h13
  · simpa [overridden, sampleOverrides, eq_comm] using h14

/-- C7: with the KRO array present and the cell index in range the record
returned by `extractScaled` has maxKrow = maxKrog = kro[c]; hence the maxKrn
that `init` assembles for the oil-water system equals the maxKrw that `init`
assembles for the gas-oil system from that record. -/
theorem extractScaled_kro_shared (e : EclEpsScalingPointsInfo) (p : EclEpsGridProperties)
    (c : Int) (kro : List Scalar) (hkro : p.kro = some kro) (h : cellInRange p c) :
    ∃ r k, extractScaled e p c = .ok r ∧ kro[c.toNat]? = some k ∧
      r.maxKrow = k ∧ r.maxKrog = k ∧
      ∀ (s1 s2 : EclEpsScalingPoints) (config1 config2 : EclEpsConfig),
        (init s1 r config1 .EclOilWaterSystem).maxKrn =
          (init s2 r config2 .EclGasOilSystem).maxKrw := by
  have hc : arrayCovers (some kro) c := by
    have := h.2.2.2.2.2.2.2.2.2.2.2.1
    rwa [hkro] at this
  obtain ⟨h0, h1⟩ := hc
  have hlt : c.toNat < kro.length := by omega
  refine ⟨_, kro[c.toNat], extractScaled_eq e p c h, List.getElem?_eq_getElem hlt, ?_, ?_, ?_⟩
  · simp [overrideValue, hkro, List.getD, List.getElem?_eq_getElem hlt]
  · simp [overrideValue, hkro, List.getD, List.getElem?_eq_getElem hlt]
  · intro s1 s2 config1 config2
    rcases config_cases config1 with h1 | h1 <;> rcases config_cases config2 with h2 | h2 <;>
      subst h1 <;> subst h2 <;>
      simp [init_oilWater_twoPoint_eq, init_oilWater_threePoint_eq, init_gasOil_twoPoint_eq,
        init_gasOil_threePoint_eq, maxKrn, maxKrw, overrideValue, hkro, List.getD,
        List.getElem?_eq_getElem hlt]

/-- C7 at the scenario record with the KRO array [1, 0.7, 0.8], cell 1: both
maxima are 0.7. -/
theorem extractScaled_kro_shared_witness :
    cellInRange sampleOverrides 1 ∧
    ∃ r, extractScaled scenarioInfo sampleOverrides 1 = .ok r ∧
      r.maxKrow = 7/10 ∧ r.maxKrog = 7/10 ∧
      (init zeroPoints r ⟨false⟩ .EclOilWaterSystem).maxKrn =
        (init zeroPoints r ⟨true⟩ .EclGasOilSystem).maxKrw := by
  have hin : cellInRange sampleOverrides 1 := by
    simp [cellInRange, arrayCovers, sampleOverrides, noOverrides]
  obtain ⟨r, k, hr, hk, h1, h2, h3⟩ :=
    extractScaled_kro_shared scenarioInfo sampleOverrides 1 [1, 7/10, 8/10] rfl hin
  have hk7 : k = 7/10 := by
    simpa [eq_comm] using hk
  exact ⟨hin, r, hr, by rw [h1, hk7], by rw [h2, hk7], h3 _ _ _ _⟩

/-! ## The end-point extractor -/

/-- The forward search entered at or before the first positive row `i` ends at
row `i`: with `i = 0` the assertion fails, otherwise the saturation of row
`i - 1` is the result. -/
theorem criticalSaturationForward_of_firstPositiveAt (krColumn satColumn : List Scalar)
    (numRows : Nat) (target : Scalar) (i : Nat) (hi : i < numRows)
    (hfirst : firstPositiveAt krColumn i) :
    ∀ (d rowIdx : Nat), rowIdx + d = i →
      criticalSaturationForward krColumn satColumn numRows target rowIdx =
        if 0 < i then
          match satColumn[i - 1]? with
          | none => .error .undefinedBehaviour
          | some sat => .ok sat
        else .error .assertionFailure := by
  obtain ⟨⟨k, hk, hkpos⟩, hbefore⟩ := hfirst
  intro d
  induction d with
  | zero =>
    intro rowIdx h
    have h' : rowIdx = i := by omega
    subst h'
    rw [criticalSaturationForward]
    simp [hi, hk, hkpos]
  | succ d ih =>
    intro rowIdx h
    have hlt : rowIdx < i := by omega
    have hlen : i < krColumn.length := by
      by_contra hcon
      rw [List.getElem?_eq_none (by omega)] at hk
      cases hk
    have hrow : rowIdx < krColumn.length := by omega
    have hx := hbefore rowIdx hlt _ (List.getElem?_eq_getElem hrow)
    rw [criticalSaturationForward]
    have hlt2 : rowIdx < numRows := by omega
    simp only [hlt2, if_true, List.getElem?_eq_getElem hrow]
    rw [if_neg (not_lt.mpr hx)]
    exact ih (rowIdx + 1) (by omega)

/-- The member `front()` of a column is the entry of the first row. -/
theorem front_map {α : Type} (f : α → Scalar) (rows : List α) (a : α)
    (h : rows.head? = some a) : front (rows.map f) = .ok (f a) := by
  simp [front, List.head?_map, h]

/-- The member `back()` of a column is the entry of the last row. -/
theorem back_map {α : Type} (f : α → Scalar) (rows : List α) (a : α)
    (h : rows.getLast? = some a) : back (rows.map f) = .ok (f a) := by
  simp [back, List.getLast?_map, h]

/-- A collection with a table at the region index is not empty. -/
theorem isEmpty_of_vectorAt {α : Type} (v : List α) (idx : Int) (a : α)
    (h : vectorAt v idx = .ok a) : v.isEmpty = false := by
  cases v with
  | nil => simp [vectorAt] at h
  | cons x xs => rfl

/-- Closed form of `extractUnscaled` on the family 1 path, for non-empty
tables with first rows `fw`, `fg` and last rows `lw`, `lg`. -/
theorem extractUnscaled_family1_eq (self : EclEpsScalingPointsInfo) (st : EclipseState)
    (idx : Int) (tw : SwofTable) (tg : SgofTable) (fw lw : SwofRow) (fg lg : SgofRow)
    (htw : vectorAt st.getSwofTables idx = .ok tw)
    (htg : vectorAt st.getSgofTables idx = .ok tg)
    (hfw : tw.rows.head? = some fw) (hlw : tw.rows.getLast? = some lw)
    (hfg : tg.rows.head? = some fg) (hlg : tg.rows.getLast? = some lg) :
    extractUnscaled self st idx =
      (criticalSaturationForward tw.getKrwColumn tw.getSwColumn tw.numRows
        self.Swcr 0).bind fun swcr =>
      (criticalSaturationBackward tw.getKrowColumn tw.getSwColumn tw.numRows
        self.Sowcr tw.numRows).bind fun sowcr =>
      (criticalSaturationForward tg.getKrgColumn tg.getSgColumn tg.numRows
        self.Sgcr 0).bind fun sgcr =>
      (criticalSaturationBackward tg.getKrogColumn tg.getSgColumn tg.numRows
        self.Sogcr tg.numRows).bind fun sogcr =>
      .ok { Swl := fw.Sw, Sgl := fg.Sg, Sowl := 1 - lw.Sw, Sogl := 1 - lg.Sg,
            Swcr := swcr, Sgcr := sgcr, Sowcr := sowcr, Sogcr := sogcr,
            Swu := lw.Sw, Sgu := lg.Sg, Sowu := 1 - fw.Sw, Sogu := 1 - fg.Sg,
            maxPcow := fw.Pcow, maxPcgo := lg.Pcog,
            maxKrw := lw.Krw, maxKrow := fw.Krow, maxKrog := fg.Krog, maxKrg := lg.Krg } := by
  have e1 := isEmpty_of_vectorAt _ _ _ htw
  have e2 := isEmpty_of_vectorAt _ _ _ htg
  simp only [extractUnscaled, e1, e2, htw, htg, SwofTable.getSwColumn, SwofTable.getPcowColumn,
    SwofTable.getKrwColumn, SwofTable.getKrowColumn, SgofTable.getSgColumn,
    SgofTable.getPcogColumn, SgofTable.getKrgColumn, SgofTable.getKrogColumn,
    front_map _ _ _ hfw, back_map _ _ _ hlw, front_map _ _ _ hfg, back_map _ _ _ hlg,
    bind, Except.bind, pure, Except.pure, Bool.not_false, Bool.and_self, if_true]

/-- Closed form of `extractUnscaled` on the family 2 path, for non-empty
tables with first rows `fw`, `fo`, `fg` and last rows `lw`, `lo`, `lg`. -/
theorem extractUnscaled_family2_eq (self : EclEpsScalingPointsInfo) (st : EclipseState)
    (idx : Int) (tw : SwfnTable) (tso : Sof3Table) (tg : SgfnTable)
    (fw lw : SwfnRow) (fo lo : Sof3Row) (fg lg : SgfnRow)
    (hfam1 : (!st.getSgofTables.isEmpty && !st.getSwofTables.isEmpty) = false)
    (htw : vectorAt st.getSwfnTables idx = .ok tw)
    (htso : vectorAt st.getSof3Tables idx = .ok tso)
    (htg : vectorAt st.getSgfnTables idx = .ok tg)
    (hfw : tw.rows.head? = some fw) (hlw : tw.rows.getLast? = some lw)
    (hfo : tso.rows.head? = some fo) (hlo : tso.rows.getLast? = some lo)
    (hfg : tg.rows.head? = some fg) (hlg : tg.rows.getLast? = some lg) :
    extractUnscaled self st idx =
      (criticalSaturationForward tw.getKrwColumn tw.getSwColumn tw.numRows
        self.Swcr 0).bind fun swcr =>
      (criticalSaturationForward tso.getKrowColumn tso.getSoColumn tso.numRows
        self.Sowcr 0).bind fun sowcr =>
      (criticalSaturationForward tso.getKrogColumn tso.getSoColumn tso.numRows
        self.Sogcr 0).bind fun sogcr =>
      (criticalSaturationForward tg.getKrgColumn tg.getSgColumn tg.numRows
        self.Sgcr 0).bind fun sgcr =>
      (assert (decide (lo.So = 1 - fw.Sw))).bind fun _ =>
      (assert (decide (lw.Krw = lg.Krg))).bind fun _ =>
      .ok { Swl := fw.Sw, Sgl := fg.Sg, Sowl := fo.So + self.Sgl, Sogl := fo.So + fw.Sw,
            Swcr := swcr, Sgcr := sgcr, Sowcr := sowcr, Sogcr := sogcr,
            Swu := lw.Sw, Sgu := lg.Sg, Sowu := lo.So, Sogu := 1 - fg.Sg,
            maxPcow := fw.Pcow, maxPcgo := lg.Pcog,
            maxKrw := lw.Krw, maxKrow := lo.Krow, maxKrog := lo.Krog, maxKrg := lg.Krg } := by
  have e1 := isEmpty_of_vectorAt _ _ _ htw
  have e2 := isEmpty_of_vectorAt _ _ _ htso
  have e3 := isEmpty_of_vectorAt _ _ _ htg
  simp only [extractUnscaled, hfam1, e1, e2, e3, htw, htso, htg, SwfnTable.getSwColumn,
    SwfnTable.getPcowColumn, SwfnTable.getKrwColumn, Sof3Table.getSoColumn,
    Sof3Table.getKrowColumn, Sof3Table.getKrogColumn, SgfnTable.getSgColumn,
    SgfnTable.getPcogColumn, SgfnTable.getKrgColumn,
    front_map _ _ _ hfw, back_map _ _ _ hlw, front_map _ _ _ hfo, back_map _ _ _ hlo,
    front_map _ _ _ hfg, back_map _ _ _ hlg,
    bind, Except.bind, pure, Except.pure, Bool.not_false, Bool.and_self, if_true]
  rfl

/-- The forward search never throws the domain error. -/
theorem criticalSaturationForward_ne_domainError (krColumn satColumn : List Scalar)
    (numRows : Nat) (target : Scalar) :
    ∀ (d rowIdx : Nat), numRows - rowIdx = d →
      criticalSaturationForward krColumn satColumn numRows target rowIdx
        ≠ .error .domainError := by
  intro d
  induction d with
  | zero =>
    intro rowIdx h
    rw [criticalSaturationForward]
    have : ¬ rowIdx < numRows := by omega
    simp [this]
  | succ d ih =>
    intro rowIdx h
    rw [criticalSaturationForward]
    have hlt : rowIdx < numRows := by omega
    simp only [hlt, if_true]
    split
    · simp
    · split
      · split
        · split <;> simp
        · simp
      · exact ih (rowIdx + 1) (by omega)

/-- The backward search never throws the domain error. -/
theorem criticalSaturationBackward_ne_domainError (krColumn satColumn : List Scalar)
    (numRows : Nat) (target : Scalar) (n : Nat) :
    criticalSaturationBackward krColumn satColumn numRows target n ≠ .error .domainError := by
  induction n with
  | zero => simp [criticalSaturationBackward]
  | succ n ih =>
    rw [criticalSaturationBackward]
    split
    · simp
    · split
      · split
        · split <;> simp
        · simp
      · exact ih

/-- A bind fails with the domain error only if one of its parts does. -/
theorem bind_ne_domainError {α β : Type} (x : Except Failure α) (f : α → Except Failure β)
    (hx : x ≠ .error .domainError) (hf : ∀ a, f a ≠ .error .domainError) :
    (x >>= f) ≠ .error .domainError := by
  cases x with
  | error e =>
    intro h
    apply hx
    simpa [bind, Except.bind] using h
  | ok a => exact hf a

theorem vectorAt_ne_domainError {α : Type} (v : List α) (idx : Int) :
    vectorAt v idx ≠ .error .domainError := by
  unfold vectorAt
  split
  · split <;> simp
  · simp

theorem front_ne_domainError {α : Type} (v : List α) : front v ≠ .error .domainError := by
  unfold front
  split <;> simp

theorem back_ne_domainError {α : Type} (v : List α) : back v ≠ .error .domainError := by
  unfold back
  split <;> simp

theorem assert_ne_domainError (cond : Bool) : assert cond ≠ .error .domainError := by
  unfold assert
  split <;> simp

/-- On either family path `extractUnscaled` does not throw the domain error. -/
theorem extractUnscaled_ne_domainError_of_family (self : EclEpsScalingPointsInfo)
    (st : EclipseState) (idx : Int)
    (h : (!st.getSgofTables.isEmpty && !st.getSwofTables.isEmpty) = true ∨
      (!st.getSwfnTables.isEmpty && !st.getSgfnTables.isEmpty && !st.getSof3Tables.isEmpty)
        = true) :
    extractUnscaled self st idx ≠ .error .domainError := by
  unfold extractUnscaled
  by_cases h1 : (!st.getSgofTables.isEmpty && !st.getSwofTables.isEmpty) = true
  · simp only [h1, if_true]
    repeat first
      | exact Except.noConfusion
      | refine bind_ne_domainError _ _ ?_ (fun v => ?_)
      | exact vectorAt_ne_domainError _ _
      | exact front_ne_domainError _
      | exact back_ne_domainError _
      | exact criticalSaturationForward_ne_domainError _ _ _ _ _ _ rfl
      | exact criticalSaturationBackward_ne_domainError _ _ _ _ _
  · have h2 := h.resolve_left h1
    simp only [h1, h2, if_true]
    repeat first
      | exact Except.noConfusion
      | refine bind_ne_domainError _ _ ?_ (fun v => ?_)
      | exact vectorAt_ne_domainError _ _
      | exact front_ne_domainError _
      | exact back_ne_domainError _
      | exact assert_ne_domainError _
      | exact criticalSaturationForward_ne_domainError _ _ _ _ _ _ rfl

/-- C8: `extractUnscaled` throws the domain error exactly when neither family
is populated: the SWOF or the SGOF collection is empty, and the SWFN, the SGFN
or the SOF3 collection is empty. -/
theorem extractUnscaled_domainError_iff (self : EclEpsScalingPointsInfo) (st : EclipseState)
    (idx : Int) :
    extractUnscaled self st idx = .error .domainError ↔
      (st.getSwofTables = [] ∨ st.getSgofTables = []) ∧
      (st.getSwfnTables = [] ∨ st.getSgfnTables = [] ∨ st.getSof3Tables = []) := by
  constructor
  · intro h
    by_contra hcon
    refine extractUnscaled_ne_domainError_of_family self st idx ?_ h
    by_cases h1 : st.getSwofTables = [] ∨ st.getSgofTables = []
    · right
      have h2 : ¬ (st.getSwfnTables = [] ∨ st.getSgfnTables = [] ∨ st.getSof3Tables = []) :=
        fun h2 => hcon ⟨h1, h2⟩
      simp only [not_or] at h2
      simp [List.isEmpty_iff, h2.1, h2.2.1, h2.2.2]
    · left
      simp only [not_or] at h1
      simp [List.isEmpty_iff, h1.1, h1.2]
  · rintro ⟨h1, h2⟩
    have f1 : (!st.getSgofTables.isEmpty && !st.getSwofTables.isEmpty) = false := by
      rcases h1 with h | h <;> simp [h]
    have f2 : (!st.getSwfnTables.isEmpty && !st.getSgfnTables.isEmpty &&
        !st.getSof3Tables.isEmpty) = false := by
      rcases h2 with h | h | h <;> simp [h]
    simp [extractUnscaled, f1, f2]

/-- C9: when the family 1 collections are both non-empty, and so in particular
when both family conditions hold, `extractUnscaled` returns what it returns for
the SWOF and SGOF tables alone: the result is the same for every content of
the SWFN, SGFN and SOF3 collections. -/
theorem extractUnscaled_family1_precedence (self : EclEpsScalingPointsInfo)
    (st : EclipseState) (idx : Int) (swfn : List SwfnTable) (sgfn : List SgfnTable)
    (sof3 : List Sof3Table)
    (hswof : st.getSwofTables ≠ []) (hsgof : st.getSgofTables ≠ []) :
    extractUnscaled self st idx =
      extractUnscaled self ⟨st.getSwofTables, st.getSgofTables, swfn, sgfn, sof3⟩ idx := by
  have h1 : (!st.getSgofTables.isEmpty && !st.getSwofTables.isEmpty) = true := by
    simp [List.isEmpty_iff, hswof, hsgof]
  simp only [extractUnscaled, h1, if_true]

/-- The family 1 sample evaluates to a record. -/
theorem extractUnscaled_sampleFamily1 (self : EclEpsScalingPointsInfo) :
    extractUnscaled self sampleFamily1 0 = .ok
      { Swl := 2/10, Sgl := 0, Sowl := 0, Sogl := 2/10,
        Swcr := 4/10, Sgcr := 1/10, Sowcr := 2/10, Sogcr := 2/10,
        Swu := 1, Sgu := 8/10, Sowu := 8/10, Sogu := 1,
        maxPcow := 4, maxPcgo := 1,
        maxKrw := 6/10, maxKrow := 9/10, maxKrog := 9/10, maxKrg := 9/10 } := by
  rw [extractUnscaled_family1_eq self sampleFamily1 0 sampleSwof sampleSgof
    ⟨2/10, 0, 9/10, 4⟩ ⟨1, 6/10, 0, 0⟩ ⟨0, 0, 9/10, 0⟩ ⟨8/10, 9/10, 0, 1⟩ rfl rfl rfl rfl rfl rfl]
  have hw : criticalSaturationForward sampleSwof.getKrwColumn sampleSwof.getSwColumn
      sampleSwof.numRows self.Swcr 0 = .ok (4/10) := by
    rw [criticalSaturationForward_of_firstPositiveAt _ _ _ _ 2 (by decide) ?_ 2 0 rfl]
    · simp [SwofTable.getSwColumn, sampleSwof]
    · refine ⟨⟨1/10, by simp [SwofTable.getKrwColumn, sampleSwof], by norm_num⟩, ?_⟩
      intro j hj k hk
      interval_cases j <;> simp [SwofTable.getKrwColumn, sampleSwof] at hk <;> simp [← hk]
  have hg : criticalSaturationForward sampleSgof.getKrgColumn sampleSgof.getSgColumn
      sampleSgof.numRows self.Sgcr 0 = .ok (1/10) := by
    rw [criticalSaturationForward_of_firstPositiveAt _ _ _ _ 2 (by decide) ?_ 2 0 rfl]
    · simp [SgofTable.getSgColumn, sampleSgof]
    · refine ⟨⟨3/10, by simp [SgofTable.getKrgColumn, sampleSgof], by norm_num⟩, ?_⟩
      intro j hj k hk
      interval_cases j <;> simp [SgofTable.getKrgColumn, sampleSgof] at hk <;> simp [← hk]
  rw [hw, hg]
  simp [Except.bind, criticalSaturationBackward, SwofTable.getKrowColumn, SwofTable.getSwColumn,
    SwofTable.numRows, sampleSwof, SgofTable.getKrogColumn, SgofTable.getSgColumn,
    SgofTable.numRows, sampleSgof]
  norm_num

/-- A bind that succeeds has a first part that succeeds. -/
theorem bind_eq_ok {α β : Type} {x : Except Failure α} {f : α → Except Failure β} {r : β}
    (h : x.bind f = .ok r) : ∃ a, x = .ok a ∧ f a = .ok r := by
  cases x with
  | error e => simp [Except.bind] at h
  | ok a => exact ⟨a, rfl, h⟩

/-- A non-empty list of rows has a first and a last row. -/
theorem exists_head_getLast {α : Type} (rows : List α) (h : rows ≠ []) :
    ∃ f l, rows.head? = some f ∧ rows.getLast? = some l := by
  cases rows with
  | nil => exact absurd rfl h
  | cons a l => exact ⟨a, (a :: l).getLast (by simp), rfl, List.getLast?_eq_getLast _ _⟩

/-- On the family 1 path an empty table makes `extractUnscaled` read outside a
column. -/
theorem extractUnscaled_family1_empty (self : EclEpsScalingPointsInfo) (st : EclipseState)
    (idx : Int) (tw : SwofTable) (tg : SgofTable)
    (htw : vectorAt st.getSwofTables idx = .ok tw)
    (htg : vectorAt st.getSgofTables idx = .ok tg)
    (h : tw.rows = [] ∨ tg.rows = []) :
    extractUnscaled self st idx = .error .undefinedBehaviour := by
  have e1 := isEmpty_of_vectorAt _ _ _ htw
  have e2 := isEmpty_of_vectorAt _ _ _ htg
  by_cases hw : tw.rows = []
  · simp [extractUnscaled, e1, e2, htw, htg, SwofTable.getSwColumn, hw, front, bind,
      Except.bind]
  · have hg := h.resolve_left hw
    obtain ⟨fw, lw, hfw, hlw⟩ := exists_head_getLast _ hw
    simp only [extractUnscaled, e1, e2, htw, htg, SwofTable.getSwColumn,
      SgofTable.getSgColumn, front_map _ _ _ hfw, back_map _ _ _ hlw,
      bind, Except.bind, Bool.not_false, Bool.and_self, if_true]
    simp [hg, front]

/-- On the family 2 path an empty table makes `extractUnscaled` read outside a
column. -/
theorem extractUnscaled_family2_empty (self : EclEpsScalingPointsInfo) (st : EclipseState)
    (idx : Int) (tw : SwfnTable) (tso : Sof3Table) (tg : SgfnTable)
    (hfam1 : (!st.getSgofTables.isEmpty && !st.getSwofTables.isEmpty) = false)
    (htw : vectorAt st.getSwfnTables idx = .ok tw)
    (htso : vectorAt st.getSof3Tables idx = .ok tso)
    (htg : vectorAt st.getSgfnTables idx = .ok tg)
    (h : tw.rows = [] ∨ tso.rows = [] ∨ tg.rows = []) :
    extractUnscaled self st idx = .error .undefinedBehaviour := by
  have e1 := isEmpty_of_vectorAt _ _ _ htw
  have e2 := isEmpty_of_vectorAt _ _ _ htso
  have e3 := isEmpty_of_vectorAt _ _ _ htg
  by_cases hw : tw.rows = []
  · simp [extractUnscaled, hfam1, e1, e2, e3, htw, htso, htg, SwfnTable.getSwColumn, hw, front,
      bind, Except.bind]
  · obtain ⟨fw, lw, hfw, hlw⟩ := exists_head_getLast _ hw
    by_cases ho : tso.rows = []
    · simp only [extractUnscaled, hfam1, e1, e2, e3, htw, htso, htg, SwfnTable.getSwColumn,
        Sof3Table.getSoColumn, front_map _ _ _ hfw,
        bind, Except.bind, Bool.not_false, Bool.and_self, if_true]
      simp [ho, front]
    · obtain ⟨fo, lo, hfo, hlo⟩ := exists_head_getLast _ ho
      have hg := (h.resolve_left hw).resolve_left ho
      simp only [extractUnscaled, hfam1, e1, e2, e3, htw, htso, htg, SwfnTable.getSwColumn,
        Sof3Table.getSoColumn, SgfnTable.getSgColumn, front_map _ _ _ hfw,
        front_map _ _ _ hfo, bind, Except.bind, Bool.not_false, Bool.and_self, if_true]
      simp [hg, front]

/-- On columns with `numRows` entries the forward search reads inside the
columns. -/
theorem criticalSaturationForward_ne_undefinedBehaviour (krColumn satColumn : List Scalar)
    (numRows : Nat) (target : Scalar) (hk : krColumn.length = numRows)
    (hs : satColumn.length = numRows) :
    ∀ (d rowIdx : Nat), numRows - rowIdx = d →
      criticalSaturationForward krColumn satColumn numRows target rowIdx
        ≠ .error .undefinedBehaviour := by
  intro d
  induction d with
  | zero =>
    intro rowIdx h
    rw [criticalSaturationForward]
    have : ¬ rowIdx < numRows := by omega
    simp [this]
  | succ d ih =>
    intro rowIdx h
    rw [criticalSaturationForward]
    have hlt : rowIdx < numRows := by omega
    have hlt1 : rowIdx < krColumn.length := by omega
    simp only [hlt, if_true, List.getElem?_eq_getElem hlt1]
    split
    · split
      · have hlt2 : rowIdx - 1 < satColumn.length := by omega
        simp [List.getElem?_eq_getElem hlt2]
      · simp
    · exact ih (rowIdx + 1) (by omega)

/-- On columns with `numRows` entries the backward search reads inside the
columns. -/
theorem criticalSaturationBackward_ne_undefinedBehaviour (krColumn satColumn : List Scalar)
    (numRows : Nat) (target : Scalar) (hk : krColumn.length = numRows)
    (hs : satColumn.length = numRows) (n : Nat) (hn : n ≤ numRows) :
    criticalSaturationBackward krColumn satColumn numRows target n
      ≠ .error .undefinedBehaviour := by
  induction n with
  | zero => simp [criticalSaturationBackward]
  | succ n ih =>
    rw [criticalSaturationBackward]
    have hlt1 : n < krColumn.length := by omega
    simp only [List.getElem?_eq_getElem hlt1]
    split
    · split
      · rename_i hlt
        have hlt2 : n + 1 < satColumn.length := by omega
        simp [List.getElem?_eq_getElem hlt2]
      · simp
    · exact ih (by omega)

/-- A failure that is neither the domain error nor a read outside a vector is
a failed assertion. -/
theorem eq_assertionFailure {α : Type} {x : Except Failure α} {f : Failure}
    (h : x = .error f) (h1 : x ≠ .error .domainError) (h2 : x ≠ .error .undefinedBehaviour) :
    f = .assertionFailure := by
  subst h
  cases f with
  | domainError => exact absurd rfl h1
  | assertionFailure => rfl
  | undefinedBehaviour => exact absurd rfl h2

/-- A bind reads outside a vector only if one of its parts does. -/
theorem bind_ne_undefinedBehaviour {α β : Type} (x : Except Failure α)
    (f : α → Except Failure β) (hx : x ≠ .error .undefinedBehaviour)
    (hf : ∀ a, f a ≠ .error .undefinedBehaviour) :
    x.bind f ≠ .error .undefinedBehaviour := by
  cases x with
  | error e =>
    intro h
    apply hx
    simpa [Except.bind] using h
  | ok a => exact hf a

theorem assert_ne_undefinedBehaviour (cond : Bool) :
    assert cond ≠ .error .undefinedBehaviour := by
  unfold assert
  split <;> simp

/-- Inversion of a successful `extractUnscaled` on the family 1 path: both
tables have rows, the four searches succeed and the record is assembled from
the boundary rows and the search results. -/
theorem extractUnscaled_family1_ok (self : EclEpsScalingPointsInfo) (st : EclipseState)
    (idx : Int) (tw : SwofTable) (tg : SgofTable) (r : EclEpsScalingPointsInfo)
    (htw : vectorAt st.getSwofTables idx = .ok tw)
    (htg : vectorAt st.getSgofTables idx = .ok tg)
    (hr : extractUnscaled self st idx = .ok r) :
    ∃ (fw lw : SwofRow) (fg lg : SgofRow) (swcr sowcr sgcr sogcr : Scalar),
      tw.rows.head? = some fw ∧ tw.rows.getLast? = some lw ∧
      tg.rows.head? = some fg ∧ tg.rows.getLast? = some lg ∧
      criticalSaturationForward tw.getKrwColumn tw.getSwColumn tw.numRows self.Swcr 0
        = .ok swcr ∧
      criticalSaturationBackward tw.getKrowColumn tw.getSwColumn tw.numRows self.Sowcr
        tw.numRows = .ok sowcr ∧
      criticalSaturationForward tg.getKrgColumn tg.getSgColumn tg.numRows self.Sgcr 0
        = .ok sgcr ∧
      criticalSaturationBackward tg.getKrogColumn tg.getSgColumn tg.numRows self.Sogcr
        tg.numRows = .ok sogcr ∧
      r = { Swl := fw.Sw, Sgl := fg.Sg, Sowl := 1 - lw.Sw, Sogl := 1 - lg.Sg,
            Swcr := swcr, Sgcr := sgcr, Sowcr := sowcr, Sogcr := sogcr,
            Swu := lw.Sw, Sgu := lg.Sg, Sowu := 1 - fw.Sw, Sogu := 1 - fg.Sg,
            maxPcow := fw.Pcow, maxPcgo := lg.Pcog,
            maxKrw := lw.Krw, maxKrow := fw.Krow, maxKrog := fg.Krog, maxKrg := lg.Krg } := by
  by_cases hw : tw.rows = []
  · rw [extractUnscaled_family1_empty self st idx tw tg htw htg (Or.inl hw)] at hr
    cases hr
  by_cases hg : tg.rows = []
  · rw [extractUnscaled_family1_empty self st idx tw tg htw htg (Or.inr hg)] at hr
    cases hr
  obtain ⟨fw, lw, hfw, hlw⟩ := exists_head_getLast _ hw
  obtain ⟨fg, lg, hfg, hlg⟩ := exists_head_getLast _ hg
  rw [extractUnscaled_family1_eq self st idx tw tg fw lw fg lg htw htg hfw hlw hfg hlg] at hr
  obtain ⟨swcr, h1, hr⟩ := bind_eq_ok hr
  obtain ⟨sowcr, h2, hr⟩ := bind_eq_ok hr
  obtain ⟨sgcr, h3, hr⟩ := bind_eq_ok hr
  obtain ⟨sogcr, h4, hr⟩ := bind_eq_ok hr
  exact ⟨fw, lw, fg, lg, swcr, sowcr, sgcr, sogcr, hfw, hlw, hfg, hlg, h1, h2, h3, h4,
    (Except.ok.inj hr).symm⟩

/-- Inversion of a successful `extractUnscaled` on the family 2 path: the three
tables have rows, the four searches succeed, both assertions hold and the
record is assembled from the boundary rows, the search results and the value
of Sgl before the call. -/
theorem extractUnscaled_family2_ok (self : EclEpsScalingPointsInfo) (st : EclipseState)
    (idx : Int) (tw : SwfnTable) (tso : Sof3Table) (tg : SgfnTable)
    (r : EclEpsScalingPointsInfo)
    (hfam1 : (!st.getSgofTables.isEmpty && !st.getSwofTables.isEmpty) = false)
    (htw : vectorAt st.getSwfnTables idx = .ok tw)
    (htso : vectorAt st.getSof3Tables idx = .ok tso)
    (htg : vectorAt st.getSgfnTables idx = .ok tg)
    (hr : extractUnscaled self st idx = .ok r) :
    ∃ (fw lw : SwfnRow) (fo lo : Sof3Row) (fg lg : SgfnRow) (swcr sowcr sogcr sgcr : Scalar),
      tw.rows.head? = some fw ∧ tw.rows.getLast? = some lw ∧
      tso.rows.head? = some fo ∧ tso.rows.getLast? = some lo ∧
      tg.rows.head? = some fg ∧ tg.rows.getLast? = some lg ∧
      criticalSaturationForward tw.getKrwColumn tw.getSwColumn tw.numRows self.Swcr 0
        = .ok swcr ∧
      criticalSaturationForward tso.getKrowColumn tso.getSoColumn tso.numRows self.Sowcr 0
        = .ok sowcr ∧
      criticalSaturationForward tso.getKrogColumn tso.getSoColumn tso.numRows self.Sogcr 0
        = .ok sogcr ∧
      criticalSaturationForward tg.getKrgColumn tg.getSgColumn tg.numRows self.Sgcr 0
        = .ok sgcr ∧
      lo.So = 1 - fw.Sw ∧ lw.Krw = lg.Krg ∧
      r = { Swl := fw.Sw, Sgl := fg.Sg, Sowl := fo.So + self.Sgl, Sogl := fo.So + fw.Sw,
            Swcr := swcr, Sgcr := sgcr, Sowcr := sowcr, Sogcr := sogcr,
            Swu := lw.Sw, Sgu := lg.Sg, Sowu := lo.So, Sogu := 1 - fg.Sg,
            maxPcow := fw.Pcow, maxPcgo := lg.Pcog,
            maxKrw := lw.Krw, maxKrow := lo.Krow, maxKrog := lo.Krog, maxKrg := lg.Krg } := by
  by_cases hw : tw.rows = []
  · rw [extractUnscaled_family2_empty self st idx tw tso tg hfam1 htw htso htg (Or.inl hw)] at hr
    cases hr
  by_cases ho : tso.rows = []
  · rw [extractUnscaled_family2_empty self st idx tw tso tg hfam1 htw htso htg
      (Or.inr (Or.inl ho))] at hr
    cases hr
  by_cases hg : tg.rows = []
  · rw [extractUnscaled_family2_empty self st idx tw tso tg hfam1 htw htso htg
      (Or.inr (Or.inr hg))] at hr
    cases hr
  obtain ⟨fw, lw, hfw, hlw⟩ := exists_head_getLast _ hw
  obtain ⟨fo, lo, hfo, hlo⟩ := exists_head_getLast _ ho
  obtain ⟨fg, lg, hfg, hlg⟩ := exists_head_getLast _ hg
  rw [extractUnscaled_family2_eq self st idx tw tso tg fw lw fo lo fg lg hfam1 htw htso htg
    hfw hlw hfo hlo hfg hlg] at hr
  obtain ⟨swcr, h1, hr⟩ := bind_eq_ok hr
  obtain ⟨sowcr, h2, hr⟩ := bind_eq_ok hr
  obtain ⟨sogcr, h3, hr⟩ := bind_eq_ok hr
  obtain ⟨sgcr, h4, hr⟩ := bind_eq_ok hr
  obtain ⟨u5, h5, hr⟩ := bind_eq_ok hr
  obtain ⟨u6, h6, hr⟩ := bind_eq_ok hr
  have a1 : lo.So = 1 - fw.Sw := by
    by_contra hne
    simp [assert, hne] at h5
  have a2 : lw.Krw = lg.Krg := by
    by_contra hne
    simp [assert, hne] at h6
  exact ⟨fw, lw, fo, lo, fg, lg, swcr, sowcr, sogcr, sgcr, hfw, hlw, hfo, hlo, hfg, hlg,
    h1, h2, h3, h4, a1, a2, (Except.ok.inj hr).symm⟩

/-- On the family 1 path with non-empty tables the only failure of
`extractUnscaled` is a failed assertion. -/
theorem extractUnscaled_family1_failure (self : EclEpsScalingPointsInfo) (st : EclipseState)
    (idx : Int) (tw : SwofTable) (tg : SgofTable) (f : Failure)
    (htw : vectorAt st.getSwofTables idx = .ok tw)
    (htg : vectorAt st.getSgofTables idx = .ok tg)
    (hw : tw.rows ≠ []) (hg : tg.rows ≠ [])
    (hf : extractUnscaled self st idx = .error f) : f = .assertionFailure := by
  refine eq_assertionFailure hf ?_ ?_
  · refine extractUnscaled_ne_domainError_of_family self st idx (Or.inl ?_)
    simp [isEmpty_of_vectorAt _ _ _ htw, isEmpty_of_vectorAt _ _ _ htg]
  · obtain ⟨fw, lw, hfw, hlw⟩ := exists_head_getLast _ hw
    obtain ⟨fg, lg, hfg, hlg⟩ := exists_head_getLast _ hg
    rw [extractUnscaled_family1_eq self st idx tw tg fw lw fg lg htw htg hfw hlw hfg hlg]
    refine bind_ne_undefinedBehaviour _ _
      (criticalSaturationForward_ne_undefinedBehaviour _ _ _ _
        (by simp [SwofTable.getKrwColumn, SwofTable.numRows])
        (by simp [SwofTable.getSwColumn, SwofTable.numRows]) _ _ rfl) (fun _ => ?_)
    refine bind_ne_undefinedBehaviour _ _
      (criticalSaturationBackward_ne_undefinedBehaviour _ _ _ _
        (by simp [SwofTable.getKrowColumn, SwofTable.numRows])
        (by simp [SwofTable.getSwColumn, SwofTable.numRows]) _ (le_refl _)) (fun _ => ?_)
    refine bind_ne_undefinedBehaviour _ _
      (criticalSaturationForward_ne_undefinedBehaviour _ _ _ _
        (by simp [SgofTable.getKrgColumn, SgofTable.numRows])
        (by simp [SgofTable.getSgColumn, SgofTable.numRows]) _ _ rfl) (fun _ => ?_)
    refine bind_ne_undefinedBehaviour _ _
      (criticalSaturationBackward_ne_undefinedBehaviour _ _ _ _
        (by simp [SgofTable.getKrogColumn, SgofTable.numRows])
        (by simp [SgofTable.getSgColumn, SgofTable.numRows]) _ (le_refl _)) (fun _ => ?_)
    exact Except.noConfusion

/-- On the family 2 path with non-empty tables the only failure of
`extractUnscaled` is a failed assertion. -/
theorem extractUnscaled_family2_failure (self : EclEpsScalingPointsInfo) (st : EclipseState)
    (idx : Int) (tw : SwfnTable) (tso : Sof3Table) (tg : SgfnTable) (f : Failure)
    (hfam1 : (!st.getSgofTables.isEmpty && !st.getSwofTables.isEmpty) = false)
    (htw : vectorAt st.getSwfnTables idx = .ok tw)
    (htso : vectorAt st.getSof3Tables idx = .ok tso)
    (htg : vectorAt st.getSgfnTables idx = .ok tg)
    (hw : tw.rows ≠ []) (ho : tso.rows ≠ []) (hg : tg.rows ≠ [])
    (hf : extractUnscaled self st idx = .error f) : f = .assertionFailure := by
  refine eq_assertionFailure hf ?_ ?_
  · refine extractUnscaled_ne_domainError_of_family self st idx (Or.inr ?_)
    simp [isEmpty_of_vectorAt _ _ _ htw, isEmpty_of_vectorAt _ _ _ htso,
      isEmpty_of_vectorAt _ _ _ htg]
  · obtain ⟨fw, lw, hfw, hlw⟩ := exists_head_getLast _ hw
    obtain ⟨fo, lo, hfo, hlo⟩ := exists_head_getLast _ ho
    obtain ⟨fg, lg, hfg, hlg⟩ := exists_head_getLast _ hg
    rw [extractUnscaled_family2_eq self st idx tw tso tg fw lw fo lo fg lg hfam1 htw htso htg
      hfw hlw hfo hlo hfg hlg]
    refine bind_ne_undefinedBehaviour _ _
      (criticalSaturationForward_ne_undefinedBehaviour _ _ _ _
        (by simp [SwfnTable.getKrwColumn, SwfnTable.numRows])
        (by simp [SwfnTable.getSwColumn, SwfnTable.numRows]) _ _ rfl) (fun _ => ?_)
    refine bind_ne_undefinedBehaviour _ _
      (criticalSaturationForward_ne_undefinedBehaviour _ _ _ _
        (by simp [Sof3Table.getKrowColumn, Sof3Table.numRows])
        (by simp [Sof3Table.getSoColumn, Sof3Table.numRows]) _ _ rfl) (fun _ => ?_)
    refine bind_ne_undefinedBehaviour _ _
      (criticalSaturationForward_ne_undefinedBehaviour _ _ _ _
        (by simp [Sof3Table.getKrogColumn, Sof3Table.numRows])
        (by simp [Sof3Table.getSoColumn, Sof3Table.numRows]) _ _ rfl) (fun _ => ?_)
    refine bind_ne_undefinedBehaviour _ _
      (criticalSaturationForward_ne_undefinedBehaviour _ _ _ _
        (by simp [SgfnTable.getKrgColumn, SgfnTable.numRows])
        (by simp [SgfnTable.getSgColumn, SgfnTable.numRows]) _ _ rfl) (fun _ => ?_)
    refine bind_ne_undefinedBehaviour _ _ (assert_ne_undefinedBehaviour _) (fun _ => ?_)
    refine bind_ne_undefinedBehaviour _ _ (assert_ne_undefinedBehaviour _) (fun _ => ?_)
    exact Except.noConfusion

/-- The forward search over columns with `numRows` entries whose first
positive entry is at a row `i > 0` yields the saturation of row `i - 1`,
whatever the target held before. -/
theorem criticalSaturationForward_eq_of_pos (krColumn satColumn : List Scalar)
    (numRows : Nat) (hk : krColumn.length = numRows) (hs : satColumn.length = numRows)
    (i : Nat) (hi : 0 < i) (hfirst : firstPositiveAt krColumn i) :
    ∃ sat, satColumn[i - 1]? = some sat ∧
      ∀ target, criticalSaturationForward krColumn satColumn numRows target 0 = .ok sat := by
  have hlen : i < krColumn.length := by
    obtain ⟨⟨k, hk0, -⟩, -⟩ := hfirst
    by_contra hcon
    rw [List.getElem?_eq_none (by omega)] at hk0
    cases hk0
  have hlt : i - 1 < satColumn.length := by omega
  refine ⟨satColumn[i - 1], List.getElem?_eq_getElem hlt, fun target => ?_⟩
  rw [criticalSaturationForward_of_firstPositiveAt krColumn satColumn numRows target i
    (by omega) hfirst i 0 (by omega)]
  simp [hi, List.getElem?_eq_getElem hlt]

/-- The forward search over a column whose first entry is positive fails its
assertion. -/
theorem criticalSaturationForward_eq_of_zero (krColumn satColumn : List Scalar)
    (numRows : Nat) (hk : krColumn.length = numRows) (hfirst : firstPositiveAt krColumn 0)
    (target : Scalar) :
    criticalSaturationForward krColumn satColumn numRows target 0
      = .error .assertionFailure := by
  have hlen : 0 < krColumn.length := by
    obtain ⟨⟨k, hk0, -⟩, -⟩ := hfirst
    by_contra hcon
    rw [List.getElem?_eq_none (by omega)] at hk0
    cases hk0
  rw [criticalSaturationForward_of_firstPositiveAt krColumn satColumn numRows target 0
    (by omega) hfirst 0 0 rfl]
  simp

/-- C4: when the Krw column of the water table (SWOF in family 1, SWFN in
family 2) has its first strictly positive entry at a row i > 0, the search
yields the Sw value of row i - 1 and every record that `extractUnscaled`
returns has Swcr equal to it; the same holds for the Krg column of the gas
table (SGOF, SGFN) and Sgcr. -/
theorem extractUnscaled_critical_water_gas (self : EclEpsScalingPointsInfo)
    (st : EclipseState) (idx : Int) :
    (∀ (tw : SwofTable) (tg : SgofTable),
      vectorAt st.getSwofTables idx = .ok tw → vectorAt st.getSgofTables idx = .ok tg →
      (∀ i, 0 < i → firstPositiveAt tw.getKrwColumn i →
        ∃ sw, tw.getSwColumn[i - 1]? = some sw ∧
          (∀ target, criticalSaturationForward tw.getKrwColumn tw.getSwColumn tw.numRows
            target 0 = .ok sw) ∧
          ∀ r, extractUnscaled self st idx = .ok r → r.Swcr = sw) ∧
      (∀ i, 0 < i → firstPositiveAt tg.getKrgColumn i →
        ∃ sg, tg.getSgColumn[i - 1]? = some sg ∧
          (∀ target, criticalSaturationForward tg.getKrgColumn tg.getSgColumn tg.numRows
            target 0 = .ok sg) ∧
          ∀ r, extractUnscaled self st idx = .ok r → r.Sgcr = sg)) ∧
    (∀ (tw : SwfnTable) (tso : Sof3Table) (tg : SgfnTable),
      (st.getSwofTables = [] ∨ st.getSgofTables = []) →
      vectorAt st.getSwfnTables idx = .ok tw → vectorAt st.getSof3Tables idx = .ok tso →
      vectorAt st.getSgfnTables idx = .ok tg →
      (∀ i, 0 < i → firstPositiveAt tw.getKrwColumn i →
        ∃ sw, tw.getSwColumn[i - 1]? = some sw ∧
          (∀ target, criticalSaturationForward tw.getKrwColumn tw.getSwColumn tw.numRows
            target 0 = .ok sw) ∧
          ∀ r, extractUnscaled self st idx = .ok r → r.Swcr = sw) ∧
      (∀ i, 0 < i → firstPositiveAt tg.getKrgColumn i →
        ∃ sg, tg.getSgColumn[i - 1]? = some sg ∧
          (∀ target, criticalSaturationForward tg.getKrgColumn tg.getSgColumn tg.numRows
            target 0 = .ok sg) ∧
          ∀ r, extractUnscaled self st idx = .ok r → r.Sgcr = sg)) := by
  constructor
  · intro tw tg htw htg
    constructor
    · intro i hi hfirst
      obtain ⟨sw, hsw, hloop⟩ := criticalSaturationForward_eq_of_pos tw.getKrwColumn
        tw.getSwColumn tw.numRows (by simp [SwofTable.getKrwColumn, SwofTable.numRows])
        (by simp [SwofTable.getSwColumn, SwofTable.numRows]) i hi hfirst
      refine ⟨sw, hsw, hloop, fun r hr => ?_⟩
      obtain ⟨fw, lw, fg, lg, swcr, sowcr, sgcr, sogcr, -, -, -, -, h1, -, -, -, rfl⟩ :=
        extractUnscaled_family1_ok self st idx tw tg r htw htg hr
      rw [hloop] at h1
      exact (Except.ok.inj h1).symm
    · intro i hi hfirst
      obtain ⟨sg, hsg, hloop⟩ := criticalSaturationForward_eq_of_pos tg.getKrgColumn
        tg.getSgColumn tg.numRows (by simp [SgofTable.getKrgColumn, SgofTable.numRows])
        (by simp [SgofTable.getSgColumn, SgofTable.numRows]) i hi hfirst
      refine ⟨sg, hsg, hloop, fun r hr => ?_⟩
      obtain ⟨fw, lw, fg, lg, swcr, sowcr, sgcr, sogcr, -, -, -, -, -, -, h3, -, rfl⟩ :=
        extractUnscaled_family1_ok self st idx tw tg r htw htg hr
      rw [hloop] at h3
      exact (Except.ok.inj h3).symm
  · intro tw tso tg hfam htw htso htg
    have hfam1 : (!st.getSgofTables.isEmpty && !st.getSwofTables.isEmpty) = false := by
      rcases hfam with h | h <;> simp [h]
    constructor
    · intro i hi hfirst
      obtain ⟨sw, hsw, hloop⟩ := criticalSaturationForward_eq_of_pos tw.getKrwColumn
        tw.getSwColumn tw.numRows (by simp [SwfnTable.getKrwColumn, SwfnTable.numRows])
        (by simp [SwfnTable.getSwColumn, SwfnTable.numRows]) i hi hfirst
      refine ⟨sw, hsw, hloop, fun r hr => ?_⟩
      obtain ⟨fw, lw, fo, lo, fg, lg, swcr, sowcr, sogcr, sgcr, -, -, -, -, -, -, h1, -, -, -,
        -, -, rfl⟩ := extractUnscaled_family2_ok self st idx tw tso tg r hfam1 htw htso htg hr
      rw [hloop] at h1
      exact (Except.ok.inj h1).symm
    · intro i hi hfirst
      obtain ⟨sg, hsg, hloop⟩ := criticalSaturationForward_eq_of_pos tg.getKrgColumn
        tg.getSgColumn tg.numRows (by simp [SgfnTable.getKrgColumn, SgfnTable.numRows])
        (by simp [SgfnTable.getSgColumn, SgfnTable.numRows]) i hi hfirst
      refine ⟨sg, hsg, hloop, fun r hr => ?_⟩
      obtain ⟨fw, lw, fo, lo, fg, lg, swcr, sowcr, sogcr, sgcr, -, -, -, -, -, -, -, -, -, h4,
        -, -, rfl⟩ := extractUnscaled_family2_ok self st idx tw tso tg r hfam1 htw htso htg hr
      rw [hloop] at h4
      exact (Except.ok.inj h4).symm

/-- The Krw column of the sample oil-water table has its first positive entry
in row 2. -/
theorem firstPositiveAt_sampleSwof : firstPositiveAt sampleSwof.getKrwColumn 2 := by
  refine ⟨⟨1/10, by simp [SwofTable.getKrwColumn, sampleSwof], by norm_num⟩, ?_⟩
  intro j hj k hk
  interval_cases j <;> simp [SwofTable.getKrwColumn, sampleSwof] at hk <;> simp [← hk]

/-- C4 at the water columns of the specification, Sw = [0.2, 0.4, 0.6, 0.8, 1.0]
and Krw = [0, 0, 0.1, 0.3, 0.6]: the first positive entry is in row 2,
`extractUnscaled` returns a record and its Swcr is 0.4. -/
theorem extractUnscaled_critical_water_gas_witness :
    vectorAt sampleFamily1.getSwofTables 0 = .ok sampleSwof ∧
    vectorAt sampleFamily1.getSgofTables 0 = .ok sampleSgof ∧
    firstPositiveAt sampleSwof.getKrwColumn 2 ∧
    ∃ r, extractUnscaled scenarioInfo sampleFamily1 0 = .ok r ∧ r.Swcr = 4/10 := by
  obtain ⟨sw, hsw, -, hall⟩ :=
    ((extractUnscaled_critical_water_gas scenarioInfo sampleFamily1 0).1 sampleSwof sampleSgof
      rfl rfl).1 2 (by decide) firstPositiveAt_sampleSwof
  have h4 : sw = 4/10 := by
    have : (4/10 : Scalar) = sw := by
      simpa [SwofTable.getSwColumn, sampleSwof] using hsw
    exact this.symm
  refine ⟨rfl, rfl, firstPositiveAt_sampleSwof, _, extractUnscaled_sampleFamily1 scenarioInfo, ?_⟩
  rw [hall _ (extractUnscaled_sampleFamily1 scenarioInfo), h4]

/-- C5: when a forward critical-saturation search finds its first strictly
positive value in row 0 (Krw of the water table or Krg of the gas table in
either family, Krow or Krog of the oil table in family 2), `extractUnscaled`
fails instead of returning a record, and with non-empty tables the failure is
the failed assertion. -/
theorem extractUnscaled_first_row_positive_fails (self : EclEpsScalingPointsInfo)
    (st : EclipseState) (idx : Int) :
    (∀ (tw : SwofTable) (tg : SgofTable),
      vectorAt st.getSwofTables idx = .ok tw → vectorAt st.getSgofTables idx = .ok tg →
      (firstPositiveAt tw.getKrwColumn 0 ∨ firstPositiveAt tg.getKrgColumn 0) →
      (∃ f, extractUnscaled self st idx = .error f) ∧
      (tw.rows ≠ [] → tg.rows ≠ [] →
        extractUnscaled self st idx = .error .assertionFailure)) ∧
    (∀ (tw : SwfnTable) (tso : Sof3Table) (tg : SgfnTable),
      (st.getSwofTables = [] ∨ st.getSgofTables = []) →
      vectorAt st.getSwfnTables idx = .ok tw → vectorAt st.getSof3Tables idx = .ok tso →
      vectorAt st.getSgfnTables idx = .ok tg →
      (firstPositiveAt tw.getKrwColumn 0 ∨ firstPositiveAt tso.getKrowColumn 0 ∨
        firstPositiveAt tso.getKrogColumn 0 ∨ firstPositiveAt tg.getKrgColumn 0) →
      (∃ f, extractUnscaled self st idx = .error f) ∧
      (tw.rows ≠ [] → tso.rows ≠ [] → tg.rows ≠ [] →
        extractUnscaled self st idx = .error .assertionFailure)) := by
  constructor
  · intro tw tg htw htg hfirst
    have hfail : ∃ f, extractUnscaled self st idx = .error f := by
      cases hres : extractUnscaled self st idx with
      | error f => exact ⟨f, rfl⟩
      | ok r =>
        exfalso
        obtain ⟨fw, lw, fg, lg, swcr, sowcr, sgcr, sogcr, -, -, -, -, h1, -, h3, -, -⟩ :=
          extractUnscaled_family1_ok self st idx tw tg r htw htg hres
        rcases hfirst with h | h
        · rw [criticalSaturationForward_eq_of_zero _ _ _
            (by simp [SwofTable.getKrwColumn, SwofTable.numRows]) h] at h1
          cases h1
        · rw [criticalSaturationForward_eq_of_zero _ _ _
            (by simp [SgofTable.getKrgColumn, SgofTable.numRows]) h] at h3
          cases h3
    refine ⟨hfail, fun hw hg => ?_⟩
    obtain ⟨f, hf⟩ := hfail
    rw [hf, extractUnscaled_family1_failure self st idx tw tg f htw htg hw hg hf]
  · intro tw tso tg hfam htw htso htg hfirst
    have hfam1 : (!st.getSgofTables.isEmpty && !st.getSwofTables.isEmpty) = false := by
      rcases hfam with h | h <;> simp [h]
    have hfail : ∃ f, extractUnscaled self st idx = .error f := by
      cases hres : extractUnscaled self st idx with
      | error f => exact ⟨f, rfl⟩
      | ok r =>
        exfalso
        obtain ⟨fw, lw, fo, lo, fg, lg, swcr, sowcr, sogcr, sgcr, -, -, -, -, -, -, h1, h2, h3,
          h4, -, -, -⟩ :=
          extractUnscaled_family2_ok self st idx tw tso tg r hfam1 htw htso htg hres
        rcases hfirst with h | h | h | h
        · rw [criticalSaturationForward_eq_of_zero _ _ _
            (by simp [SwfnTable.getKrwColumn, SwfnTable.numRows]) h] at h1
          cases h1
        · rw [criticalSaturationForward_eq_of_zero _ _ _
            (by simp [Sof3Table.getKrowColumn, Sof3Table.numRows]) h] at h2
          cases h2
        · rw [criticalSaturationForward_eq_of_zero _ _ _
            (by simp [Sof3Table.getKrogColumn, Sof3Table.numRows]) h] at h3
          cases h3
        · rw [criticalSaturationForward_eq_of_zero _ _ _
            (by simp [SgfnTable.getKrgColumn, SgfnTable.numRows]) h] at h4
          cases h4
    refine ⟨hfail, fun hw ho hg => ?_⟩
    obtain ⟨f, hf⟩ := hfail
    rw [hf, extractUnscaled_family2_failure self st idx tw tso tg f hfam1 htw htso htg hw ho hg
      hf]

/-- C5 at a family 1 deck whose Krw column starts with 0.1 and at a family 2
deck whose Krow column starts with 0.1: both extractions fail the assertion. -/
theorem extractUnscaled_first_row_positive_fails_witness :
    firstPositiveAt firstRowSwof.getKrwColumn 0 ∧
    extractUnscaled scenarioInfo firstRowFamily1 0 = .error .assertionFailure ∧
    firstPositiveAt firstRowSof3.getKrowColumn 0 ∧
    extractUnscaled scenarioInfo firstRowFamily2 0 = .error .assertionFailure := by
  have h1 : firstPositiveAt firstRowSwof.getKrwColumn 0 :=
    ⟨⟨1/10, by simp [SwofTable.getKrwColumn, firstRowSwof], by norm_num⟩,
      fun j hj => absurd hj (Nat.not_lt_zero j)⟩
  have h2 : firstPositiveAt firstRowSof3.getKrowColumn 0 :=
    ⟨⟨1/10, by simp [Sof3Table.getKrowColumn, firstRowSof3], by norm_num⟩,
      fun j hj => absurd hj (Nat.not_lt_zero j)⟩
  refine ⟨h1, ?_, h2, ?_⟩
  · exact ((extractUnscaled_first_row_positive_fails scenarioInfo firstRowFamily1 0).1
      firstRowSwof sampleSgof rfl rfl (Or.inl h1)).2
      (by simp [firstRowSwof]) (by simp [sampleSgof])
  · exact ((extractUnscaled_first_row_positive_fails scenarioInfo firstRowFamily2 0).2
      sampleSwfn firstRowSof3 sampleSgfn (Or.inl rfl) rfl rfl rfl (Or.inr (Or.inl h2))).2
      (by simp [sampleSwfn]) (by simp [firstRowSof3]) (by simp [sampleSgfn])

/-- C9 at a deck in which both families are populated: the result is the one
of the family 1 tables alone, with maxKrg = 0.9 from the SGOF table and not
0.6 from the SGFN table. -/
theorem extractUnscaled_family1_precedence_witness :
    sampleBothFamilies.getSwofTables ≠ [] ∧ sampleBothFamilies.getSgofTables ≠ [] ∧
    extractUnscaled scenarioInfo sampleBothFamilies 0 =
      extractUnscaled scenarioInfo sampleFamily1 0 ∧
    ∃ r, extractUnscaled scenarioInfo sampleBothFamilies 0 = .ok r ∧ r.maxKrg = 9/10 := by
  have h := extractUnscaled_family1_precedence scenarioInfo sampleBothFamilies 0 [] [] []
    (by simp [sampleBothFamilies]) (by simp [sampleBothFamilies])
  have h' : extractUnscaled scenarioInfo sampleBothFamilies 0 =
      extractUnscaled scenarioInfo sampleFamily1 0 := h
  have hr := h'.trans (extractUnscaled_sampleFamily1 scenarioInfo)
  exact ⟨by simp [sampleBothFamilies], by simp [sampleBothFamilies], h', _, hr, by norm_num⟩

/-! ## Idempotence of the override applier -/

/-- Inside the array the override value does not depend on the default. -/
theorem overrideValue_idem (t : Scalar) (propData : Option (List Scalar)) (c : Int)
    (h : arrayCovers propData c) :
    overrideValue (overrideValue t propData c) propData c = overrideValue t propData c := by
  cases propData with
  | none => rfl
  | some data =>
    obtain ⟨h0, h1⟩ := h
    have hlt : c.toNat < data.length := by omega
    simp [overrideValue, List.getD, List.getElem?_eq_getElem hlt]

/-- C11: `extractScaled` is idempotent: at a cell index in range it returns a
record, and applied to that record with the same arrays and cell it returns
the same record, field for field. -/
theorem extractScaled_idempotent (e : EclEpsScalingPointsInfo) (p : EclEpsGridProperties)
    (c : Int) (h : cellInRange p c) :
    ∃ r, extractScaled e p c = .ok r ∧ extractScaled r p c = .ok r := by
  refine ⟨_, extractScaled_eq e p c h, ?_⟩
  rw [extractScaled_eq _ p c h]
  obtain ⟨h1, h2, h3, h4, h5, h6, h7, h8, h9, h10, h11, h12, h13⟩ := h
  simp only [overrideValue_idem _ _ _ h1, overrideValue_idem _ _ _ h2,
    overrideValue_idem _ _ _ h3, overrideValue_idem _ _ _ h4, overrideValue_idem _ _ _ h5,
    overrideValue_idem _ _ _ h6, overrideValue_idem _ _ _ h7, overrideValue_idem _ _ _ h8,
    overrideValue_idem _ _ _ h9, overrideValue_idem _ _ _ h10, overrideValue_idem _ _ _ h11,
    overrideValue_idem _ _ _ h12, overrideValue_idem _ _ _ h13]

/-- C11 at the scenario record with the SWCR and KRO arrays present, cell 1:
the second application returns the record of the first. -/
theorem extractScaled_idempotent_witness :
    cellInRange sampleOverrides 1 ∧
    ∃ r, extractScaled scenarioInfo sampleOverrides 1 = .ok r ∧
      extractScaled r sampleOverrides 1 = .ok r ∧ r.Swcr = 35/100 :=
  have hin : cellInRange sampleOverrides 1 := by
    simp [cellInRange, arrayCovers, sampleOverrides, noOverrides]
  ⟨hin, by
    obtain ⟨r, h1, h2⟩ := extractScaled_idempotent scenarioInfo sampleOverrides 1 hin
    refine ⟨r, h1, h2, ?_⟩
    rw [extractScaled_eq _ _ _ hin] at h1
    cases h1
    simp [overrideValue, sampleOverrides, noOverrides]⟩

/-! ## Searches of the end-point extractor: last positive row, no positive row -/

/-- The backward search entered above the last positive row `j` ends at row
`j`: when `j` is the last row the assertion fails, otherwise the result is
`1 -` the saturation of row `j + 1`. -/
theorem criticalSaturationBackward_of_lastPositiveAt (krColumn satColumn : List Scalar)
    (numRows : Nat) (target : Scalar) (hk : krColumn.length = numRows) (j : Nat)
    (hlast : lastPositiveAt krColumn j) :
    ∀ n, j < n → n ≤ numRows →
      criticalSaturationBackward krColumn satColumn numRows target n =
        if j + 1 < numRows then
          match satColumn[j + 1]? with
          | none => .error .undefinedBehaviour
          | some sat => .ok (1 - sat)
        else .error .assertionFailure := by
  obtain ⟨⟨k, hkj, hkpos⟩, hafter⟩ := hlast
  intro n
  induction n with
  | zero => intro h; omega
  | succ n ih =>
    intro hjn hn
    rw [criticalSaturationBackward]
    by_cases heq : n = j
    · subst heq
      simp only [hkj, hkpos, if_true]
      by_cases hlt : n + 1 < numRows
      · have hlt2 : (n : Int) < (numRows : Int) - 1 := by omega
        simp only [hlt, hlt2, if_true]
      · have hlt2 : ¬ (n : Int) < (numRows : Int) - 1 := by omega
        simp only [hlt, hlt2, if_false]
    · have hlt : n < krColumn.length := by omega
      have hx := hafter n (by omega) _ (List.getElem?_eq_getElem hlt)
      simp only [List.getElem?_eq_getElem hlt]
      rw [if_neg (not_lt.mpr hx)]
      exact ih (by omega) (by omega)

/-- The backward search over columns with `numRows` entries whose last
positive entry is at a row `j` before the last row yields `1 -` the
saturation of row `j + 1`, whatever the target held before. -/
theorem criticalSaturationBackward_eq_of_inner (krColumn satColumn : List Scalar)
    (numRows : Nat) (hk : krColumn.length = numRows) (hs : satColumn.length = numRows)
    (j : Nat) (hj : j + 1 < numRows) (hlast : lastPositiveAt krColumn j) :
    ∃ sat, satColumn[j + 1]? = some sat ∧
      ∀ target,
        criticalSaturationBackward krColumn satColumn numRows target numRows
          = .ok (1 - sat) := by
  have hlt : j + 1 < satColumn.length := by omega
  refine ⟨satColumn[j + 1], List.getElem?_eq_getElem hlt, fun target => ?_⟩
  rw [criticalSaturationBackward_of_lastPositiveAt krColumn satColumn numRows target hk j hlast
    numRows (by omega) (le_refl _)]
  simp [hj, List.getElem?_eq_getElem hlt]

/-- The backward search over a column whose last positive entry is in the last
row fails its assertion. -/
theorem criticalSaturationBackward_eq_of_last (krColumn satColumn : List Scalar)
    (numRows : Nat) (hk : krColumn.length = numRows) (j : Nat) (hj : j + 1 = numRows)
    (hlast : lastPositiveAt krColumn j) (target : Scalar) :
    criticalSaturationBackward krColumn satColumn numRows target numRows
      = .error .assertionFailure := by
  rw [criticalSaturationBackward_of_lastPositiveAt krColumn satColumn numRows target hk j hlast
    numRows (by omega) (le_refl _)]
  have : ¬ j + 1 < numRows := by omega
  simp [this]

/-- The forward search over a column without positive entry leaves the target
as it was. -/
theorem criticalSaturationForward_of_noPositive (krColumn satColumn : List Scalar)
    (numRows : Nat) (target : Scalar) (hk : krColumn.length = numRows)
    (hno : noPositive krColumn) :
    ∀ (d rowIdx : Nat), numRows - rowIdx = d →
      criticalSaturationForward krColumn satColumn numRows target rowIdx = .ok target := by
  intro d
  induction d with
  | zero =>
    intro rowIdx h
    rw [criticalSaturationForward]
    have : ¬ rowIdx < numRows := by omega
    simp [this]
  | succ d ih =>
    intro rowIdx h
    rw [criticalSaturationForward]
    have hlt : rowIdx < numRows := by omega
    have hlt1 : rowIdx < krColumn.length := by omega
    have hx : krColumn[rowIdx] ≤ 0 := hno _ (List.getElem_mem _)
    simp only [hlt, if_true, List.getElem?_eq_getElem hlt1]
    rw [if_neg (not_lt.mpr hx)]
    exact ih (rowIdx + 1) (by omega)

/-- The backward search over a column without positive entry leaves the target
as it was. -/
theorem criticalSaturationBackward_of_noPositive (krColumn satColumn : List Scalar)
    (numRows : Nat) (target : Scalar) (hno : noPositive krColumn) :
    ∀ n, n ≤ krColumn.length →
      criticalSaturationBackward krColumn satColumn numRows target n = .ok target := by
  intro n
  induction n with
  | zero => intro _; rfl
  | succ n ih =>
    intro hn
    rw [criticalSaturationBackward]
    have hlt : n < krColumn.length := by omega
    have hx : krColumn[n] ≤ 0 := hno _ (List.getElem_mem _)
    simp only [List.getElem?_eq_getElem hlt]
    rw [if_neg (not_lt.mpr hx)]
    exact ih (by omega)

/-! ## Monotone columns -/

/-- In a non-decreasing column an earlier entry is at most a later one. -/
theorem nonDecreasing_getElem? (column : List Scalar) (h : nonDecreasing column)
    (i j : Nat) (x y : Scalar) (hij : i ≤ j) (hx : column[i]? = some x)
    (hy : column[j]? = some y) : x ≤ y := by
  rcases Nat.eq_or_lt_of_le hij with heq | hlt
  · subst heq
    rw [hx] at hy
    exact le_of_eq (Option.some.inj hy)
  · obtain ⟨hi, rfl⟩ := List.getElem?_eq_some.mp hx
    obtain ⟨hj, rfl⟩ := List.getElem?_eq_some.mp hy
    exact List.pairwise_iff_getElem.mp h i j hi hj hlt

/-- In a non-increasing column a later entry is at most an earlier one. -/
theorem nonIncreasing_getElem? (column : List Scalar) (h : nonIncreasing column)
    (i j : Nat) (x y : Scalar) (hij : i ≤ j) (hx : column[i]? = some x)
    (hy : column[j]? = some y) : y ≤ x := by
  rcases Nat.eq_or_lt_of_le hij with heq | hlt
  · subst heq
    rw [hx] at hy
    exact le_of_eq (Option.some.inj hy).symm
  · obtain ⟨hi, rfl⟩ := List.getElem?_eq_some.mp hx
    obtain ⟨hj, rfl⟩ := List.getElem?_eq_some.mp hy
    exact List.pairwise_iff_getElem.mp h i j hi hj hlt

/-- The last entry of a non-decreasing column is a maximum of the column. -/
theorem le_getLast_of_nonDecreasing (column : List Scalar) (h : nonDecreasing column)
    (m : Scalar) (hm : column.getLast? = some m) : ∀ x ∈ column, x ≤ m := by
  intro x hx
  obtain ⟨n, hn⟩ := List.getElem?_of_mem hx
  rw [List.getLast?_eq_getElem?] at hm
  have hlt : n < column.length := (List.getElem?_eq_some.mp hn).1
  exact nonDecreasing_getElem? column h n (column.length - 1) x m (by omega) hn hm

/-- The first entry of a non-increasing column is a maximum of the column. -/
theorem le_head_of_nonIncreasing (column : List Scalar) (h : nonIncreasing column)
    (m : Scalar) (hm : column.head? = some m) : ∀ x ∈ column, x ≤ m := by
  intro x hx
  obtain ⟨n, hn⟩ := List.getElem?_of_mem hx
  rw [List.head?_eq_getElem?] at hm
  exact nonIncreasing_getElem? column h 0 n m x (Nat.zero_le n) hm hn

/-- The first entry of a non-decreasing column is at most every entry. -/
theorem head_le_of_nonDecreasing (column : List Scalar) (h : nonDecreasing column)
    (m : Scalar) (hm : column.head? = some m) (n : Nat) (x : Scalar)
    (hx : column[n]? = some x) : m ≤ x := by
  rw [List.head?_eq_getElem?] at hm
  exact nonDecreasing_getElem? column h 0 n m x (Nat.zero_le n) hm hx

/-- Every entry of a non-decreasing column is at most the last entry. -/
theorem le_getLast_of_nonDecreasing_getElem? (column : List Scalar)
    (h : nonDecreasing column) (m : Scalar) (hm : column.getLast? = some m) (n : Nat)
    (x : Scalar) (hx : column[n]? = some x) : x ≤ m := by
  rw [List.getLast?_eq_getElem?] at hm
  have hlt : n < column.length := (List.getElem?_eq_some.mp hx).1
  exact nonDecreasing_getElem? column h n (column.length - 1) x m (by omega) hx hm

/-! ## Searches that do not fail -/

/-- A forward search that passes returns a value. -/
theorem criticalSaturationForward_of_passes (krColumn satColumn : List Scalar)
    (numRows : Nat) (hk : krColumn.length = numRows) (hs : satColumn.length = numRows)
    (hpass : forwardSearchPasses krColumn) (target : Scalar) :
    ∃ v, criticalSaturationForward krColumn satColumn numRows target 0 = .ok v := by
  rcases hpass with hno | ⟨i, hi, hfirst⟩
  · exact ⟨target, criticalSaturationForward_of_noPositive _ _ _ _ hk hno _ _ rfl⟩
  · obtain ⟨sat, -, hloop⟩ :=
      criticalSaturationForward_eq_of_pos krColumn satColumn numRows hk hs i hi hfirst
    exact ⟨sat, hloop target⟩

/-- A backward search that passes returns a value. -/
theorem criticalSaturationBackward_of_passes (krColumn satColumn : List Scalar)
    (numRows : Nat) (hk : krColumn.length = numRows) (hs : satColumn.length = numRows)
    (hpass : backwardSearchPasses krColumn) (target : Scalar) :
    ∃ v, criticalSaturationBackward krColumn satColumn numRows target numRows = .ok v := by
  rcases hpass with hno | ⟨j, hj, hlast⟩
  · exact ⟨target, criticalSaturationBackward_of_noPositive _ _ _ _ hno _ (by omega)⟩
  · obtain ⟨sat, -, hloop⟩ :=
      criticalSaturationBackward_eq_of_inner krColumn satColumn numRows hk hs j (by omega) hlast
    exact ⟨1 - sat, hloop target⟩

/-- On the family 1 path with non-empty tables, `extractUnscaled` returns a
record when none of the four searches fails. -/
theorem extractUnscaled_family1_of_passes (self : EclEpsScalingPointsInfo) (st : EclipseState)
    (idx : Int) (tw : SwofTable) (tg : SgofTable)
    (htw : vectorAt st.getSwofTables idx = .ok tw)
    (htg : vectorAt st.getSgofTables idx = .ok tg)
    (hw : tw.rows ≠ []) (hg : tg.rows ≠ [])
    (h1 : forwardSearchPasses tw.getKrwColumn) (h2 : backwardSearchPasses tw.getKrowColumn)
    (h3 : forwardSearchPasses tg.getKrgColumn) (h4 : backwardSearchPasses tg.getKrogColumn) :
    ∃ r, extractUnscaled self st idx = .ok r := by
  obtain ⟨fw, lw, hfw, hlw⟩ := exists_head_getLast _ hw
  obtain ⟨fg, lg, hfg, hlg⟩ := exists_head_getLast _ hg
  obtain ⟨a, ha⟩ := criticalSaturationForward_of_passes tw.getKrwColumn tw.getSwColumn
    tw.numRows (by simp [SwofTable.getKrwColumn, SwofTable.numRows])
    (by simp [SwofTable.getSwColumn, SwofTable.numRows]) h1 self.Swcr
  obtain ⟨b, hb⟩ := criticalSaturationBackward_of_passes tw.getKrowColumn tw.getSwColumn
    tw.numRows (by simp [SwofTable.getKrowColumn, SwofTable.numRows])
    (by simp [SwofTable.getSwColumn, SwofTable.numRows]) h2 self.Sowcr
  obtain ⟨c, hc⟩ := criticalSaturationForward_of_passes tg.getKrgColumn tg.getSgColumn
    tg.numRows (by simp [SgofTable.getKrgColumn, SgofTable.numRows])
    (by simp [SgofTable.getSgColumn, SgofTable.numRows]) h3 self.Sgcr
  obtain ⟨d, hd⟩ := criticalSaturationBackward_of_passes tg.getKrogColumn tg.getSgColumn
    tg.numRows (by simp [SgofTable.getKrogColumn, SgofTable.numRows])
    (by simp [SgofTable.getSgColumn, SgofTable.numRows]) h4 self.Sogcr
  rw [extractUnscaled_family1_eq self st idx tw tg fw lw fg lg htw htg hfw hlw hfg hlg,
    ha, hb, hc, hd]
  exact ⟨_, rfl⟩

/-! ## Family 1: boundary saturations, critical oil saturations, maxima -/

/-- C12: on the family 1 path with non-empty tables the boundary reads are
inside the columns, so that `extractUnscaled` fails only by a failed
assertion, and every record it returns has Swl and Swu equal to the first and
the last entry of the Sw column, Sgl and Sgu equal to the first and the last
entry of the Sg column, and Sowl = 1 - Swu, Sowu = 1 - Swl, Sogl = 1 - Sgu,
Sogu = 1 - Sgl. -/
theorem extractUnscaled_family1_boundary_saturations (self : EclEpsScalingPointsInfo)
    (st : EclipseState) (idx : Int) (tw : SwofTable) (tg : SgofTable)
    (htw : vectorAt st.getSwofTables idx = .ok tw)
    (htg : vectorAt st.getSgofTables idx = .ok tg)
    (hw : tw.rows ≠ []) (hg : tg.rows ≠ []) :
    (∀ f, extractUnscaled self st idx = .error f → f = .assertionFailure) ∧
    ∀ r, extractUnscaled self st idx = .ok r →
      tw.getSwColumn.head? = some r.Swl ∧ tw.getSwColumn.getLast? = some r.Swu ∧
      tg.getSgColumn.head? = some r.Sgl ∧ tg.getSgColumn.getLast? = some r.Sgu ∧
      r.Sowl = 1 - r.Swu ∧ r.Sowu = 1 - r.Swl ∧
      r.Sogl = 1 - r.Sgu ∧ r.Sogu = 1 - r.Sgl := by
  refine ⟨fun f hf => extractUnscaled_family1_failure self st idx tw tg f htw htg hw hg hf,
    fun r hr => ?_⟩
  obtain ⟨fw, lw, fg, lg, swcr, sowcr, sgcr, sogcr, hfw, hlw, hfg, hlg, -, -, -, -, rfl⟩ :=
    extractUnscaled_family1_ok self st idx tw tg r htw htg hr
  simp [SwofTable.getSwColumn, SgofTable.getSgColumn, List.head?_map, List.getLast?_map,
    hfw, hlw, hfg, hlg]

/-- C12 at the sample tables, Sw = [0.2, 0.4, 0.6, 0.8, 1.0] and
Sg = [0, 0.1, 0.4, 0.8]: the extraction returns a record with Swl = 0.2,
Swu = 1, Sgl = 0, Sgu = 0.8, Sowl = 0, Sowu = 0.8, Sogl = 0.2 and Sogu = 1. -/
theorem extractUnscaled_family1_boundary_saturations_witness :
    sampleSwof.rows ≠ [] ∧ sampleSgof.rows ≠ [] ∧
    ∃ r, extractUnscaled scenarioInfo sampleFamily1 0 = .ok r ∧
      r.Swl = 2/10 ∧ r.Swu = 1 ∧ r.Sgl = 0 ∧ r.Sgu = 8/10 ∧
      r.Sowl = 0 ∧ r.Sowu = 8/10 ∧ r.Sogl = 2/10 ∧ r.Sogu = 1 := by
  have hw : sampleSwof.rows ≠ [] := by simp [sampleSwof]
  have hg : sampleSgof.rows ≠ [] := by simp [sampleSgof]
  obtain ⟨a1, a2, a3, a4, a5, a6, a7, a8⟩ :=
    (extractUnscaled_family1_boundary_saturations scenarioInfo sampleFamily1 0 sampleSwof
      sampleSgof rfl rfl hw hg).2 _ (extractUnscaled_sampleFamily1 scenarioInfo)
  refine ⟨hw, hg, _, extractUnscaled_sampleFamily1 scenarioInfo, ?_⟩
  norm_num

/-- C14: on the family 1 path, let `j` be the last row of the SWOF table whose
Krow entry is strictly positive.  If `j` is not the last row, the search yields
1 - Sw of row `j + 1` and every record that `extractUnscaled` returns has Sowcr
equal to it; if `j` is the last row, `extractUnscaled` fails, by the failed
assertion when the tables are non-empty.  The same holds for the SGOF table
with Krog, Sg and Sogcr. -/
theorem extractUnscaled_family1_critical_oil (self : EclEpsScalingPointsInfo)
    (st : EclipseState) (idx : Int) (tw : SwofTable) (tg : SgofTable)
    (htw : vectorAt st.getSwofTables idx = .ok tw)
    (htg : vectorAt st.getSgofTables idx = .ok tg) :
    (∀ j, lastPositiveAt tw.getKrowColumn j →
      (j + 1 < tw.numRows →
        ∃ sw, tw.getSwColumn[j + 1]? = some sw ∧
          (∀ target, criticalSaturationBackward tw.getKrowColumn tw.getSwColumn tw.numRows
            target tw.numRows = .ok (1 - sw)) ∧
          ∀ r, extractUnscaled self st idx = .ok r → r.Sowcr = 1 - sw) ∧
      (j + 1 = tw.numRows →
        (∃ f, extractUnscaled self st idx = .error f) ∧
        (tw.rows ≠ [] → tg.rows ≠ [] →
          extractUnscaled self st idx = .error .assertionFailure))) ∧
    (∀ j, lastPositiveAt tg.getKrogColumn j →
      (j + 1 < tg.numRows →
        ∃ sg, tg.getSgColumn[j + 1]? = some sg ∧
          (∀ target, criticalSaturationBackward tg.getKrogColumn tg.getSgColumn tg.numRows
            target tg.numRows = .ok (1 - sg)) ∧
          ∀ r, extractUnscaled self st idx = .ok r → r.Sogcr = 1 - sg) ∧
      (j + 1 = tg.numRows →
        (∃ f, extractUnscaled self st idx = .error f) ∧
        (tw.rows ≠ [] → tg.rows ≠ [] →
          extractUnscaled self st idx = .error .assertionFailure))) := by
  have hkw : tw.getKrowColumn.length = tw.numRows := by
    simp [SwofTable.getKrowColumn, SwofTable.numRows]
  have hsw : tw.getSwColumn.length = tw.numRows := by
    simp [SwofTable.getSwColumn, SwofTable.numRows]
  have hkg : tg.getKrogColumn.length = tg.numRows := by
    simp [SgofTable.getKrogColumn, SgofTable.numRows]
  have hsg : tg.getSgColumn.length = tg.numRows := by
    simp [SgofTable.getSgColumn, SgofTable.numRows]
  have hfails : (∀ r, extractUnscaled self st idx ≠ .ok r) →
      (∃ f, extractUnscaled self st idx = .error f) ∧
      (tw.rows ≠ [] → tg.rows ≠ [] →
        extractUnscaled self st idx = .error .assertionFailure) := by
    intro hno
    have hfail : ∃ f, extractUnscaled self st idx = .error f := by
      cases hres : extractUnscaled self st idx with
      | error f => exact ⟨f, rfl⟩
      | ok r => exact absurd hres (hno r)
    refine ⟨hfail, fun hw hg => ?_⟩
    obtain ⟨f, hf⟩ := hfail
    rw [hf, extractUnscaled_family1_failure self st idx tw tg f htw htg hw hg hf]
  constructor
  · intro j hlast
    constructor
    · intro hj
      obtain ⟨sw, hsw0, hloop⟩ := criticalSaturationBackward_eq_of_inner tw.getKrowColumn
        tw.getSwColumn tw.numRows hkw hsw j hj hlast
      refine ⟨sw, hsw0, hloop, fun r hr => ?_⟩
      obtain ⟨fw, lw, fg, lg, swcr, sowcr, sgcr, sogcr, -, -, -, -, -, h2, -, -, rfl⟩ :=
        extractUnscaled_family1_ok self st idx tw tg r htw htg hr
      rw [hloop] at h2
      exact (Except.ok.inj h2).symm
    · intro hj
      refine hfails (fun r hr => ?_)
      obtain ⟨fw, lw, fg, lg, swcr, sowcr, sgcr, sogcr, -, -, -, -, -, h2, -, -, -⟩ :=
        extractUnscaled_family1_ok self st idx tw tg r htw htg hr
      rw [criticalSaturationBackward_eq_of_last _ _ _ hkw j hj hlast] at h2
      cases h2
  · intro j hlast
    constructor
    · intro hj
      obtain ⟨sg, hsg0, hloop⟩ := criticalSaturationBackward_eq_of_inner tg.getKrogColumn
        tg.getSgColumn tg.numRows hkg hsg j hj hlast
      refine ⟨sg, hsg0, hloop, fun r hr => ?_⟩
      obtain ⟨fw, lw, fg, lg, swcr, sowcr, sgcr, sogcr, -, -, -, -, -, -, -, h4, rfl⟩ :=
        extractUnscaled_family1_ok self st idx tw tg r htw htg hr
      rw [hloop] at h4
      exact (Except.ok.inj h4).symm
    · intro hj
      refine hfails (fun r hr => ?_)
      obtain ⟨fw, lw, fg, lg, swcr, sowcr, sgcr, sogcr, -, -, -, -, -, -, -, h4, -⟩ :=
        extractUnscaled_family1_ok self st idx tw tg r htw htg hr
      rw [criticalSaturationBackward_eq_of_last _ _ _ hkg j hj hlast] at h4
      cases h4

/-- The Krow column of the sample oil-water table has its last positive entry
in row 2. -/
theorem lastPositiveAt_sampleSwof : lastPositiveAt sampleSwof.getKrowColumn 2 := by
  refine ⟨⟨2/10, by simp [SwofTable.getKrowColumn, sampleSwof], by norm_num⟩, ?_⟩
  intro m hm k hk
  have hlt : m < 5 := by
    by_contra hcon
    rw [List.getElem?_eq_none (by simp [SwofTable.getKrowColumn, sampleSwof]; omega)] at hk
    cases hk
  interval_cases m <;> simp [SwofTable.getKrowColumn, sampleSwof] at hk <;> simp [← hk]

/-- C14 at the sample table, Krow = [0.9, 0.5, 0.2, 0, 0] with Sw of row 3
equal to 0.8: the extraction returns a record with Sowcr = 0.2; and at a table
whose Krow = [0.9, 0.5, 0.2] is positive in the last row the extraction fails
the assertion. -/
theorem extractUnscaled_family1_critical_oil_witness :
    lastPositiveAt sampleSwof.getKrowColumn 2 ∧
    (∃ r, extractUnscaled scenarioInfo sampleFamily1 0 = .ok r ∧ r.Sowcr = 2/10) ∧
    lastPositiveAt lastRowSwof.getKrowColumn 2 ∧
    extractUnscaled scenarioInfo lastRowFamily1 0 = .error .assertionFailure := by
  have hlast : lastPositiveAt lastRowSwof.getKrowColumn 2 := by
    refine ⟨⟨2/10, by simp [SwofTable.getKrowColumn, lastRowSwof], by norm_num⟩, ?_⟩
    intro m hm k hk
    rw [List.getElem?_eq_none (by simp [SwofTable.getKrowColumn, lastRowSwof]; omega)] at hk
    cases hk
  refine ⟨lastPositiveAt_sampleSwof, ?_, hlast, ?_⟩
  · obtain ⟨sw, hsw, -, hall⟩ :=
      ((extractUnscaled_family1_critical_oil scenarioInfo sampleFamily1 0 sampleSwof sampleSgof
        rfl rfl).1 2 lastPositiveAt_sampleSwof).1 (by decide)
    have h8 : (8/10 : Scalar) = sw := by
      simpa [SwofTable.getSwColumn, sampleSwof] using hsw
    refine ⟨_, extractUnscaled_sampleFamily1 scenarioInfo, ?_⟩
    rw [hall _ (extractUnscaled_sampleFamily1 scenarioInfo), ← h8]
    norm_num
  · exact (((extractUnscaled_family1_critical_oil scenarioInfo lastRowFamily1 0 lastRowSwof
      sampleSgof rfl rfl).1 2 hlast).2 (by decide)).2
      (by simp [lastRowSwof]) (by simp [sampleSgof])

/-- C17: on the family 1 path every record that `extractUnscaled` returns has
each maximum equal to the boundary-row value of its column: maxKrw and maxKrg
the last Krw and Krg, maxKrow and maxKrog the first Krow and Krog, maxPcow the
first Pcow and maxPcgo the last Pcog; when Krw, Krg and Pcog are
non-decreasing and Krow, Krog and Pcow are non-increasing, each maximum is at
least every entry of its column. -/
theorem extractUnscaled_family1_maxima (self : EclEpsScalingPointsInfo)
    (st : EclipseState) (idx : Int) (tw : SwofTable) (tg : SgofTable)
    (r : EclEpsScalingPointsInfo)
    (htw : vectorAt st.getSwofTables idx = .ok tw)
    (htg : vectorAt st.getSgofTables idx = .ok tg)
    (hKrw : nonDecreasing tw.getKrwColumn) (hKrg : nonDecreasing tg.getKrgColumn)
    (hKrow : nonIncreasing tw.getKrowColumn) (hKrog : nonIncreasing tg.getKrogColumn)
    (hPcow : nonIncreasing tw.getPcowColumn) (hPcog : nonDecreasing tg.getPcogColumn)
    (hr : extractUnscaled self st idx = .ok r) :
    (tw.getKrwColumn.getLast? = some r.maxKrw ∧ ∀ x ∈ tw.getKrwColumn, x ≤ r.maxKrw) ∧
    (tw.getKrowColumn.head? = some r.maxKrow ∧ ∀ x ∈ tw.getKrowColumn, x ≤ r.maxKrow) ∧
    (tg.getKrgColumn.getLast? = some r.maxKrg ∧ ∀ x ∈ tg.getKrgColumn, x ≤ r.maxKrg) ∧
    (tg.getKrogColumn.head? = some r.maxKrog ∧ ∀ x ∈ tg.getKrogColumn, x ≤ r.maxKrog) ∧
    (tw.getPcowColumn.head? = some r.maxPcow ∧ ∀ x ∈ tw.getPcowColumn, x ≤ r.maxPcow) ∧
    (tg.getPcogColumn.getLast? = some r.maxPcgo ∧ ∀ x ∈ tg.getPcogColumn, x ≤ r.maxPcgo) := by
  obtain ⟨fw, lw, fg, lg, swcr, sowcr, sgcr, sogcr, hfw, hlw, hfg, hlg, -, -, -, -, rfl⟩ :=
    extractUnscaled_family1_ok self st idx tw tg r htw htg hr
  have e1 : tw.getKrwColumn.getLast? = some lw.Krw := by
    simp [SwofTable.getKrwColumn, List.getLast?_map, hlw]
  have e2 : tw.getKrowColumn.head? = some fw.Krow := by
    simp [SwofTable.getKrowColumn, List.head?_map, hfw]
  have e3 : tg.getKrgColumn.getLast? = some lg.Krg := by
    simp [SgofTable.getKrgColumn, List.getLast?_map, hlg]
  have e4 : tg.getKrogColumn.head? = some fg.Krog := by
    simp [SgofTable.getKrogColumn, List.head?_map, hfg]
  have e5 : tw.getPcowColumn.head? = some fw.Pcow := by
    simp [SwofTable.getPcowColumn, List.head?_map, hfw]
  have e6 : tg.getPcogColumn.getLast? = some lg.Pcog := by
    simp [SgofTable.getPcogColumn, List.getLast?_map, hlg]
  exact ⟨⟨e1, le_getLast_of_nonDecreasing _ hKrw _ e1⟩,
    ⟨e2, le_head_of_nonIncreasing _ hKrow _ e2⟩,
    ⟨e3, le_getLast_of_nonDecreasing _ hKrg _ e3⟩,
    ⟨e4, le_head_of_nonIncreasing _ hKrog _ e4⟩,
    ⟨e5, le_head_of_nonIncreasing _ hPcow _ e5⟩,
    ⟨e6, le_getLast_of_nonDecreasing _ hPcog _ e6⟩⟩

/-- C17 at the sample tables, whose columns have the conventional orientation:
the extraction returns a record with maxKrw = 0.6, maxKrow = 0.9, maxKrg = 0.9,
maxKrog = 0.9, maxPcow = 4 and maxPcgo = 1, and 0.6 bounds the Krw column. -/
theorem extractUnscaled_family1_maxima_witness :
    nonDecreasing sampleSwof.getKrwColumn ∧ nonDecreasing sampleSgof.getKrgColumn ∧
    nonIncreasing sampleSwof.getKrowColumn ∧ nonIncreasing sampleSgof.getKrogColumn ∧
    nonIncreasing sampleSwof.getPcowColumn ∧ nonDecreasing sampleSgof.getPcogColumn ∧
    ∃ r, extractUnscaled scenarioInfo sampleFamily1 0 = .ok r ∧
      r.maxKrw = 6/10 ∧ r.maxKrow = 9/10 ∧ r.maxKrg = 9/10 ∧ r.maxKrog = 9/10 ∧
      r.maxPcow = 4 ∧ r.maxPcgo = 1 ∧ ∀ x ∈ sampleSwof.getKrwColumn, x ≤ r.maxKrw := by
  have h1 : nonDecreasing sampleSwof.getKrwColumn := by
    simp [nonDecreasing, SwofTable.getKrwColumn, sampleSwof]; norm_num
  have h2 : nonDecreasing sampleSgof.getKrgColumn := by
    simp [nonDecreasing, SgofTable.getKrgColumn, sampleSgof]; norm_num
  have h3 : nonIncreasing sampleSwof.getKrowColumn := by
    simp [nonIncreasing, SwofTable.getKrowColumn, sampleSwof]; norm_num
  have h4 : nonIncreasing sampleSgof.getKrogColumn := by
    simp [nonIncreasing, SgofTable.getKrogColumn, sampleSgof]; norm_num
  have h5 : nonIncreasing sampleSwof.getPcowColumn := by
    simp [nonIncreasing, SwofTable.getPcowColumn, sampleSwof]; norm_num
  have h6 : nonDecreasing sampleSgof.getPcogColumn := by
    simp [nonDecreasing, SgofTable.getPcogColumn, sampleSgof]; norm_num
  have h := extractUnscaled_family1_maxima scenarioInfo sampleFamily1 0 sampleSwof sampleSgof _
    rfl rfl h1 h2 h3 h4 h5 h6 (extractUnscaled_sampleFamily1 scenarioInfo)
  refine ⟨h1, h2, h3, h4, h5, h6, _, extractUnscaled_sampleFamily1 scenarioInfo, ?_, ?_, ?_, ?_,
    ?_, ?_, h.1.2⟩ <;> norm_num

/-- C18: on the family 1 path, when the Sw and Sg columns are non-decreasing
and each of the four critical-saturation searches selects a row (the column
has a positive entry and the assertion holds), `extractUnscaled` returns a
record and the record satisfies the ordering of the data model:
Swl <= Swcr <= Swu, Sgl <= Sgcr <= Sgu, Sowl <= Sowcr <= Sowu and
Sogl <= Sogcr <= Sogu. -/
theorem extractUnscaled_family1_ordered (self : EclEpsScalingPointsInfo)
    (st : EclipseState) (idx : Int) (tw : SwofTable) (tg : SgofTable)
    (htw : vectorAt st.getSwofTables idx = .ok tw)
    (htg : vectorAt st.getSgofTables idx = .ok tg)
    (hSw : nonDecreasing tw.getSwColumn) (hSg : nonDecreasing tg.getSgColumn)
    (h1 : forwardSearchSelects tw.getKrwColumn) (h2 : backwardSearchSelects tw.getKrowColumn)
    (h3 : forwardSearchSelects tg.getKrgColumn) (h4 : backwardSearchSelects tg.getKrogColumn) :
    ∃ r, extractUnscaled self st idx = .ok r ∧ orderedEndpoints r := by
  have hkw : tw.getKrwColumn.length = tw.numRows := by
    simp [SwofTable.getKrwColumn, SwofTable.numRows]
  have hkow : tw.getKrowColumn.length = tw.numRows := by
    simp [SwofTable.getKrowColumn, SwofTable.numRows]
  have hsw : tw.getSwColumn.length = tw.numRows := by
    simp [SwofTable.getSwColumn, SwofTable.numRows]
  have hkg : tg.getKrgColumn.length = tg.numRows := by
    simp [SgofTable.getKrgColumn, SgofTable.numRows]
  have hkog : tg.getKrogColumn.length = tg.numRows := by
    simp [SgofTable.getKrogColumn, SgofTable.numRows]
  have hsg : tg.getSgColumn.length = tg.numRows := by
    simp [SgofTable.getSgColumn, SgofTable.numRows]
  obtain ⟨j2, hj2, hl2⟩ := h2
  obtain ⟨j4, hj4, hl4⟩ := h4
  have hw : tw.rows ≠ [] := by
    intro hnil
    simp [SwofTable.getKrowColumn, hnil] at hj2
  have hg : tg.rows ≠ [] := by
    intro hnil
    simp [SgofTable.getKrogColumn, hnil] at hj4
  obtain ⟨r, hr⟩ := extractUnscaled_family1_of_passes self st idx tw tg htw htg hw hg
    (Or.inr h1) (Or.inr ⟨j2, hj2, hl2⟩) (Or.inr h3) (Or.inr ⟨j4, hj4, hl4⟩)
  obtain ⟨i1, hi1, hf1⟩ := h1
  obtain ⟨i3, hi3, hf3⟩ := h3
  refine ⟨r, hr, ?_⟩
  obtain ⟨fw, lw, fg, lg, swcr, sowcr, sgcr, sogcr, hfw, hlw, hfg, hlg, e1, e2, e3, e4, rfl⟩ :=
    extractUnscaled_family1_ok self st idx tw tg r htw htg hr
  have hhw : tw.getSwColumn.head? = some fw.Sw := by
    simp [SwofTable.getSwColumn, List.head?_map, hfw]
  have hlw' : tw.getSwColumn.getLast? = some lw.Sw := by
    simp [SwofTable.getSwColumn, List.getLast?_map, hlw]
  have hhg : tg.getSgColumn.head? = some fg.Sg := by
    simp [SgofTable.getSgColumn, List.head?_map, hfg]
  have hlg' : tg.getSgColumn.getLast? = some lg.Sg := by
    simp [SgofTable.getSgColumn, List.getLast?_map, hlg]
  obtain ⟨s1, hs1, hloop1⟩ := criticalSaturationForward_eq_of_pos tw.getKrwColumn
    tw.getSwColumn tw.numRows hkw hsw i1 hi1 hf1
  obtain ⟨s2, hs2, hloop2⟩ := criticalSaturationBackward_eq_of_inner tw.getKrowColumn
    tw.getSwColumn tw.numRows hkow hsw j2 (by omega) hl2
  obtain ⟨s3, hs3, hloop3⟩ := criticalSaturationForward_eq_of_pos tg.getKrgColumn
    tg.getSgColumn tg.numRows hkg hsg i3 hi3 hf3
  obtain ⟨s4, hs4, hloop4⟩ := criticalSaturationBackward_eq_of_inner tg.getKrogColumn
    tg.getSgColumn tg.numRows hkog hsg j4 (by omega) hl4
  rw [hloop1] at e1
  rw [hloop2] at e2
  rw [hloop3] at e3
  rw [hloop4] at e4
  cases e1
  cases e2
  cases e3
  cases e4
  have a1 := head_le_of_nonDecreasing _ hSw _ hhw _ _ hs1
  have a2 := le_getLast_of_nonDecreasing_getElem? _ hSw _ hlw' _ _ hs1
  have b1 := head_le_of_nonDecreasing _ hSw _ hhw _ _ hs2
  have b2 := le_getLast_of_nonDecreasing_getElem? _ hSw _ hlw' _ _ hs2
  have c1 := head_le_of_nonDecreasing _ hSg _ hhg _ _ hs3
  have c2 := le_getLast_of_nonDecreasing_getElem? _ hSg _ hlg' _ _ hs3
  have d1 := head_le_of_nonDecreasing _ hSg _ hhg _ _ hs4
  have d2 := le_getLast_of_nonDecreasing_getElem? _ hSg _ hlg' _ _ hs4
  refine ⟨⟨a1, a2⟩, ⟨c1, c2⟩, ⟨?_, ?_⟩, ⟨?_, ?_⟩⟩ <;> simp only [] <;> linarith

/-- A column that starts with two non-positive entries followed by a positive
one has its first positive entry in row 2. -/
theorem firstPositiveAt_two (a b k : Scalar) (rest : List Scalar) (ha : a ≤ 0) (hb : b ≤ 0)
    (hk : 0 < k) : firstPositiveAt (a :: b :: k :: rest) 2 := by
  refine ⟨⟨k, by simp, hk⟩, ?_⟩
  intro j hj x hx
  interval_cases j
  · simp at hx
    rw [← hx]
    exact ha
  · simp at hx
    rw [← hx]
    exact hb

/-- The Krg column of the sample gas-oil table has its first positive entry in
row 2. -/
theorem firstPositiveAt_sampleSgof : firstPositiveAt sampleSgof.getKrgColumn 2 :=
  firstPositiveAt_two 0 0 (3/10) [9/10] (le_refl _) (le_refl _) (by norm_num)

/-- The Krog column of the sample gas-oil table has its last positive entry in
row 2. -/
theorem lastPositiveAt_sampleSgof : lastPositiveAt sampleSgof.getKrogColumn 2 := by
  refine ⟨⟨1/10, by simp [SgofTable.getKrogColumn, sampleSgof], by norm_num⟩, ?_⟩
  intro m hm k hk
  have hlt : m < 4 := by
    by_contra hcon
    rw [List.getElem?_eq_none (by simp [SgofTable.getKrogColumn, sampleSgof]; omega)] at hk
    cases hk
  interval_cases m
  simp [SgofTable.getKrogColumn, sampleSgof] at hk
  simp [← hk]

/-- C18 at the sample tables: the Sw and Sg columns are non-decreasing, each
search selects a row, and the extraction returns an ordered record. -/
theorem extractUnscaled_family1_ordered_witness :
    nonDecreasing sampleSwof.getSwColumn ∧ nonDecreasing sampleSgof.getSgColumn ∧
    forwardSearchSelects sampleSwof.getKrwColumn ∧
    backwardSearchSelects sampleSwof.getKrowColumn ∧
    forwardSearchSelects sampleSgof.getKrgColumn ∧
    backwardSearchSelects sampleSgof.getKrogColumn ∧
    ∃ r, extractUnscaled scenarioInfo sampleFamily1 0 = .ok r ∧ orderedEndpoints r := by
  have hSw : nonDecreasing sampleSwof.getSwColumn := by
    simp [nonDecreasing, SwofTable.getSwColumn, sampleSwof]; norm_num
  have hSg : nonDecreasing sampleSgof.getSgColumn := by
    simp [nonDecreasing, SgofTable.getSgColumn, sampleSgof]; norm_num
  have h1 : forwardSearchSelects sampleSwof.getKrwColumn :=
    ⟨2, by decide, firstPositiveAt_sampleSwof⟩
  have h2 : backwardSearchSelects sampleSwof.getKrowColumn :=
    ⟨2, by simp [SwofTable.getKrowColumn, sampleSwof], lastPositiveAt_sampleSwof⟩
  have h3 : forwardSearchSelects sampleSgof.getKrgColumn :=
    ⟨2, by decide, firstPositiveAt_sampleSgof⟩
  have h4 : backwardSearchSelects sampleSgof.getKrogColumn :=
    ⟨2, by simp [SgofTable.getKrogColumn, sampleSgof], lastPositiveAt_sampleSgof⟩
  exact ⟨hSw, hSg, h1, h2, h3, h4,
    extractUnscaled_family1_ordered scenarioInfo sampleFamily1 0 sampleSwof sampleSgof rfl rfl
      hSw hSg h1 h2 h3 h4⟩

/-- C20: on the family 1 path with non-empty tables, when none of the four
searches fails its assertion, `extractUnscaled` completes with a record, and a
search whose column has no strictly positive entry leaves its field as the
record held it before the call: Swcr for Krw, Sowcr for Krow, Sgcr for Krg and
Sogcr for Krog. -/
theorem extractUnscaled_family1_no_positive (self : EclEpsScalingPointsInfo)
    (st : EclipseState) (idx : Int) (tw : SwofTable) (tg : SgofTable)
    (htw : vectorAt st.getSwofTables idx = .ok tw)
    (htg : vectorAt st.getSgofTables idx = .ok tg)
    (hw : tw.rows ≠ []) (hg : tg.rows ≠ [])
    (h1 : forwardSearchPasses tw.getKrwColumn) (h2 : backwardSearchPasses tw.getKrowColumn)
    (h3 : forwardSearchPasses tg.getKrgColumn) (h4 : backwardSearchPasses tg.getKrogColumn) :
    ∃ r, extractUnscaled self st idx = .ok r ∧
      (noPositive tw.getKrwColumn → r.Swcr = self.Swcr) ∧
      (noPositive tw.getKrowColumn → r.Sowcr = self.Sowcr) ∧
      (noPositive tg.getKrgColumn → r.Sgcr = self.Sgcr) ∧
      (noPositive tg.getKrogColumn → r.Sogcr = self.Sogcr) := by
  obtain ⟨r, hr⟩ :=
    extractUnscaled_family1_of_passes self st idx tw tg htw htg hw hg h1 h2 h3 h4
  refine ⟨r, hr, ?_⟩
  obtain ⟨fw, lw, fg, lg, swcr, sowcr, sgcr, sogcr, -, -, -, -, e1, e2, e3, e4, rfl⟩ :=
    extractUnscaled_family1_ok self st idx tw tg r htw htg hr
  refine ⟨fun hno => ?_, fun hno => ?_, fun hno => ?_, fun hno => ?_⟩
  · rw [criticalSaturationForward_of_noPositive _ _ _ _
      (by simp [SwofTable.getKrwColumn, SwofTable.numRows]) hno _ _ rfl] at e1
    exact (Except.ok.inj e1).symm
  · rw [criticalSaturationBackward_of_noPositive _ _ _ _ hno _
      (by simp [SwofTable.getKrowColumn, SwofTable.numRows])] at e2
    exact (Except.ok.inj e2).symm
  · rw [criticalSaturationForward_of_noPositive _ _ _ _
      (by simp [SgofTable.getKrgColumn, SgofTable.numRows]) hno _ _ rfl] at e3
    exact (Except.ok.inj e3).symm
  · rw [criticalSaturationBackward_of_noPositive _ _ _ _ hno _
      (by simp [SgofTable.getKrogColumn, SgofTable.numRows])] at e4
    exact (Except.ok.inj e4).symm

/-- C20 at an oil-water table with Krw = [0, 0, 0] and the record of the
scenario, whose Swcr is 0.3: the extraction completes and Swcr is 0.3 still. -/
theorem extractUnscaled_family1_no_positive_witness :
    noPositive immobileWaterSwof.getKrwColumn ∧
    ∃ r, extractUnscaled scenarioInfo immobileWaterFamily1 0 = .ok r ∧ r.Swcr = 3/10 := by
  have hno : noPositive immobileWaterSwof.getKrwColumn := by
    intro k hk
    simp [SwofTable.getKrwColumn, immobileWaterSwof] at hk
    rw [hk]
  have h2 : backwardSearchPasses immobileWaterSwof.getKrowColumn := by
    refine Or.inr ⟨1, by simp [SwofTable.getKrowColumn, immobileWaterSwof], ?_⟩
    refine ⟨⟨2/10, by simp [SwofTable.getKrowColumn, immobileWaterSwof], by norm_num⟩, ?_⟩
    intro m hm k hk
    have hlt : m < 3 := by
      by_contra hcon
      rw [List.getElem?_eq_none
        (by simp [SwofTable.getKrowColumn, immobileWaterSwof]; omega)] at hk
      cases hk
    interval_cases m
    simp [SwofTable.getKrowColumn, immobileWaterSwof] at hk
    simp [← hk]
  obtain ⟨r, hr, hswcr, -⟩ :=
    extractUnscaled_family1_no_positive scenarioInfo immobileWaterFamily1 0 immobileWaterSwof
      sampleSgof rfl rfl (by simp [immobileWaterSwof]) (by simp [sampleSgof]) (Or.inl hno) h2
      (Or.inr ⟨2, by decide, firstPositiveAt_sampleSgof⟩)
      (Or.inr ⟨2, by simp [SgofTable.getKrogColumn, sampleSgof], lastPositiveAt_sampleSgof⟩)
  exact ⟨hno, r, hr, by rw [hswcr hno]; rfl⟩

/-! ## Family 2 -/

/-- The family 2 sample evaluates to a record; its Sowl is the first So plus
the value of Sgl before the call. -/
theorem extractUnscaled_sampleFamily2 (self : EclEpsScalingPointsInfo) :
    extractUnscaled self sampleFamily2 0 = .ok
      { Swl := 2/10, Sgl := 0, Sowl := 0 + self.Sgl, Sogl := 0 + 2/10,
        Swcr := 4/10, Sgcr := 1/10, Sowcr := 2/10, Sogcr := 2/10,
        Swu := 1, Sgu := 8/10, Sowu := 8/10, Sogu := 1 - 0,
        maxPcow := 4, maxPcgo := 1,
        maxKrw := 6/10, maxKrow := 9/10, maxKrog := 9/10, maxKrg := 6/10 } := by
  rw [extractUnscaled_family2_eq self sampleFamily2 0 sampleSwfn sampleSof3 sampleSgfn
    ⟨2/10, 0, 4⟩ ⟨1, 6/10, 0⟩ ⟨0, 0, 0⟩ ⟨8/10, 9/10, 9/10⟩ ⟨0, 0, 0⟩ ⟨8/10, 6/10, 1⟩
    rfl rfl rfl rfl rfl rfl rfl rfl rfl rfl]
  have hw : criticalSaturationForward sampleSwfn.getKrwColumn sampleSwfn.getSwColumn
      sampleSwfn.numRows self.Swcr 0 = .ok (4/10) := by
    have hfp : firstPositiveAt sampleSwfn.getKrwColumn 2 :=
      firstPositiveAt_two 0 0 (1/10) [3/10, 6/10] (le_refl _) (le_refl _) (by norm_num)
    rw [criticalSaturationForward_of_firstPositiveAt _ _ _ _ 2 (by decide) hfp 2 0 rfl]
    simp [SwfnTable.getSwColumn, sampleSwfn]
  have how : criticalSaturationForward sampleSof3.getKrowColumn sampleSof3.getSoColumn
      sampleSof3.numRows self.Sowcr 0 = .ok (2/10) := by
    have hfp : firstPositiveAt sampleSof3.getKrowColumn 2 :=
      firstPositiveAt_two 0 0 (4/10) [9/10] (le_refl _) (le_refl _) (by norm_num)
    rw [criticalSaturationForward_of_firstPositiveAt _ _ _ _ 2 (by decide) hfp 2 0 rfl]
    simp [Sof3Table.getSoColumn, sampleSof3]
  have hog : criticalSaturationForward sampleSof3.getKrogColumn sampleSof3.getSoColumn
      sampleSof3.numRows self.Sogcr 0 = .ok (2/10) := by
    have hfp : firstPositiveAt sampleSof3.getKrogColumn 2 :=
      firstPositiveAt_two 0 0 (3/10) [9/10] (le_refl _) (le_refl _) (by norm_num)
    rw [criticalSaturationForward_of_firstPositiveAt _ _ _ _ 2 (by decide) hfp 2 0 rfl]
    simp [Sof3Table.getSoColumn, sampleSof3]
  have hg : criticalSaturationForward sampleSgfn.getKrgColumn sampleSgfn.getSgColumn
      sampleSgfn.numRows self.Sgcr 0 = .ok (1/10) := by
    have hfp : firstPositiveAt sampleSgfn.getKrgColumn 2 :=
      firstPositiveAt_two 0 0 (3/10) [6/10] (le_refl _) (le_refl _) (by norm_num)
    rw [criticalSaturationForward_of_firstPositiveAt _ _ _ _ 2 (by decide) hfp 2 0 rfl]
    simp [SgfnTable.getSgColumn, sampleSgfn]
  rw [hw, how, hog, hg]
  have a1 : assert (decide ((8/10 : Scalar) = 1 - 2/10)) = .ok () := by
    have : (8/10 : Scalar) = 1 - 2/10 := by norm_num
    simp [assert, this]
  have a2 : assert (decide ((6/10 : Scalar) = 6/10)) = .ok () := by
    simp [assert]
  simp only [Except.bind, a1, a2]
  simp [assert]

/-- On the family 2 path every record that `extractUnscaled` returns has Sowl
equal to the first So plus the value of Sgl before the call, and Sogl equal
to the first So plus the first Sw. -/
theorem extractUnscaled_family2_connate_oil (self : EclEpsScalingPointsInfo)
    (st : EclipseState) (idx : Int) (tw : SwfnTable) (tso : Sof3Table) (tg : SgfnTable)
    (r : EclEpsScalingPointsInfo)
    (hfam : st.getSwofTables = [] ∨ st.getSgofTables = [])
    (htw : vectorAt st.getSwfnTables idx = .ok tw)
    (htso : vectorAt st.getSof3Tables idx = .ok tso)
    (htg : vectorAt st.getSgfnTables idx = .ok tg)
    (hr : extractUnscaled self st idx = .ok r) :
    ∃ firstSo firstSw, tso.getSoColumn.head? = some firstSo ∧
      tw.getSwColumn.head? = some firstSw ∧
      r.Sowl = firstSo + self.Sgl ∧ r.Sogl = firstSo + firstSw := by
  have hfam1 : (!st.getSgofTables.isEmpty && !st.getSwofTables.isEmpty) = false := by
    rcases hfam with h | h <;> simp [h]
  obtain ⟨fw, lw, fo, lo, fg, lg, swcr, sowcr, sogcr, sgcr, hfw, -, hfo, -, -, -, -, -, -, -,
    -, -, rfl⟩ := extractUnscaled_family2_ok self st idx tw tso tg r hfam1 htw htso htg hr
  exact ⟨fo.So, fw.Sw, by simp [Sof3Table.getSoColumn, List.head?_map, hfo],
    by simp [SwfnTable.getSwColumn, List.head?_map, hfw], rfl, rfl⟩

/-- C13, the code at a failing input: a record that holds Sgl = 0.3 before the
call and the family 2 sample, whose first So, first Sg and first Sw are 0, 0
and 0.2.  The extraction returns Sgl = 0 and Sogl = 0 + 0.2, but
Sowl = 0 + 0.3, the first So plus the value of Sgl before the call, and not
0 + 0, the first So plus the first Sg. -/
theorem extractUnscaled_family2_Sowl_stale :
    sampleSof3.getSoColumn.head? = some 0 ∧ sampleSgfn.getSgColumn.head? = some 0 ∧
    sampleSwfn.getSwColumn.head? = some (2/10) ∧ staleInfo.Sgl = 3/10 ∧
    ∃ r, extractUnscaled staleInfo sampleFamily2 0 = .ok r ∧
      r.Sgl = 0 ∧ r.Sogl = 0 + 2/10 ∧ r.Sowl = 0 + 3/10 ∧ r.Sowl ≠ 0 + 0 := by
  refine ⟨rfl, rfl, rfl, rfl, _, extractUnscaled_sampleFamily2 staleInfo, rfl, rfl, rfl, ?_⟩
  simp [staleInfo]

/-- C15 fails as stated for family 2: in the family 2 sample the Krow and the
Krog search both select row 1 of the SOF3 table, whose So is 0.2, and the
extraction returns Sowcr = 0.2 and Sogcr = 0.2, the saturation read and not
its complement 1 - 0.2. -/
theorem extractUnscaled_family2_critical_oil_not_complement :
    firstPositiveAt sampleSof3.getKrowColumn 2 ∧ firstPositiveAt sampleSof3.getKrogColumn 2 ∧
    sampleSof3.getSoColumn[1]? = some (2/10) ∧
    ∃ r, extractUnscaled scenarioInfo sampleFamily2 0 = .ok r ∧
      r.Sowcr = 2/10 ∧ r.Sowcr ≠ 1 - 2/10 ∧ r.Sogcr = 2/10 ∧ r.Sogcr ≠ 1 - 2/10 := by
  refine ⟨firstPositiveAt_two 0 0 (4/10) [9/10] (le_refl _) (le_refl _) (by norm_num),
    firstPositiveAt_two 0 0 (3/10) [9/10] (le_refl _) (le_refl _) (by norm_num), rfl,
    _, extractUnscaled_sampleFamily2 scenarioInfo, rfl, ?_, rfl, ?_⟩ <;> norm_num

/-- C15, amended: in every record that `extractUnscaled` returns, on the
family 1 path Sowcr and Sogcr are complements, 1 minus the Sw respectively Sg
read at the row after the last positive Krow respectively Krog entry; on the
family 2 path, where the columns come from the SOF3 table tabulated against
the oil saturation, Sowcr and Sogcr are the So read at the row before the first
positive Krow respectively Krog entry, without complement. -/
theorem extractUnscaled_critical_oil_by_family (self : EclEpsScalingPointsInfo)
    (st : EclipseState) (idx : Int) (r : EclEpsScalingPointsInfo)
    (hr : extractUnscaled self st idx = .ok r) :
    (∀ (tw : SwofTable) (tg : SgofTable),
      vectorAt st.getSwofTables idx = .ok tw → vectorAt st.getSgofTables idx = .ok tg →
      (∀ j, j + 1 < tw.numRows → lastPositiveAt tw.getKrowColumn j →
        ∃ sw, tw.getSwColumn[j + 1]? = some sw ∧ r.Sowcr = 1 - sw) ∧
      (∀ j, j + 1 < tg.numRows → lastPositiveAt tg.getKrogColumn j →
        ∃ sg, tg.getSgColumn[j + 1]? = some sg ∧ r.Sogcr = 1 - sg)) ∧
    (∀ (tw : SwfnTable) (tso : Sof3Table) (tg : SgfnTable),
      (st.getSwofTables = [] ∨ st.getSgofTables = []) →
      vectorAt st.getSwfnTables idx = .ok tw → vectorAt st.getSof3Tables idx = .ok tso →
      vectorAt st.getSgfnTables idx = .ok tg →
      (∀ i, 0 < i → firstPositiveAt tso.getKrowColumn i →
        ∃ so, tso.getSoColumn[i - 1]? = some so ∧ r.Sowcr = so) ∧
      (∀ i, 0 < i → firstPositiveAt tso.getKrogColumn i →
        ∃ so, tso.getSoColumn[i - 1]? = some so ∧ r.Sogcr = so)) := by
  constructor
  · intro tw tg htw htg
    obtain ⟨fw, lw, fg, lg, swcr, sowcr, sgcr, sogcr, -, -, -, -, -, h2, -, h4, rfl⟩ :=
      extractUnscaled_family1_ok self st idx tw tg r htw htg hr
    constructor
    · intro j hj hlast
      obtain ⟨sw, hsw, hloop⟩ := criticalSaturationBackward_eq_of_inner tw.getKrowColumn
        tw.getSwColumn tw.numRows (by simp [SwofTable.getKrowColumn, SwofTable.numRows])
        (by simp [SwofTable.getSwColumn, SwofTable.numRows]) j hj hlast
      rw [hloop] at h2
      exact ⟨sw, hsw, (Except.ok.inj h2).symm⟩
    · intro j hj hlast
      obtain ⟨sg, hsg, hloop⟩ := criticalSaturationBackward_eq_of_inner tg.getKrogColumn
        tg.getSgColumn tg.numRows (by simp [SgofTable.getKrogColumn, SgofTable.numRows])
        (by simp [SgofTable.getSgColumn, SgofTable.numRows]) j hj hlast
      rw [hloop] at h4
      exact ⟨sg, hsg, (Except.ok.inj h4).symm⟩
  · intro tw tso tg hfam htw htso htg
    have hfam1 : (!st.getSgofTables.isEmpty && !st.getSwofTables.isEmpty) = false := by
      rcases hfam with h | h <;> simp [h]
    obtain ⟨fw, lw, fo, lo, fg, lg, swcr, sowcr, sogcr, sgcr, -, -, -, -, -, -, -, h2, h3, -,
      -, -, rfl⟩ := extractUnscaled_family2_ok self st idx tw tso tg r hfam1 htw htso htg hr
    constructor
    · intro i hi hfirst
      obtain ⟨so, hso, hloop⟩ := criticalSaturationForward_eq_of_pos tso.getKrowColumn
        tso.getSoColumn tso.numRows (by simp [Sof3Table.getKrowColumn, Sof3Table.numRows])
        (by simp [Sof3Table.getSoColumn, Sof3Table.numRows]) i hi hfirst
      rw [hloop] at h2
      exact ⟨so, hso, (Except.ok.inj h2).symm⟩
    · intro i hi hfirst
      obtain ⟨so, hso, hloop⟩ := criticalSaturationForward_eq_of_pos tso.getKrogColumn
        tso.getSoColumn tso.numRows (by simp [Sof3Table.getKrogColumn, Sof3Table.numRows])
        (by simp [Sof3Table.getSoColumn, Sof3Table.numRows]) i hi hfirst
      rw [hloop] at h3
      exact ⟨so, hso, (Except.ok.inj h3).symm⟩

/-- C15, amended, at the samples: for family 1 the Krow search selects row 3
with Sw = 0.8 and Sowcr is 1 - 0.8; for family 2 the Krow search selects row 1
with So = 0.2 and Sowcr is 0.2. -/
theorem extractUnscaled_critical_oil_by_family_witness :
    (∃ r sw, extractUnscaled scenarioInfo sampleFamily1 0 = .ok r ∧
      sampleSwof.getSwColumn[2 + 1]? = some sw ∧ sw = 8/10 ∧ r.Sowcr = 1 - sw) ∧
    (∃ r so, extractUnscaled scenarioInfo sampleFamily2 0 = .ok r ∧
      sampleSof3.getSoColumn[2 - 1]? = some so ∧ so = 2/10 ∧ r.Sowcr = so) := by
  constructor
  · obtain ⟨sw, hsw, hval⟩ :=
      ((extractUnscaled_critical_oil_by_family scenarioInfo sampleFamily1 0 _
        (extractUnscaled_sampleFamily1 scenarioInfo)).1 sampleSwof sampleSgof rfl rfl).1 2
        (by decide) lastPositiveAt_sampleSwof
    refine ⟨_, sw, extractUnscaled_sampleFamily1 scenarioInfo, hsw, ?_, hval⟩
    have : (8/10 : Scalar) = sw := by
      simpa [SwofTable.getSwColumn, sampleSwof] using hsw
    exact this.symm
  · obtain ⟨so, hso, hval⟩ :=
      ((extractUnscaled_critical_oil_by_family scenarioInfo sampleFamily2 0 _
        (extractUnscaled_sampleFamily2 scenarioInfo)).2 sampleSwfn sampleSof3 sampleSgfn
        (Or.inl rfl) rfl rfl rfl).1 2 (by decide)
        (firstPositiveAt_two 0 0 (4/10) [9/10] (le_refl _) (le_refl _) (by norm_num))
    refine ⟨_, so, extractUnscaled_sampleFamily2 scenarioInfo, hso, ?_, hval⟩
    have : (2/10 : Scalar) = so := by
      simpa [Sof3Table.getSoColumn, sampleSof3] using hso
    exact this.symm

/-- C16: on the family 2 path `extractUnscaled` validates its cross-checks.
Every record it returns comes from tables in which the last Krw of the SWFN
table equals the last Krg of the SGFN table and the last So of the SOF3 table
equals 1 minus the first Sw of the SWFN table, and has maxKrw = maxKrg; if
either equality fails the extraction fails, by the failed assertion when the
tables are non-empty. -/
theorem extractUnscaled_family2_cross_checks (self : EclEpsScalingPointsInfo)
    (st : EclipseState) (idx : Int) (tw : SwfnTable) (tso : Sof3Table) (tg : SgfnTable)
    (hfam : st.getSwofTables = [] ∨ st.getSgofTables = [])
    (htw : vectorAt st.getSwfnTables idx = .ok tw)
    (htso : vectorAt st.getSof3Tables idx = .ok tso)
    (htg : vectorAt st.getSgfnTables idx = .ok tg) :
    (∀ r, extractUnscaled self st idx = .ok r →
      ∃ lastKrw lastKrg lastSo firstSw,
        tw.getKrwColumn.getLast? = some lastKrw ∧ tg.getKrgColumn.getLast? = some lastKrg ∧
        tso.getSoColumn.getLast? = some lastSo ∧ tw.getSwColumn.head? = some firstSw ∧
        lastKrw = lastKrg ∧ lastSo = 1 - firstSw ∧ r.maxKrw = r.maxKrg) ∧
    (∀ lastKrw lastKrg lastSo firstSw,
      tw.getKrwColumn.getLast? = some lastKrw → tg.getKrgColumn.getLast? = some lastKrg →
      tso.getSoColumn.getLast? = some lastSo → tw.getSwColumn.head? = some firstSw →
      (lastKrw ≠ lastKrg ∨ lastSo ≠ 1 - firstSw) →
      extractUnscaled self st idx = .error .assertionFailure) := by
  have hfam1 : (!st.getSgofTables.isEmpty && !st.getSwofTables.isEmpty) = false := by
    rcases hfam with h | h <;> simp [h]
  have hinv : ∀ r, extractUnscaled self st idx = .ok r →
      ∃ lastKrw lastKrg lastSo firstSw,
        tw.getKrwColumn.getLast? = some lastKrw ∧ tg.getKrgColumn.getLast? = some lastKrg ∧
        tso.getSoColumn.getLast? = some lastSo ∧ tw.getSwColumn.head? = some firstSw ∧
        lastKrw = lastKrg ∧ lastSo = 1 - firstSw ∧ r.maxKrw = r.maxKrg := by
    intro r hr
    obtain ⟨fw, lw, fo, lo, fg, lg, swcr, sowcr, sogcr, sgcr, hfw, hlw, -, hlo, -, hlg, -, -, -,
      -, a1, a2, rfl⟩ := extractUnscaled_family2_ok self st idx tw tso tg r hfam1 htw htso htg hr
    exact ⟨lw.Krw, lg.Krg, lo.So, fw.Sw,
      by simp [SwfnTable.getKrwColumn, List.getLast?_map, hlw],
      by simp [SgfnTable.getKrgColumn, List.getLast?_map, hlg],
      by simp [Sof3Table.getSoColumn, List.getLast?_map, hlo],
      by simp [SwfnTable.getSwColumn, List.head?_map, hfw], a2, a1, a2⟩
  refine ⟨hinv, ?_⟩
  intro lastKrw lastKrg lastSo firstSw h1 h2 h3 h4 hne
  have hw : tw.rows ≠ [] := by
    intro hnil
    simp [SwfnTable.getKrwColumn, hnil] at h1
  have hg : tg.rows ≠ [] := by
    intro hnil
    simp [SgfnTable.getKrgColumn, hnil] at h2
  have ho : tso.rows ≠ [] := by
    intro hnil
    simp [Sof3Table.getSoColumn, hnil] at h3
  cases hres : extractUnscaled self st idx with
  | error f =>
    rw [extractUnscaled_family2_failure self st idx tw tso tg f hfam1 htw htso htg hw ho hg hres]
  | ok r =>
    exfalso
    obtain ⟨a, b, c, d, e1, e2, e3, e4, hab, hcd, -⟩ := hinv r hres
    rw [h1] at e1
    rw [h2] at e2
    rw [h3] at e3
    rw [h4] at e4
    cases e1
    cases e2
    cases e3
    cases e4
    rcases hne with h | h
    · exact h hab
    · exact h hcd

/-- C16 at the samples: the family 2 sample passes both cross-checks and
returns a record with maxKrw = maxKrg = 0.6; with a gas table whose last Krg
is 0.9 against the last Krw 0.6 the extraction fails the assertion. -/
theorem extractUnscaled_family2_cross_checks_witness :
    (∃ r, extractUnscaled scenarioInfo sampleFamily2 0 = .ok r ∧
      r.maxKrw = 6/10 ∧ r.maxKrg = 6/10) ∧
    sampleSwfn.getKrwColumn.getLast? = some (6/10) ∧
    unequalSgfn.getKrgColumn.getLast? = some (9/10) ∧
    extractUnscaled scenarioInfo unequalFamily2 0 = .error .assertionFailure := by
  refine ⟨⟨_, extractUnscaled_sampleFamily2 scenarioInfo, rfl, rfl⟩, rfl, rfl, ?_⟩
  exact (extractUnscaled_family2_cross_checks scenarioInfo unequalFamily2 0 sampleSwfn
    sampleSof3 unequalSgfn (Or.inl rfl) rfl rfl rfl).2 (6/10) (9/10) (8/10) (2/10) rfl rfl rfl rfl
    (Or.inl (by norm_num))

/-! ## Frame of `init` in two-point mode -/

/-- C21: in two-point mode `init` leaves entry 2 of both relative-permeability
breakpoint arrays as the prior object held it, for both subsystems; every other
stored value (both capillary-pressure points, entries 0 and 1 of both
relative-permeability arrays and the three maxima) is the same whatever the
prior object was, so it is determined by the end points and the subsystem. -/
theorem init_twoPoint_frame (s : EclEpsScalingPoints) (e : EclEpsScalingPointsInfo)
    (epsSystemType : EclTwoPhaseSystemType) :
    (init s e ⟨false⟩ epsSystemType).saturationKrwPoints 2 = s.saturationKrwPoints 2 ∧
    (init s e ⟨false⟩ epsSystemType).saturationKrnPoints 2 = s.saturationKrnPoints 2 ∧
    ∀ t : EclEpsScalingPoints,
      (init s e ⟨false⟩ epsSystemType).saturationPcPoints
        = (init t e ⟨false⟩ epsSystemType).saturationPcPoints ∧
      (init s e ⟨false⟩ epsSystemType).saturationKrwPoints 0
        = (init t e ⟨false⟩ epsSystemType).saturationKrwPoints 0 ∧
      (init s e ⟨false⟩ epsSystemType).saturationKrwPoints 1
        = (init t e ⟨false⟩ epsSystemType).saturationKrwPoints 1 ∧
      (init s e ⟨false⟩ epsSystemType).saturationKrnPoints 0
        = (init t e ⟨false⟩ epsSystemType).saturationKrnPoints 0 ∧
      (init s e ⟨false⟩ epsSystemType).saturationKrnPoints 1
        = (init t e ⟨false⟩ epsSystemType).saturationKrnPoints 1 ∧
      (init s e ⟨false⟩ epsSystemType).maxPcnw = (init t e ⟨false⟩ epsSystemType).maxPcnw ∧
      (init s e ⟨false⟩ epsSystemType).maxKrw = (init t e ⟨false⟩ epsSystemType).maxKrw ∧
      (init s e ⟨false⟩ epsSystemType).maxKrn = (init t e ⟨false⟩ epsSystemType).maxKrn := by
  cases epsSystemType
  · refine ⟨?_, ?_, fun t => ⟨?_, ?_, ?_, ?_, ?_, rfl, rfl, rfl⟩⟩
    · simp [init_gasOil_twoPoint_eq, saturationKrwPoints]
    · simp [init_gasOil_twoPoint_eq, saturationKrnPoints]
    · funext i
      fin_cases i <;> simp [init_gasOil_twoPoint_eq, saturationPcPoints]
    · simp [init_gasOil_twoPoint_eq, saturationKrwPoints]
    · simp [init_gasOil_twoPoint_eq, saturationKrwPoints]
    · simp [init_gasOil_twoPoint_eq, saturationKrnPoints]
    · simp [init_gasOil_twoPoint_eq, saturationKrnPoints]
  · refine ⟨?_, ?_, fun t => ⟨?_, ?_, ?_, ?_, ?_, rfl, rfl, rfl⟩⟩
    · simp [init_oilWater_twoPoint_eq, saturationKrwPoints]
    · simp [init_oilWater_twoPoint_eq, saturationKrnPoints]
    · funext i
      fin_cases i <;> simp [init_oilWater_twoPoint_eq, saturationPcPoints]
    · simp [init_oilWater_twoPoint_eq, saturationKrwPoints]
    · simp [init_oilWater_twoPoint_eq, saturationKrwPoints]
    · simp [init_oilWater_twoPoint_eq, saturationKrnPoints]
    · simp [init_oilWater_twoPoint_eq, saturationKrnPoints]

/-- C21 at a prior object whose entries 2 are 7 and 9, with the end points of
the scenario and the oil-water system: after `init` in two-point mode the
entries 2 are 7 and 9 still, and entries 0 and 1 are those of the scenario. -/
theorem init_twoPoint_frame_scenario :
    (init priorPoints scenarioInfo ⟨false⟩ .EclOilWaterSystem).saturationKrwPoints 2 = 7 ∧
    (init priorPoints scenarioInfo ⟨false⟩ .EclOilWaterSystem).saturationKrnPoints 2 = 9 ∧
    (init priorPoints scenarioInfo ⟨false⟩ .EclOilWaterSystem).saturationKrwPoints 1
      = (init zeroPoints scenarioInfo ⟨false⟩ .EclOilWaterSystem).saturationKrwPoints 1 := by
  obtain ⟨h1, h2, h3⟩ := init_twoPoint_frame priorPoints scenarioInfo .EclOilWaterSystem
  refine ⟨?_, ?_, (h3 zeroPoints).2.2.1⟩
  · rw [h1]
    simp [saturationKrwPoints, priorPoints]
  · rw [h2]
    simp [saturationKrnPoints, priorPoints]

end Opm
